import Mathlib

/-!
# Acer WMI laptop extras (`facer.c`): accessors, event router, thermal and turbo keys, start-up

A shallow embedding of the generic accessor (`get_u32` / `set_u32` and the
per-interface accessors they dispatch to, `set_u8_array`), of the GUID3
device-status transaction, of `acer_thermal_profile_change`, of the explicit
profile set and the profile registration, of `acer_toggle_turbo` with its
fan-mode packing, of the event router `acer_wmi_notify` and of the module
initialisation `acer_wmi_init`.

The module's global variables are the fields of `State`; what the kernel and
the command line hand to the initialisation is an `init_env`.  The firmware is
an oracle `Firmware` that answers every call from the list of calls made so far;
every call the driver makes is appended to `State.log`, so "no firmware call"
is "the log is unchanged".  Machine integers are `Nat` / `Int`; byte buffers
are lists of bytes read little-endian, as on the x86 machines the driver is
built for.
-/

namespace Facer

/-! ## ACPI status words and errno values (kernel headers) -/

/-- An `acpi_status` is a 32-bit status word. -/
abbrev acpi_status := Nat

/-- Status word `AE_OK`. -/
def AE_OK : acpi_status := 0x0000

/-- Status word `AE_ERROR`. -/
def AE_ERROR : acpi_status := 0x0001

/-- Status word `AE_SUPPORT` ("the feature is not supported"); `facer.c` never uses it. -/
def AE_SUPPORT : acpi_status := 0x000F

/-- Status word `AE_BAD_PARAMETER`. -/
def AE_BAD_PARAMETER : acpi_status := 0x1001

/-- Kernel test `ACPI_FAILURE(a)`: the status word is non-zero. -/
def ACPI_FAILURE (a : acpi_status) : Bool := a != 0

/-- Kernel test `ACPI_SUCCESS(a)`: the status word is zero. -/
def ACPI_SUCCESS (a : acpi_status) : Bool := a == 0

/-- Conversion of a C `int` to the 32-bit `acpi_status`. -/
def int_to_acpi_status (i : Int) : acpi_status := (i % 4294967296).toNat

/-- Conversion of a C `int` to `u64`. -/
def int_to_u64 (i : Int) : Nat := (i % 18446744073709551616).toNat

/-- Errno value of an input/output error. -/
def EIO : Int := 5

/-- Errno value of an unsupported operation. -/
def EOPNOTSUPP : Int := 95

/-- Failure kinds that the accessor contract tells apart. -/
inductive ErrorKind where
  | Unsupported
  | BadParameter
  | Failure
  deriving DecidableEq, Repr

/-- Kind under which a status word is reported: `AE_BAD_PARAMETER` is the
bad-parameter status, `AE_SUPPORT` the not-supported status, every other
non-zero word a plain failure, and `AE_OK` no error. -/
def errorKind (st : acpi_status) : Option ErrorKind :=
  if st = AE_OK then none
  else if st = AE_BAD_PARAMETER then some ErrorKind.BadParameter
  else if st = AE_SUPPORT then some ErrorKind.Unsupported
  else some ErrorKind.Failure

/-! ## Constants of `facer.c` -/

def ACER_AMW0_WRITE : Nat := 0x9610
def ACER_AMW0_WIRELESS_MASK : Nat := 0x35
def ACER_AMW0_BLUETOOTH_MASK : Nat := 0x34
def ACER_AMW0_MAILLED_MASK : Nat := 0x31

def ACER_WMID_GET_WIRELESS_METHODID : Nat := 1
def ACER_WMID_GET_BLUETOOTH_METHODID : Nat := 2
def ACER_WMID_GET_BRIGHTNESS_METHODID : Nat := 3
def ACER_WMID_SET_WIRELESS_METHODID : Nat := 4
def ACER_WMID_SET_BLUETOOTH_METHODID : Nat := 5
def ACER_WMID_SET_BRIGHTNESS_METHODID : Nat := 6
def ACER_WMID_GET_THREEG_METHODID : Nat := 10
def ACER_WMID_SET_THREEG_METHODID : Nat := 11

def ACER_WMID_GET_GAMING_SYS_INFO_METHODID : Nat := 5
def ACER_WMID_SET_GAMING_MISC_SETTING_METHODID : Nat := 22

def ACER_WMID_CMD_GET_PREDATOR_V4_BAT_STATUS : Nat := 0x02

def ACER_PREDATOR_V4_THERMAL_PROFILE_EC_OFFSET : Nat := 0x54

def ACER_WMID3_GDS_WIRELESS : Nat := 1 <<< 0
def ACER_WMID3_GDS_THREEG : Nat := 1 <<< 6
def ACER_WMID3_GDS_WIMAX : Nat := 1 <<< 7
def ACER_WMID3_GDS_BLUETOOTH : Nat := 1 <<< 11
def ACER_WMID3_GDS_RFBTN : Nat := 1 <<< 14
def ACER_WMID3_GDS_TOUCHPAD : Nat := 1 <<< 1

def ACER_CAP_MAILLED : Nat := 1 <<< 0
def ACER_CAP_WIRELESS : Nat := 1 <<< 1
def ACER_CAP_BLUETOOTH : Nat := 1 <<< 2
def ACER_CAP_BRIGHTNESS : Nat := 1 <<< 3
def ACER_CAP_THREEG : Nat := 1 <<< 4
def ACER_CAP_SET_FUNCTION_MODE : Nat := 1 <<< 5
def ACER_CAP_KBD_DOCK : Nat := 1 <<< 6
def ACER_CAP_TURBO_OC : Nat := 1 <<< 7
def ACER_CAP_TURBO_LED : Nat := 1 <<< 8
def ACER_CAP_TURBO_FAN : Nat := 1 <<< 9
def ACER_CAP_PLATFORM_PROFILE : Nat := 1 <<< 10
def ACER_CAP_FAN_SPEED_READ : Nat := 1 <<< 11
def ACER_CAP_GAMINGKB : Nat := 1 <<< 12
def ACER_CAP_GAMINGKB_STATIC : Nat := 1 <<< 13

/-- Values of `enum acer_predator_v4_thermal_profile_ec`. -/
def ACER_PREDATOR_V4_THERMAL_PROFILE_ECO : Nat := 0x04
def ACER_PREDATOR_V4_THERMAL_PROFILE_TURBO : Nat := 0x03
def ACER_PREDATOR_V4_THERMAL_PROFILE_PERFORMANCE : Nat := 0x02
def ACER_PREDATOR_V4_THERMAL_PROFILE_QUIET : Nat := 0x01
def ACER_PREDATOR_V4_THERMAL_PROFILE_BALANCED : Nat := 0x00

/-- Values of `enum acer_predator_v4_thermal_profile_wmi`. -/
def ACER_PREDATOR_V4_THERMAL_PROFILE_ECO_WMI : Int := 0x060B
def ACER_PREDATOR_V4_THERMAL_PROFILE_TURBO_WMI : Int := 0x050B
def ACER_PREDATOR_V4_THERMAL_PROFILE_PERFORMANCE_WMI : Int := 0x040B
def ACER_PREDATOR_V4_THERMAL_PROFILE_QUIET_WMI : Int := 0x0B
def ACER_PREDATOR_V4_THERMAL_PROFILE_BALANCED_WMI : Int := 0x010B

/-- Interface type flags (`enum interface_flags`). -/
inductive interface_flags where
  | ACER_AMW0
  | ACER_AMW0_V2
  | ACER_WMID
  | ACER_WMID_v2
  | ACER_WMID_GAMING
  deriving DecidableEq, Repr

/-- Per-machine quirk record (`struct quirk_entry`). -/
structure quirk_entry where
  wireless : Nat := 0
  mailled : Nat := 0
  brightness : Int := 0
  bluetooth : Nat := 0
  turbo : Nat := 0
  cpu_fans : Nat := 0
  gpu_fans : Nat := 0
  predator_v4 : Nat := 0
  deriving DecidableEq, Repr

/-- The ACPI method GUIDs the driver addresses. -/
inductive Guid where
  | AMW0_GUID1
  | AMW0_GUID2
  | WMID_GUID1
  | WMID_GUID2
  | WMID_GUID3
  | WMID_GUID4
  | ACERWMID_EVENT_GUID
  deriving DecidableEq, Repr

/-! ## Firmware transport -/

/-- Input buffer handed to `wmi_evaluate_method`, by the C type it is built from. -/
inductive wmi_input where
  | u32 (v : Nat)
  | u64 (v : Nat)
  | wmab_args (eax ebx ecx edx : Nat)
  | wmid3_gds_get_input_param (function_num hotkey_number devices : Nat)
  | wmid3_gds_set_input_param (function_num hotkey_number devices volume_value : Nat)
  | bytes (b : List Nat)
  deriving DecidableEq, Repr

/-- A call that reaches the firmware. -/
inductive fw_call where
  | wmi_evaluate_method (guid : Guid) (inst : Nat) (method_id : Nat) (input : wmi_input)
  | wmi_query_block (guid : Guid) (inst : Nat)
  | ec_read (addr : Nat)
  | ec_write (addr : Nat) (val : Nat)
  | i8042_command (param : Nat) (command : Nat)
  | gsensor_RDVL
  deriving DecidableEq, Repr

/-- Object returned by the firmware (`union acpi_object`): a byte buffer, an
integer, or an object of another type. -/
inductive acpi_object where
  | buffer (b : List Nat)
  | integer (value : Nat)
  | other (type : Nat)
  deriving DecidableEq, Repr

/-- The firmware: each answer may depend on all the calls made before. -/
structure Firmware where
  wmi_evaluate_method : List fw_call → Guid → Nat → wmi_input → acpi_status × Option acpi_object
  wmi_query_block : List fw_call → Guid → acpi_status × Option acpi_object
  ec_read : List fw_call → Nat → Int × Nat
  ec_write : List fw_call → Nat → Nat → Int
  gsensor_RDVL : List fw_call → acpi_status × List Nat := fun _ => (AE_ERROR, [])

/-- The three radio kill switches the driver registers. -/
inductive rfkill_dev where
  | wireless_rfkill
  | bluetooth_rfkill
  | threeg_rfkill
  deriving DecidableEq, Repr

/-- Axes of the accelerometer input device. -/
inductive abs_axis where
  | ABS_X
  | ABS_Y
  | ABS_Z
  deriving DecidableEq, Repr

/-- What the driver reports to the other kernel subsystems, call by call. -/
inductive out_event where
  | platform_profile_notify
  | rfkill_set_sw_state (rfkill : rfkill_dev) (blocked : Bool)
  | sparse_keymap_report_event (code : Nat) (value : Nat) (autorelease : Bool)
  | input_report_switch_tablet_mode (value : Nat)
  | input_sync_input_dev
  | input_report_abs (axis : abs_axis) (value : Int)
  | input_sync_accel_dev
  deriving DecidableEq, Repr

/-- Kernel macro `KERNEL_VERSION(a, b, c)`. -/
def KERNEL_VERSION (a b c : Nat) : Nat := a * 65536 + b * 256 + (if c > 255 then 255 else c)

/-- The module's global variables, the kernel version the module is built
against (`LINUX_VERSION_CODE`), the log of firmware calls and the reports made.
Fields `interface_type` and `capability` are those of the struct `interface`
points to; `gaming_capability` is `wmid_gaming_interface.capability`, the only
struct `gaming_interface` ever points to, and `gaming_interface` says whether
that pointer is non-NULL, as `acer_wmi_accel_dev` does for its pointer;
`wmid_devices` is `interface->debug.wmid_devices`. -/
structure State where
  interface_type : interface_flags
  capability : Nat
  quirks : quirk_entry
  guids : List Guid
  max_brightness : Nat := 0xF
  commun_func_bitmap : Nat := 0
  commun_fn_key_number : Nat := 0
  cycle_gaming_thermal_profile : Bool := true
  last_non_turbo_profile : Int := -2147483648
  log : List fw_call := []
  events : List out_event := []
  turbo_state : Int := 0
  macro_key_state : Nat := 0
  acer_predator_v4_max_perf : Int := 0
  acer_wmi_accel_dev : Bool := false
  LINUX_VERSION_CODE : Nat := KERNEL_VERSION 6 14 0
  gaming_interface : Bool := false
  gaming_capability : Nat := 0
  has_type_aa : Bool := false
  platform_profile_support : Bool := false
  wmid_devices : Nat := 0
  deriving DecidableEq, Repr

/-- Source macro `RTLNX_VER_MIN`: the kernel built against is at least `a.b.c`. -/
def RTLNX_VER_MIN (s : State) (a b c : Nat) : Bool := s.LINUX_VERSION_CODE ≥ KERNEL_VERSION a b c

/-- Source macro `RTLNX_VER_MAX`: the kernel built against is older than `a.b.c`. -/
def RTLNX_VER_MAX (s : State) (a b c : Nat) : Bool := s.LINUX_VERSION_CODE < KERNEL_VERSION a b c

/-- Driver-side `wmi_has_guid`. -/
def wmi_has_guid (s : State) (g : Guid) : Bool := s.guids.contains g

/-- Driver-side `wmi_evaluate_method`: ask the firmware, record the call. -/
def wmi_evaluate_method (fw : Firmware) (s : State) (g : Guid) (method_id : Nat)
    (input : wmi_input) : (acpi_status × Option acpi_object) × State :=
  (fw.wmi_evaluate_method s.log g method_id input,
   { s with log := s.log ++ [fw_call.wmi_evaluate_method g 0 method_id input] })

/-- Driver-side `wmi_query_block`. -/
def wmi_query_block (fw : Firmware) (s : State) (g : Guid) :
    (acpi_status × Option acpi_object) × State :=
  (fw.wmi_query_block s.log g, { s with log := s.log ++ [fw_call.wmi_query_block g 0] })

/-- Driver-side `ec_read`: the error code and the byte the caller's variable
holds afterwards.  The kernel's `ec_read` stores the register's value only
when it succeeds, so with a non-zero error the byte is whatever the variable
held before (indeterminate for an uninitialised local); the oracle supplies
that byte as well. -/
def ec_read (fw : Firmware) (s : State) (addr : Nat) : (Int × Nat) × State :=
  (((fw.ec_read s.log addr).1, (fw.ec_read s.log addr).2 % 256),
   { s with log := s.log ++ [fw_call.ec_read addr] })

/-- Driver-side `ec_write`. -/
def ec_write (fw : Firmware) (s : State) (addr val : Nat) : Int × State :=
  (fw.ec_write s.log addr (val % 256), { s with log := s.log ++ [fw_call.ec_write addr (val % 256)] })

/-- Driver-side `i8042_command`; its result is never looked at. -/
def i8042_command (s : State) (param command : Nat) : State :=
  { s with log := s.log ++ [fw_call.i8042_command param command] }

/-! ## Reading little-endian fields out of a returned buffer -/

/-- Byte `i` of a buffer. -/
def byte_at (b : List Nat) (i : Nat) : Nat := (b.getD i 0) % 256

/-- The `u16` at byte offset `i`. -/
def le_u16 (b : List Nat) (i : Nat) : Nat := byte_at b i + 256 * byte_at b (i + 1)

/-- The `u32` at byte offset `i`. -/
def le_u32 (b : List Nat) (i : Nat) : Nat := le_u16 b i + 65536 * le_u16 b (i + 2)

/-- The `u64` at byte offset `i`. -/
def le_u64 (b : List Nat) (i : Nat) : Nat := le_u32 b i + 4294967296 * le_u32 b (i + 4)

/-- General interface convenience method `has_cap`. -/
def has_cap (s : State) (cap : Nat) : Bool := s.capability &&& cap != 0

/-! ## AMW0 (V1) interface -/

/-- Source function `wmab_execute`: method 1 of `AMW0_GUID1` on the register block. -/
def wmab_execute (fw : Firmware) (s : State) (eax ebx ecx edx : Nat) :
    (acpi_status × Option acpi_object) × State :=
  wmi_evaluate_method fw s Guid.AMW0_GUID1 1 (wmi_input.wmab_args eax ebx ecx edx)

/-- One arm of the switches in `AMW0_get_u32`: read EC register `addr`, fail
with `AE_ERROR` on a read error, else report `(result >> shift) & mask`. -/
def AMW0_get_ec (fw : Firmware) (s : State) (addr shift mask : Nat) :
    (acpi_status × Option Nat) × State :=
  let r := ec_read fw s addr
  if r.1.1 ≠ 0 then ((AE_ERROR, none), r.2)
  else ((AE_OK, some ((r.1.2 >>> shift) &&& mask)), r.2)

/-- Source function `AMW0_get_u32`: the status and the value stored through
`value` (`none` when nothing is stored). -/
def AMW0_get_u32 (fw : Firmware) (s : State) (cap : Nat) : (acpi_status × Option Nat) × State :=
  if cap = ACER_CAP_MAILLED then AMW0_get_ec fw s 0xA 7 0x1
  else if cap = ACER_CAP_WIRELESS then
    if s.quirks.wireless = 1 then AMW0_get_ec fw s 0x7B 0 0x1
    else if s.quirks.wireless = 2 then AMW0_get_ec fw s 0x71 0 0x1
    else if s.quirks.wireless = 3 then AMW0_get_ec fw s 0x78 0 0x1
    else AMW0_get_ec fw s 0xA 2 0x1
  else if cap = ACER_CAP_BLUETOOTH then AMW0_get_ec fw s 0xA 4 0x1
  else if cap = ACER_CAP_BRIGHTNESS then AMW0_get_ec fw s 0x83 0 0xFF
  else ((AE_ERROR, none), s)

/-- Source function `AMW0_set_u32`. -/
def AMW0_set_u32 (fw : Firmware) (s : State) (value cap : Nat) : acpi_status × State :=
  let ebx := if value ≠ 0 then 1 <<< 8 else 0
  if cap = ACER_CAP_MAILLED then
    if value > 1 then (AE_BAD_PARAMETER, s)
    else
      let r := wmab_execute fw s ACER_AMW0_WRITE (ebx ||| ACER_AMW0_MAILLED_MASK) 0 0
      (r.1.1, r.2)
  else if cap = ACER_CAP_WIRELESS then
    if value > 1 then (AE_BAD_PARAMETER, s)
    else
      let r := wmab_execute fw s ACER_AMW0_WRITE (ebx ||| ACER_AMW0_WIRELESS_MASK) 0 0
      (r.1.1, r.2)
  else if cap = ACER_CAP_BLUETOOTH then
    if value > 1 then (AE_BAD_PARAMETER, s)
    else
      let r := wmab_execute fw s ACER_AMW0_WRITE (ebx ||| ACER_AMW0_BLUETOOTH_MASK) 0 0
      (r.1.1, r.2)
  else if cap = ACER_CAP_BRIGHTNESS then
    if value > s.max_brightness then (AE_BAD_PARAMETER, s)
    else
      let r := ec_write fw s 0x83 value
      (int_to_acpi_status r.1, r.2)
  else (AE_ERROR, s)

/-! ## WMID interface -/

/-- The `u32` that `WMI_execute_u32` takes out of the returned object. -/
def result_u32 (obj : Option acpi_object) : Nat :=
  match obj with
  | some (acpi_object.buffer b) => if b.length = 4 ∨ b.length = 8 then le_u32 b 0 else 0
  | some (acpi_object.integer v) => v % 4294967296
  | _ => 0

/-- Source function `WMI_execute_u32`: the status and `tmp`, the word that is
stored through `out` when `out` is not NULL (`none` when the call failed). -/
def WMI_execute_u32 (fw : Firmware) (s : State) (method_id in_ : Nat) :
    (acpi_status × Option Nat) × State :=
  let r := wmi_evaluate_method fw s Guid.WMID_GUID1 method_id (wmi_input.u32 in_)
  if ACPI_FAILURE r.1.1 then ((r.1.1, none), r.2)
  else ((r.1.1, some (result_u32 r.1.2)), r.2)

/-- Source function `WMID_get_u32`.  On the mail-LED quirk path the error of
`ec_read` is not looked at: the status is 0 and the value is bit 0 of the byte
the local `tmp` holds after the call (see `ec_read`). -/
def WMID_get_u32 (fw : Firmware) (s : State) (cap : Nat) : (acpi_status × Option Nat) × State :=
  let run := fun (method_id : Nat) =>
    let r := WMI_execute_u32 fw s method_id 0
    if ACPI_SUCCESS r.1.1 then ((r.1.1, r.1.2.map (fun w => w % 256)), r.2)
    else ((r.1.1, none), r.2)
  if cap = ACER_CAP_WIRELESS then run ACER_WMID_GET_WIRELESS_METHODID
  else if cap = ACER_CAP_BLUETOOTH then run ACER_WMID_GET_BLUETOOTH_METHODID
  else if cap = ACER_CAP_BRIGHTNESS then run ACER_WMID_GET_BRIGHTNESS_METHODID
  else if cap = ACER_CAP_THREEG then run ACER_WMID_GET_THREEG_METHODID
  else if cap = ACER_CAP_MAILLED then
    if s.quirks.mailled = 1 then
      let r := ec_read fw s 0x9f
      ((0, some (r.1.2 &&& 0x1)), r.2)
    else ((AE_ERROR, none), s)
  else ((AE_ERROR, none), s)

/-- Source function `WMID_set_u32`. -/
def WMID_set_u32 (fw : Firmware) (s : State) (value cap : Nat) : acpi_status × State :=
  let run := fun (method_id : Nat) =>
    let r := WMI_execute_u32 fw s method_id value
    (r.1.1, r.2)
  if cap = ACER_CAP_BRIGHTNESS then
    if value > s.max_brightness then (AE_BAD_PARAMETER, s)
    else run ACER_WMID_SET_BRIGHTNESS_METHODID
  else if cap = ACER_CAP_WIRELESS then
    if value > 1 then (AE_BAD_PARAMETER, s)
    else run ACER_WMID_SET_WIRELESS_METHODID
  else if cap = ACER_CAP_BLUETOOTH then
    if value > 1 then (AE_BAD_PARAMETER, s)
    else run ACER_WMID_SET_BLUETOOTH_METHODID
  else if cap = ACER_CAP_THREEG then
    if value > 1 then (AE_BAD_PARAMETER, s)
    else run ACER_WMID_SET_THREEG_METHODID
  else if cap = ACER_CAP_MAILLED then
    if value > 1 then (AE_BAD_PARAMETER, s)
    else if s.quirks.mailled = 1 then
      (0, i8042_command s (if value ≠ 0 then 0x92 else 0x93) 0x1059)
    else run 0
  else (AE_ERROR, s)

/-! ## GUID3 device status (WMID v2) -/

/-- Source function `wmid3_get_device_status`. -/
def wmid3_get_device_status (fw : Firmware) (s : State) (device : Nat) :
    (acpi_status × Option Nat) × State :=
  let r := wmi_evaluate_method fw s Guid.WMID_GUID3 0x2
    (wmi_input.wmid3_gds_get_input_param 0x1 s.commun_fn_key_number device)
  if ACPI_FAILURE r.1.1 then ((r.1.1, none), r.2)
  else
    match r.1.2 with
    | some (acpi_object.buffer b) =>
      if b.length ≠ 8 then ((AE_ERROR, none), r.2)
      else if byte_at b 0 ≠ 0 ∨ byte_at b 1 ≠ 0 then ((r.1.1, none), r.2)
      else ((r.1.1, some (if le_u16 b 2 &&& device ≠ 0 then 1 else 0)), r.2)
    | _ => ((AE_ERROR, none), r.2)

/-- Source function `wmid_v2_get_u32`. -/
def wmid_v2_get_u32 (fw : Firmware) (s : State) (cap : Nat) : (acpi_status × Option Nat) × State :=
  if cap = ACER_CAP_WIRELESS then wmid3_get_device_status fw s ACER_WMID3_GDS_WIRELESS
  else if cap = ACER_CAP_BLUETOOTH then wmid3_get_device_status fw s ACER_WMID3_GDS_BLUETOOTH
  else if cap = ACER_CAP_THREEG then wmid3_get_device_status fw s ACER_WMID3_GDS_THREEG
  else ((AE_ERROR, none), s)

/-- The `u16` stored in `set_params.devices`:
`(value) ? (devices | device) : (devices & ~device)`. -/
def gds_new_devices (value devices device : Nat) : Nat :=
  if value ≠ 0 then (devices ||| device) % 65536 else devices &&& (0xFFFF ^^^ device)

/-- Source function `wmid3_set_device_status`. -/
def wmid3_set_device_status (fw : Firmware) (s : State) (value device : Nat) :
    acpi_status × State :=
  let r := wmi_evaluate_method fw s Guid.WMID_GUID3 0x2
    (wmi_input.wmid3_gds_get_input_param 0x1 s.commun_fn_key_number s.commun_func_bitmap)
  if ACPI_FAILURE r.1.1 then (r.1.1, r.2)
  else
    match r.1.2 with
    | some (acpi_object.buffer b) =>
      if b.length ≠ 8 then (AE_ERROR, r.2)
      else if byte_at b 0 ≠ 0 ∨ byte_at b 1 ≠ 0 then (r.1.1, r.2)
      else
        let w := wmi_evaluate_method fw r.2 Guid.WMID_GUID3 0x1
          (wmi_input.wmid3_gds_set_input_param 0x2 s.commun_fn_key_number
            (gds_new_devices value (le_u16 b 2) device) 0)
        if ACPI_FAILURE w.1.1 then (w.1.1, w.2)
        else
          match w.1.2 with
          | some (acpi_object.buffer b2) =>
            if b2.length ≠ 4 then (AE_ERROR, w.2) else (w.1.1, w.2)
          | _ => (AE_ERROR, w.2)
    | _ => (AE_ERROR, r.2)

/-- Source function `wmid_v2_set_u32`. -/
def wmid_v2_set_u32 (fw : Firmware) (s : State) (value cap : Nat) : acpi_status × State :=
  if cap = ACER_CAP_WIRELESS then wmid3_set_device_status fw s value ACER_WMID3_GDS_WIRELESS
  else if cap = ACER_CAP_BLUETOOTH then wmid3_set_device_status fw s value ACER_WMID3_GDS_BLUETOOTH
  else if cap = ACER_CAP_THREEG then wmid3_set_device_status fw s value ACER_WMID3_GDS_THREEG
  else (AE_ERROR, s)

/-- The `devices` word that `WMID_set_capabilities` takes out of the queried
block; `none` for the shapes on which it returns `AE_ERROR`. -/
def discovery_word (obj : Option acpi_object) : Option Nat :=
  match obj with
  | some (acpi_object.buffer b) => if b.length = 4 ∨ b.length = 8 then some (le_u32 b 0) else none
  | some (acpi_object.integer v) => some (v % 4294967296)
  | _ => none

/-- Source function `WMID_set_capabilities`: runtime discovery on `WMID_GUID2`. -/
def WMID_set_capabilities (fw : Firmware) (s : State) : acpi_status × State :=
  let r := wmi_query_block fw s Guid.WMID_GUID2
  if ACPI_FAILURE r.1.1 then (r.1.1, r.2)
  else
    match discovery_word r.1.2 with
    | none => (AE_ERROR, r.2)
    | some devices =>
      let c1 := if devices &&& 0x07 ≠ 0 then r.2.capability ||| ACER_CAP_WIRELESS
        else r.2.capability
      let c2 := if devices &&& 0x40 ≠ 0 then c1 ||| ACER_CAP_THREEG else c1
      let c3 := if devices &&& 0x10 ≠ 0 then c2 ||| ACER_CAP_BLUETOOTH else c2
      let mb := if devices &&& 0x20 = 0 then 0x9 else r.2.max_brightness
      (r.1.1, { r.2 with capability := c3, max_brightness := mb })

/-! ## Generic device (interface-independent) -/

/-- Source function `get_u32`. -/
def get_u32 (fw : Firmware) (s : State) (cap : Nat) : (acpi_status × Option Nat) × State :=
  match s.interface_type with
  | interface_flags.ACER_AMW0 => AMW0_get_u32 fw s cap
  | interface_flags.ACER_AMW0_V2 =>
    if cap = ACER_CAP_MAILLED then AMW0_get_u32 fw s cap else WMID_get_u32 fw s cap
  | interface_flags.ACER_WMID => WMID_get_u32 fw s cap
  | interface_flags.ACER_WMID_v2 =>
    if cap &&& (ACER_CAP_WIRELESS ||| ACER_CAP_BLUETOOTH ||| ACER_CAP_THREEG) ≠ 0 then
      wmid_v2_get_u32 fw s cap
    else if wmi_has_guid s Guid.WMID_GUID2 then WMID_get_u32 fw s cap
    else ((AE_ERROR, none), s)
  | interface_flags.ACER_WMID_GAMING => ((AE_ERROR, none), s)

/-- Source function `set_u32`. -/
def set_u32 (fw : Firmware) (s : State) (value cap : Nat) : acpi_status × State :=
  if s.capability &&& cap ≠ 0 then
    match s.interface_type with
    | interface_flags.ACER_AMW0 => AMW0_set_u32 fw s value cap
    | interface_flags.ACER_AMW0_V2 =>
      if cap = ACER_CAP_MAILLED then AMW0_set_u32 fw s value cap
      else if cap = ACER_CAP_WIRELESS ∨ cap = ACER_CAP_BLUETOOTH then
        let r := WMID_set_u32 fw s value cap
        if ACPI_FAILURE r.1 then r else AMW0_set_u32 fw r.2 value cap
      else WMID_set_u32 fw s value cap
    | interface_flags.ACER_WMID => WMID_set_u32 fw s value cap
    | interface_flags.ACER_WMID_v2 =>
      if cap &&& (ACER_CAP_WIRELESS ||| ACER_CAP_BLUETOOTH ||| ACER_CAP_THREEG) ≠ 0 then
        wmid_v2_set_u32 fw s value cap
      else if wmi_has_guid s Guid.WMID_GUID2 then WMID_set_u32 fw s value cap
      else (AE_BAD_PARAMETER, s)
    | interface_flags.ACER_WMID_GAMING => (AE_BAD_PARAMETER, s)
  else (AE_BAD_PARAMETER, s)

/-! ## WMID gaming interface and the thermal profile key -/

/-- The `u64` that `WMI_gaming_execute_u64` takes out of the returned object. -/
def result_u64 (obj : Option acpi_object) : Nat :=
  match obj with
  | some (acpi_object.buffer b) =>
    if b.length = 4 then le_u32 b 0 else if b.length = 8 then le_u64 b 0 else 0
  | some (acpi_object.integer v) => v % 18446744073709551616
  | _ => 0

/-- Source function `WMI_gaming_execute_u64`: the status and `tmp`, the word
stored through `out` when `out` is not NULL (`none` when the call failed). -/
def WMI_gaming_execute_u64 (fw : Firmware) (s : State) (method_id in_ : Nat) :
    (acpi_status × Option Nat) × State :=
  let r := wmi_evaluate_method fw s Guid.WMID_GUID4 method_id (wmi_input.u64 in_)
  if ACPI_FAILURE r.1.1 then ((r.1.1, none), r.2)
  else ((r.1.1, some (result_u64 r.1.2)), r.2)

/-- The `switch (current_tp)` of `acer_thermal_profile_change`: the target
`tp`, or `none` in the `default` arm. -/
def thermal_profile_switch (current_tp on_AC : Nat) (cycle_gaming_thermal_profile : Bool)
    (last_non_turbo_profile : Int) : Option Int :=
  if current_tp = ACER_PREDATOR_V4_THERMAL_PROFILE_TURBO then
    if on_AC = 0 then some ACER_PREDATOR_V4_THERMAL_PROFILE_BALANCED_WMI
    else if cycle_gaming_thermal_profile then some ACER_PREDATOR_V4_THERMAL_PROFILE_ECO_WMI
    else some last_non_turbo_profile
  else if current_tp = ACER_PREDATOR_V4_THERMAL_PROFILE_PERFORMANCE then
    if on_AC = 0 then some ACER_PREDATOR_V4_THERMAL_PROFILE_BALANCED_WMI
    else some ACER_PREDATOR_V4_THERMAL_PROFILE_TURBO_WMI
  else if current_tp = ACER_PREDATOR_V4_THERMAL_PROFILE_BALANCED then
    if on_AC = 0 then some ACER_PREDATOR_V4_THERMAL_PROFILE_ECO_WMI
    else if cycle_gaming_thermal_profile then
      some ACER_PREDATOR_V4_THERMAL_PROFILE_PERFORMANCE_WMI
    else some ACER_PREDATOR_V4_THERMAL_PROFILE_TURBO_WMI
  else if current_tp = ACER_PREDATOR_V4_THERMAL_PROFILE_QUIET then
    if on_AC = 0 then some ACER_PREDATOR_V4_THERMAL_PROFILE_BALANCED_WMI
    else if cycle_gaming_thermal_profile then some ACER_PREDATOR_V4_THERMAL_PROFILE_BALANCED_WMI
    else some ACER_PREDATOR_V4_THERMAL_PROFILE_TURBO_WMI
  else if current_tp = ACER_PREDATOR_V4_THERMAL_PROFILE_ECO then
    if on_AC = 0 then some ACER_PREDATOR_V4_THERMAL_PROFILE_BALANCED_WMI
    else if cycle_gaming_thermal_profile then some ACER_PREDATOR_V4_THERMAL_PROFILE_QUIET_WMI
    else some ACER_PREDATOR_V4_THERMAL_PROFILE_TURBO_WMI
  else none

/-- Source function `acer_thermal_profile_change`: the `int` returned and the
state left behind. -/
def acer_thermal_profile_change (fw : Firmware) (s : State) : Int × State :=
  if s.quirks.predator_v4 ≠ 0 then
    let r := ec_read fw s ACER_PREDATOR_V4_THERMAL_PROFILE_EC_OFFSET
    if r.1.1 < 0 then (r.1.1, r.2)
    else
      let q := WMI_gaming_execute_u64 fw r.2 ACER_WMID_GET_GAMING_SYS_INFO_METHODID
        ACER_WMID_CMD_GET_PREDATOR_V4_BAT_STATUS
      if ACPI_FAILURE q.1.1 then (- EIO, q.2)
      else
        match thermal_profile_switch r.1.2 (q.1.2.getD 0) s.cycle_gaming_thermal_profile
            s.last_non_turbo_profile with
        | none => (- EOPNOTSUPP, q.2)
        | some tp =>
          let w := WMI_gaming_execute_u64 fw q.2 ACER_WMID_SET_GAMING_MISC_SETTING_METHODID
            (int_to_u64 tp)
          if ACPI_FAILURE w.1.1 then (- EIO, w.2)
          else
            let s4 := if tp ≠ ACER_PREDATOR_V4_THERMAL_PROFILE_TURBO_WMI
              then { w.2 with last_non_turbo_profile := tp } else w.2
            (0, { s4 with events := s4.events ++ [out_event.platform_profile_notify] })
  else (0, s)

/-! ## The thermal profiles and their firmware codes -/

/-- The five thermal profiles. -/
inductive ThermalProfile where
  | Eco
  | Quiet
  | Balanced
  | Performance
  | Turbo
  deriving DecidableEq, Repr

/-- Code of a profile in `enum acer_predator_v4_thermal_profile_ec`. -/
def ThermalProfile.ec : ThermalProfile → Nat
  | ThermalProfile.Eco => ACER_PREDATOR_V4_THERMAL_PROFILE_ECO
  | ThermalProfile.Quiet => ACER_PREDATOR_V4_THERMAL_PROFILE_QUIET
  | ThermalProfile.Balanced => ACER_PREDATOR_V4_THERMAL_PROFILE_BALANCED
  | ThermalProfile.Performance => ACER_PREDATOR_V4_THERMAL_PROFILE_PERFORMANCE
  | ThermalProfile.Turbo => ACER_PREDATOR_V4_THERMAL_PROFILE_TURBO

/-- Code of a profile in `enum acer_predator_v4_thermal_profile_wmi`. -/
def ThermalProfile.wmi : ThermalProfile → Int
  | ThermalProfile.Eco => ACER_PREDATOR_V4_THERMAL_PROFILE_ECO_WMI
  | ThermalProfile.Quiet => ACER_PREDATOR_V4_THERMAL_PROFILE_QUIET_WMI
  | ThermalProfile.Balanced => ACER_PREDATOR_V4_THERMAL_PROFILE_BALANCED_WMI
  | ThermalProfile.Performance => ACER_PREDATOR_V4_THERMAL_PROFILE_PERFORMANCE_WMI
  | ThermalProfile.Turbo => ACER_PREDATOR_V4_THERMAL_PROFILE_TURBO_WMI

/-- The fixed order of the specification:
Eco, Quiet, Balanced, Performance, Turbo, and back to Eco. -/
def ThermalProfile.successor : ThermalProfile → ThermalProfile
  | ThermalProfile.Eco => ThermalProfile.Quiet
  | ThermalProfile.Quiet => ThermalProfile.Balanced
  | ThermalProfile.Balanced => ThermalProfile.Performance
  | ThermalProfile.Performance => ThermalProfile.Turbo
  | ThermalProfile.Turbo => ThermalProfile.Eco

/-- The write of thermal-profile word `tp` on the set-misc-setting method. -/
def profile_write (tp : Int) : fw_call :=
  fw_call.wmi_evaluate_method Guid.WMID_GUID4 0 ACER_WMID_SET_GAMING_MISC_SETTING_METHODID
    (wmi_input.u64 (int_to_u64 tp))

/-- The two queries that precede the write: the profile byte in the EC and
the power-source query. -/
def profile_queries : List fw_call :=
  [fw_call.ec_read ACER_PREDATOR_V4_THERMAL_PROFILE_EC_OFFSET,
   fw_call.wmi_evaluate_method Guid.WMID_GUID4 0 ACER_WMID_GET_GAMING_SYS_INFO_METHODID
     (wmi_input.u64 ACER_WMID_CMD_GET_PREDATOR_V4_BAT_STATUS)]

/-! ## Turbo button and platform profile -/

def ACER_WMID_SET_GAMING_LED_METHODID : Nat := 2
def ACER_WMID_SET_GAMING_STATIC_LED_METHODID : Nat := 6
def ACER_WMID_SET_GAMING_FAN_BEHAVIOR : Nat := 14

/-- Values of `enum acer_wmi_gaming_misc_setting`. -/
def ACER_WMID_MISC_SETTING_OC_1 : Nat := 0x0005
def ACER_WMID_MISC_SETTING_OC_2 : Nat := 0x0007
def ACER_WMID_MISC_SETTING_SUPPORTED_PROFILES : Nat := 0x000A
def ACER_WMID_MISC_SETTING_PLATFORM_PROFILE : Nat := 0x000B

/-- Source function `WMID_gaming_set_u64`. -/
def WMID_gaming_set_u64 (fw : Firmware) (s : State) (value cap : Nat) : acpi_status × State :=
  let run := fun (method_id : Nat) =>
    let r := WMI_gaming_execute_u64 fw s method_id value
    (r.1.1, r.2)
  if s.capability &&& cap = 0 then (AE_BAD_PARAMETER, s)
  else if cap = ACER_CAP_TURBO_LED then run ACER_WMID_SET_GAMING_LED_METHODID
  else if cap = ACER_CAP_TURBO_FAN then run ACER_WMID_SET_GAMING_FAN_BEHAVIOR
  else if cap = ACER_CAP_TURBO_OC then run ACER_WMID_SET_GAMING_MISC_SETTING_METHODID
  else if cap = ACER_CAP_GAMINGKB_STATIC then run ACER_WMID_SET_GAMING_STATIC_LED_METHODID
  else (AE_BAD_PARAMETER, s)

/-- The word `gpu_fan_config2` of `WMID_gaming_set_fan_mode` after its three
steps (the shifts are those of the C code as long as they stay below bit 31). -/
def gpu_fan_config2 (cpu_fans gpu_fans : Nat) : Nat :=
  let c0 := if cpu_fans > 0 then 1 else 0
  let c1 := (List.range (cpu_fans + gpu_fans)).foldl (fun acc i => acc ||| (1 <<< (i + 1))) c0
  (List.range gpu_fans).foldl (fun acc i => acc ||| (1 <<< (i + 3))) c1

/-- The word `gpu_fan_config1` of `WMID_gaming_set_fan_mode` after its three steps. -/
def gpu_fan_config1 (cpu_fans gpu_fans fan_mode : Nat) : Nat :=
  let c0 := if cpu_fans > 0 then fan_mode else 0
  let c1 := (List.range (cpu_fans + gpu_fans)).foldl
    (fun acc i => acc ||| (fan_mode <<< (2 * i + 2))) c0
  (List.range gpu_fans).foldl (fun acc i => acc ||| (fan_mode <<< (2 * i + 6))) c1

/-- Source function `WMID_gaming_set_fan_mode`; the status of the write is dropped. -/
def WMID_gaming_set_fan_mode (fw : Firmware) (s : State) (fan_mode : Nat) : State :=
  (WMID_gaming_set_u64 fw s
    ((gpu_fan_config2 s.quirks.cpu_fans s.quirks.gpu_fans |||
      (gpu_fan_config1 s.quirks.cpu_fans s.quirks.gpu_fans (fan_mode % 256) <<< 16))
        % 18446744073709551616)
    ACER_CAP_TURBO_FAN).2

/-- Source function `WMID_gaming_set_misc_setting`. -/
def WMID_gaming_set_misc_setting (fw : Firmware) (s : State) (setting value : Nat) :
    Int × State :=
  let input := (setting &&& 0xFF) ||| (((value % 256) <<< 8) &&& 0xFF00)
  let r := WMI_gaming_execute_u64 fw s ACER_WMID_SET_GAMING_MISC_SETTING_METHODID input
  if ACPI_FAILURE r.1.1 then (- EIO, r.2)
  else if (r.1.2.getD 0) &&& 0xFF ≠ 0 then (- EIO, r.2)
  else (0, r.2)

/-- Source function `acer_toggle_turbo` (Predator series turbo button). -/
def acer_toggle_turbo (fw : Firmware) (s : State) : State :=
  if s.turbo_state ≠ 0 then
    let s0 := { s with turbo_state := 0 }
    let s1 := (WMID_gaming_set_u64 fw s0 0x1 ACER_CAP_TURBO_LED).2
    let s2 := WMID_gaming_set_fan_mode fw s1 0x1
    let s3 := (WMID_gaming_set_u64 fw s2 0x5 ACER_CAP_TURBO_OC).2
    (WMID_gaming_set_u64 fw s3 0x7 ACER_CAP_TURBO_OC).2
  else
    let s0 := { s with turbo_state := 1 }
    let s1 := (WMID_gaming_set_u64 fw s0 0x10001 ACER_CAP_TURBO_LED).2
    let s2 := WMID_gaming_set_fan_mode fw s1 0x2
    let s3 := (WMID_gaming_set_u64 fw s2 0x205 ACER_CAP_TURBO_OC).2
    (WMID_gaming_set_u64 fw s3 0x207 ACER_CAP_TURBO_OC).2

/-- Kernel `enum platform_profile_option`. -/
inductive platform_profile_option where
  | PLATFORM_PROFILE_LOW_POWER
  | PLATFORM_PROFILE_COOL
  | PLATFORM_PROFILE_QUIET
  | PLATFORM_PROFILE_BALANCED
  | PLATFORM_PROFILE_BALANCED_PERFORMANCE
  | PLATFORM_PROFILE_PERFORMANCE
  | PLATFORM_PROFILE_CUSTOM
  | PLATFORM_PROFILE_LAST
  deriving DecidableEq, Repr

/-- The `switch (profile)` of `acer_predator_v4_platform_profile_set`: the
code `tp`, or `none` in the `default` arm. -/
def platform_profile_switch (profile : platform_profile_option) : Option Int :=
  match profile with
  | platform_profile_option.PLATFORM_PROFILE_PERFORMANCE =>
    some ACER_PREDATOR_V4_THERMAL_PROFILE_TURBO
  | platform_profile_option.PLATFORM_PROFILE_BALANCED_PERFORMANCE =>
    some ACER_PREDATOR_V4_THERMAL_PROFILE_PERFORMANCE
  | platform_profile_option.PLATFORM_PROFILE_BALANCED =>
    some ACER_PREDATOR_V4_THERMAL_PROFILE_BALANCED
  | platform_profile_option.PLATFORM_PROFILE_QUIET =>
    some ACER_PREDATOR_V4_THERMAL_PROFILE_QUIET
  | platform_profile_option.PLATFORM_PROFILE_LOW_POWER =>
    some ACER_PREDATOR_V4_THERMAL_PROFILE_ECO
  | _ => none

/-- The write step of `acer_predator_v4_platform_profile_set`: through
`WMID_gaming_set_misc_setting` from kernel 6.14 on, a bare
`WMI_gaming_execute_u64` before; the `err` it leaves (0 on success). -/
def platform_profile_write (fw : Firmware) (s : State) (tp : Int) : Int × State :=
  if RTLNX_VER_MIN s 6 14 0 then
    WMID_gaming_set_misc_setting fw s ACER_WMID_MISC_SETTING_PLATFORM_PROFILE (int_to_u64 tp)
  else
    let w := WMI_gaming_execute_u64 fw s ACER_WMID_SET_GAMING_MISC_SETTING_METHODID
      (int_to_u64 tp)
    if ACPI_FAILURE w.1.1 then (- EIO, w.2) else (0, w.2)

/-- Source function `acer_predator_v4_platform_profile_set`. -/
def acer_predator_v4_platform_profile_set (fw : Firmware) (s : State)
    (profile : platform_profile_option) : Int × State :=
  match platform_profile_switch profile with
  | none => (- EOPNOTSUPP, s)
  | some tp =>
    let r := platform_profile_write fw s tp
    if r.1 ≠ 0 then (r.1, r.2)
    else if tp ≠ s.acer_predator_v4_max_perf then
      (0, { r.2 with last_non_turbo_profile := tp })
    else (0, r.2)

/-! ## The event router -/

/-- Values of `enum acer_wmi_event_ids`. -/
def WMID_HOTKEY_EVENT : Nat := 0x1
def WMID_ACCEL_OR_KBD_DOCK_EVENT : Nat := 0x5
def WMID_GAMING_TURBO_KEY_EVENT : Nat := 0x7

/-- Entry types of a sparse keymap used by `acer_wmi_keymap`. -/
inductive key_entry_type where
  | KE_KEY
  | KE_IGNORE
  deriving DecidableEq, Repr

/-- The key codes that occur in `acer_wmi_keymap`, by name. -/
inductive keycode where
  | KEY_WLAN | KEY_BLUETOOTH | KEY_PROG1 | KEY_PROG2 | KEY_PROG3 | KEY_PROG4 | KEY_HELP
  | KEY_MUTE | KEY_PREVIOUSSONG | KEY_NEXTSONG | KEY_PLAYPAUSE | KEY_STOP | KEY_VOLUMEUP
  | KEY_VOLUMEDOWN | KEY_UNKNOWN | KEY_BRIGHTNESSUP | KEY_BRIGHTNESSDOWN
  | KEY_SWITCHVIDEOMODE | KEY_SLEEP | KEY_TOUCHPAD_TOGGLE | KEY_KBDILLUMTOGGLE
  | KEY_TOUCHPAD_ON | KEY_TOUCHPAD_OFF | KEY_POWER
  | KEY_F13 | KEY_F14 | KEY_F15 | KEY_F16 | KEY_F17 | KEY_F18 | KEY_F19 | KEY_F20
  | KEY_F21 | KEY_F22 | KEY_F23
  deriving DecidableEq, Repr

/-- Numeric value of `KEY_TOUCHPAD_ON`, used as a scancode by the keymap. -/
def KEY_TOUCHPAD_ON : Nat := 0x213

/-- Numeric value of `KEY_TOUCHPAD_OFF`, used as a scancode by the keymap. -/
def KEY_TOUCHPAD_OFF : Nat := 0x214

/-- One entry of a sparse keymap (`struct key_entry`). -/
structure key_entry where
  type : key_entry_type
  code : Nat
  keycode : keycode
  deriving DecidableEq, Repr

/-- The table `acer_wmi_keymap`, without its `KE_END` terminator. -/
def acer_wmi_keymap : List key_entry :=
  [ ⟨key_entry_type.KE_KEY, 0x01, keycode.KEY_WLAN⟩,
    ⟨key_entry_type.KE_KEY, 0x03, keycode.KEY_WLAN⟩,
    ⟨key_entry_type.KE_KEY, 0x04, keycode.KEY_WLAN⟩,
    ⟨key_entry_type.KE_KEY, 0x12, keycode.KEY_BLUETOOTH⟩,
    ⟨key_entry_type.KE_KEY, 0x21, keycode.KEY_PROG1⟩,
    ⟨key_entry_type.KE_KEY, 0x22, keycode.KEY_PROG2⟩,
    ⟨key_entry_type.KE_KEY, 0x23, keycode.KEY_PROG3⟩,
    ⟨key_entry_type.KE_KEY, 0x24, keycode.KEY_PROG4⟩,
    ⟨key_entry_type.KE_KEY, 0x27, keycode.KEY_HELP⟩,
    ⟨key_entry_type.KE_KEY, 0x29, keycode.KEY_PROG3⟩,
    ⟨key_entry_type.KE_IGNORE, 0x41, keycode.KEY_MUTE⟩,
    ⟨key_entry_type.KE_IGNORE, 0x42, keycode.KEY_PREVIOUSSONG⟩,
    ⟨key_entry_type.KE_IGNORE, 0x4d, keycode.KEY_PREVIOUSSONG⟩,
    ⟨key_entry_type.KE_IGNORE, 0x43, keycode.KEY_NEXTSONG⟩,
    ⟨key_entry_type.KE_IGNORE, 0x4e, keycode.KEY_NEXTSONG⟩,
    ⟨key_entry_type.KE_IGNORE, 0x44, keycode.KEY_PLAYPAUSE⟩,
    ⟨key_entry_type.KE_IGNORE, 0x4f, keycode.KEY_PLAYPAUSE⟩,
    ⟨key_entry_type.KE_IGNORE, 0x45, keycode.KEY_STOP⟩,
    ⟨key_entry_type.KE_IGNORE, 0x50, keycode.KEY_STOP⟩,
    ⟨key_entry_type.KE_IGNORE, 0x48, keycode.KEY_VOLUMEUP⟩,
    ⟨key_entry_type.KE_IGNORE, 0x49, keycode.KEY_VOLUMEDOWN⟩,
    ⟨key_entry_type.KE_IGNORE, 0x4a, keycode.KEY_VOLUMEDOWN⟩,
    ⟨key_entry_type.KE_KEY, 0x61, keycode.KEY_UNKNOWN⟩,
    ⟨key_entry_type.KE_IGNORE, 0x62, keycode.KEY_BRIGHTNESSUP⟩,
    ⟨key_entry_type.KE_IGNORE, 0x63, keycode.KEY_BRIGHTNESSDOWN⟩,
    ⟨key_entry_type.KE_KEY, 0x64, keycode.KEY_SWITCHVIDEOMODE⟩,
    ⟨key_entry_type.KE_IGNORE, 0x81, keycode.KEY_SLEEP⟩,
    ⟨key_entry_type.KE_KEY, 0x82, keycode.KEY_TOUCHPAD_TOGGLE⟩,
    ⟨key_entry_type.KE_IGNORE, 0x84, keycode.KEY_KBDILLUMTOGGLE⟩,
    ⟨key_entry_type.KE_KEY, KEY_TOUCHPAD_ON, keycode.KEY_TOUCHPAD_ON⟩,
    ⟨key_entry_type.KE_KEY, KEY_TOUCHPAD_OFF, keycode.KEY_TOUCHPAD_OFF⟩,
    ⟨key_entry_type.KE_IGNORE, 0x83, keycode.KEY_TOUCHPAD_TOGGLE⟩,
    ⟨key_entry_type.KE_KEY, 0x85, keycode.KEY_TOUCHPAD_TOGGLE⟩,
    ⟨key_entry_type.KE_KEY, 0x86, keycode.KEY_WLAN⟩,
    ⟨key_entry_type.KE_KEY, 0x87, keycode.KEY_POWER⟩,
    ⟨key_entry_type.KE_KEY, 0xda00, keycode.KEY_PROG1⟩,
    ⟨key_entry_type.KE_KEY, 0xda01, keycode.KEY_PROG2⟩,
    ⟨key_entry_type.KE_KEY, 0xda02, keycode.KEY_PROG3⟩,
    ⟨key_entry_type.KE_KEY, 0xda03, keycode.KEY_PROG4⟩,
    ⟨key_entry_type.KE_KEY, 0xda04, keycode.KEY_F13⟩,
    ⟨key_entry_type.KE_KEY, 0xda10, keycode.KEY_F14⟩,
    ⟨key_entry_type.KE_KEY, 0xda11, keycode.KEY_F15⟩,
    ⟨key_entry_type.KE_KEY, 0xda12, keycode.KEY_F16⟩,
    ⟨key_entry_type.KE_KEY, 0xda13, keycode.KEY_F17⟩,
    ⟨key_entry_type.KE_KEY, 0xda14, keycode.KEY_F18⟩,
    ⟨key_entry_type.KE_KEY, 0xda20, keycode.KEY_F19⟩,
    ⟨key_entry_type.KE_KEY, 0xda21, keycode.KEY_F20⟩,
    ⟨key_entry_type.KE_KEY, 0xda22, keycode.KEY_F21⟩,
    ⟨key_entry_type.KE_KEY, 0xda23, keycode.KEY_F22⟩,
    ⟨key_entry_type.KE_KEY, 0xda24, keycode.KEY_F23⟩ ]

/-- Kernel `sparse_keymap_entry_from_scancode` on the input device, whose
keymap is `acer_wmi_keymap`: the first entry with that code. -/
def sparse_keymap_entry_from_scancode (code : Nat) : Option key_entry :=
  acer_wmi_keymap.find? (fun k => k.code == code)

/-- The decoded event (`struct event_return_value`, packed). -/
structure event_return_value where
  function : Nat
  key_num : Nat
  device_state : Nat
  reserved1 : Nat
  kbd_dock_state : Nat
  reserved2 : Nat
  deriving DecidableEq, Repr

/-- The struct that `acer_wmi_notify` copies out of the 8-byte event buffer. -/
def event_of_buffer (b : List Nat) : event_return_value :=
  { function := byte_at b 0, key_num := byte_at b 1, device_state := le_u16 b 2,
    reserved1 := le_u16 b 4, kbd_dock_state := byte_at b 6, reserved2 := byte_at b 7 }

/-- Append one report to the reports made. -/
def emit (s : State) (e : out_event) : State := { s with events := s.events ++ [e] }

/-- Conversion `(s16)` of an integer value. -/
def to_s16 (v : Nat) : Int :=
  if v % 65536 ≥ 32768 then ((v % 65536 : Nat) : Int) - 65536 else ((v % 65536 : Nat) : Int)

/-- Source function `acer_gsensor_event`; the firmware's answer to `RDVL` is
taken to be a package, given by the integer values of its elements. -/
def acer_gsensor_event (fw : Firmware) (s : State) : Int × State :=
  if ¬ s.acer_wmi_accel_dev then (-1, s)
  else
    let r := fw.gsensor_RDVL s.log
    let s1 := { s with log := s.log ++ [fw_call.gsensor_RDVL] }
    if ACPI_FAILURE r.1 then (-1, s1)
    else if r.2.length ≠ 4 then (-1, s1)
    else
      let s2 := emit s1 (out_event.input_report_abs abs_axis.ABS_X (to_s16 (r.2.getD 0 0)))
      let s3 := emit s2 (out_event.input_report_abs abs_axis.ABS_Y (to_s16 (r.2.getD 1 0)))
      let s4 := emit s3 (out_event.input_report_abs abs_axis.ABS_Z (to_s16 (r.2.getD 2 0)))
      (0, emit s4 out_event.input_sync_accel_dev)

/-- Source function `acer_kbd_dock_state_to_sw_tablet_mode`. -/
def acer_kbd_dock_state_to_sw_tablet_mode (kbd_dock_state : Nat) : Nat :=
  if kbd_dock_state = 0x01 then 0
  else if kbd_dock_state = 0x04 ∨ kbd_dock_state = 0x40 then 1
  else 0

/-- Source function `acer_kbd_dock_event`. -/
def acer_kbd_dock_event (s : State) (event : event_return_value) : State :=
  if ¬ has_cap s ACER_CAP_KBD_DOCK then s
  else
    emit (emit s (out_event.input_report_switch_tablet_mode
      (acer_kbd_dock_state_to_sw_tablet_mode event.kbd_dock_state)))
      out_event.input_sync_input_dev

/-- The radio updates of a `KEY_WLAN` / `KEY_BLUETOOTH` hotkey in `acer_wmi_notify`. -/
def notify_rfkill_sync (s : State) (device_state : Nat) : State :=
  let s1 := if has_cap s ACER_CAP_WIRELESS then
      emit s (out_event.rfkill_set_sw_state rfkill_dev.wireless_rfkill
        (device_state &&& ACER_WMID3_GDS_WIRELESS == 0))
    else s
  let s2 := if has_cap s1 ACER_CAP_THREEG then
      emit s1 (out_event.rfkill_set_sw_state rfkill_dev.threeg_rfkill
        (device_state &&& ACER_WMID3_GDS_THREEG == 0))
    else s1
  if has_cap s2 ACER_CAP_BLUETOOTH then
    emit s2 (out_event.rfkill_set_sw_state rfkill_dev.bluetooth_rfkill
      (device_state &&& ACER_WMID3_GDS_BLUETOOTH == 0))
  else s2

/-- The `WMID_HOTKEY_EVENT` arm of `acer_wmi_notify`. -/
def notify_hotkey (s : State) (rv : event_return_value) : State :=
  match sparse_keymap_entry_from_scancode rv.key_num with
  | none => s
  | some key =>
    if key.keycode = keycode.KEY_WLAN ∨ key.keycode = keycode.KEY_BLUETOOTH then
      emit (notify_rfkill_sync s rv.device_state)
        (out_event.sparse_keymap_report_event rv.key_num 1 true)
    else if key.keycode = keycode.KEY_TOUCHPAD_TOGGLE then
      emit s (out_event.sparse_keymap_report_event
        (if rv.device_state &&& ACER_WMID3_GDS_TOUCHPAD ≠ 0 then KEY_TOUCHPAD_ON
          else KEY_TOUCHPAD_OFF) 1 true)
    else emit s (out_event.sparse_keymap_report_event rv.key_num 1 true)

/-- The `WMID_GAMING_TURBO_KEY_EVENT` arm of `acer_wmi_notify`. -/
def notify_turbo_key (fw : Firmware) (s : State) (rv : event_return_value) : State :=
  if rv.key_num = 0x1 then
    if rv.device_state ≥ 1 ∧ rv.device_state ≤ 3 then
      { s with macro_key_state := (rv.device_state - 1) % 256 }
    else s
  else if rv.key_num = 0x2 then
    if rv.device_state ≥ 1 ∧ rv.device_state ≤ 5 then
      emit s (out_event.sparse_keymap_report_event
        (0xda00 + (s.macro_key_state <<< 4) + rv.device_state - 1) 1 true)
    else s
  else if rv.key_num = 0x4 then acer_toggle_turbo fw s
  else if rv.key_num = 0x5 ∧ has_cap s ACER_CAP_PLATFORM_PROFILE then
    (acer_thermal_profile_change fw s).2
  else s

/-- Source function `acer_wmi_notify`.  The event object is `obj`; on kernels
before 6.12 the handler fetches it itself with `wmi_get_event_data`, whose
status is `status`, and from 6.12 on it is handed the object (`status` is
then not looked at). -/
def acer_wmi_notify (fw : Firmware) (s : State) (status : acpi_status)
    (obj : Option acpi_object) : State :=
  if RTLNX_VER_MAX s 6 12 0 ∧ status ≠ AE_OK then s
  else
    match obj with
    | none => s
    | some (acpi_object.buffer b) =>
      if b.length ≠ 8 then s
      else
        let rv := event_of_buffer b
        if rv.function = WMID_HOTKEY_EVENT then notify_hotkey s rv
        else if rv.function = WMID_ACCEL_OR_KBD_DOCK_EVENT then
          acer_kbd_dock_event (acer_gsensor_event fw s).2 rv
        else if rv.function = WMID_GAMING_TURBO_KEY_EVENT then notify_turbo_key fw s rv
        else s
    | some _ => s

/-! ## Named firmware calls -/

/-- The write of brightness `v` on the WMID interface (method 6 of `WMID_GUID1`). -/
def brightness_write (v : Nat) : fw_call :=
  fw_call.wmi_evaluate_method Guid.WMID_GUID1 0 ACER_WMID_SET_BRIGHTNESS_METHODID (wmi_input.u32 v)

/-- The device-status read issued by `wmid3_set_device_status`. -/
def gds_read (s : State) : fw_call :=
  fw_call.wmi_evaluate_method Guid.WMID_GUID3 0 0x2
    (wmi_input.wmid3_gds_get_input_param 0x1 s.commun_fn_key_number s.commun_func_bitmap)

/-- The device-status write of bitmask `devices`. -/
def gds_write (s : State) (devices : Nat) : fw_call :=
  fw_call.wmi_evaluate_method Guid.WMID_GUID3 0 0x1
    (wmi_input.wmid3_gds_set_input_param 0x2 s.commun_fn_key_number devices 0)

/-- A write of word `w` on method `method_id` of the gaming GUID. -/
def gaming_write (method_id w : Nat) : fw_call :=
  fw_call.wmi_evaluate_method Guid.WMID_GUID4 0 method_id (wmi_input.u64 w)

/-- The word that `WMID_gaming_set_fan_mode(fan_mode)` hands to `WMID_gaming_set_u64`. -/
def fan_mode_word (q : quirk_entry) (fan_mode : Nat) : Nat :=
  (gpu_fan_config2 q.cpu_fans q.gpu_fans |||
    (gpu_fan_config1 q.cpu_fans q.gpu_fans (fan_mode % 256) <<< 16)) % 18446744073709551616

/-- The LED word of a turbo state. -/
def turbo_led_code (turbo : Bool) : Nat := if turbo then 0x10001 else 0x1

/-- The fan-behaviour word of a turbo state. -/
def turbo_fan_code (q : quirk_entry) (turbo : Bool) : Nat :=
  fan_mode_word q (if turbo then 0x2 else 0x1)

/-- The first overclock word of a turbo state. -/
def turbo_oc1_code (turbo : Bool) : Nat := if turbo then 0x205 else 0x5

/-- The second overclock word of a turbo state. -/
def turbo_oc2_code (turbo : Bool) : Nat := if turbo then 0x207 else 0x7

/-- The firmware calls of one `acer_toggle_turbo` that enters turbo state
`turbo`, under the capabilities of `s`. -/
def turbo_calls (s : State) (turbo : Bool) : List fw_call :=
  (if s.capability &&& ACER_CAP_TURBO_LED = 0 then []
    else [gaming_write ACER_WMID_SET_GAMING_LED_METHODID (turbo_led_code turbo)]) ++
  (if s.capability &&& ACER_CAP_TURBO_FAN = 0 then []
    else [gaming_write ACER_WMID_SET_GAMING_FAN_BEHAVIOR (turbo_fan_code s.quirks turbo)]) ++
  (if s.capability &&& ACER_CAP_TURBO_OC = 0 then []
    else [gaming_write ACER_WMID_SET_GAMING_MISC_SETTING_METHODID (turbo_oc1_code turbo),
          gaming_write ACER_WMID_SET_GAMING_MISC_SETTING_METHODID (turbo_oc2_code turbo)])

/-- One step of `last_gaming_write`. -/
def last_gaming_write_step (p : Nat → Nat → Bool) (acc : Option Nat) (c : fw_call) :
    Option Nat :=
  match c with
  | fw_call.wmi_evaluate_method g _ m (wmi_input.u64 w) =>
    if g = Guid.WMID_GUID4 ∧ p m w = true then some w else acc
  | _ => acc

/-- The last word in `log` written on the gaming GUID with method and word
accepted by `p`. -/
def last_gaming_write (p : Nat → Nat → Bool) (log : List fw_call) : Option Nat :=
  log.foldl (last_gaming_write_step p) none

/-- The LED word last written. -/
def last_led_code (log : List fw_call) : Option Nat :=
  last_gaming_write (fun m _ => m == ACER_WMID_SET_GAMING_LED_METHODID) log

/-- The fan-behaviour word last written. -/
def last_fan_code (log : List fw_call) : Option Nat :=
  last_gaming_write (fun m _ => m == ACER_WMID_SET_GAMING_FAN_BEHAVIOR) log

/-- The word last written for misc setting `setting` (index in the low byte). -/
def last_misc_setting_code (setting : Nat) (log : List fw_call) : Option Nat :=
  last_gaming_write
    (fun m w => m == ACER_WMID_SET_GAMING_MISC_SETTING_METHODID && w % 256 == setting) log

/-- The word that `acer_predator_v4_platform_profile_set` writes for code `tp`:
index and value packed by `WMID_gaming_set_misc_setting` from kernel 6.14 on,
the bare code before. -/
def platform_profile_word (s : State) (tp : Int) : Nat :=
  if RTLNX_VER_MIN s 6 14 0 then
    (ACER_WMID_MISC_SETTING_PLATFORM_PROFILE &&& 0xFF) |||
      (((int_to_u64 tp % 256) <<< 8) &&& 0xFF00)
  else int_to_u64 tp

/-! ## Test firmwares and machines -/

/-- A firmware that gives every call the same answer. -/
def const_fw (st : acpi_status) (obj : Option acpi_object) (ec_err : Int) (ec_val : Nat) :
    Firmware where
  wmi_evaluate_method := fun _ _ _ _ => (st, obj)
  wmi_query_block := fun _ _ => (st, obj)
  ec_read := fun _ _ => (ec_err, ec_val)
  ec_write := fun _ _ _ => ec_err

/-- Effect of one call on the device-status register of the echoing firmware:
a GUID3 set-device-status call (method 1) replaces it, nothing else touches it. -/
def gds_register_step (r : Nat) (c : fw_call) : Nat :=
  match c with
  | fw_call.wmi_evaluate_method g _ m (wmi_input.wmid3_gds_set_input_param _ _ devices _) =>
    if g = Guid.WMID_GUID3 ∧ m = 0x1 then devices else r
  | _ => r

/-- The device-status register after the calls of `log`, starting from `R`. -/
def gds_register (R : Nat) (log : List fw_call) : Nat := log.foldl gds_register_step R

/-- A firmware that echoes device-status writes: GUID3 method 2 returns the
register in an 8-byte reply with zero error codes, GUID3 method 1 replaces the
register and answers with a 4-byte reply; it offers nothing else. -/
def echo_gds_fw (R : Nat) : Firmware where
  wmi_evaluate_method := fun log g m _ =>
    if g = Guid.WMID_GUID3 ∧ m = 0x2 then
      (AE_OK, some (acpi_object.buffer
        [0, 0, gds_register R log % 256, gds_register R log / 256 % 256, 0, 0, 0, 0]))
    else if g = Guid.WMID_GUID3 ∧ m = 0x1 then (AE_OK, some (acpi_object.buffer [0, 0, 0, 0]))
    else (AE_ERROR, none)
  wmi_query_block := fun _ _ => (AE_ERROR, none)
  ec_read := fun _ _ => (-1, 0)
  ec_write := fun _ _ _ => -1

/-- Effect of one call on the profile byte of the echoing firmware: a
set-misc-setting write of one of the five profile words selects the EC code of
the same profile, nothing else touches it. -/
def thermal_register_step (r : Nat) (c : fw_call) : Nat :=
  match c with
  | fw_call.wmi_evaluate_method g _ m (wmi_input.u64 w) =>
    if g = Guid.WMID_GUID4 ∧ m = ACER_WMID_SET_GAMING_MISC_SETTING_METHODID then
      if w = 0x060B then ACER_PREDATOR_V4_THERMAL_PROFILE_ECO
      else if w = 0x050B then ACER_PREDATOR_V4_THERMAL_PROFILE_TURBO
      else if w = 0x040B then ACER_PREDATOR_V4_THERMAL_PROFILE_PERFORMANCE
      else if w = 0x000B then ACER_PREDATOR_V4_THERMAL_PROFILE_QUIET
      else if w = 0x010B then ACER_PREDATOR_V4_THERMAL_PROFILE_BALANCED
      else r
    else r
  | _ => r

/-- A firmware that echoes profile writes: EC register 0x54 holds the profile
last written (initially `tp0`), the power-source query answers `on_AC`. -/
def echo_thermal_fw (tp0 on_AC : Nat) : Firmware where
  wmi_evaluate_method := fun _ g m _ =>
    if g = Guid.WMID_GUID4 ∧ m = ACER_WMID_GET_GAMING_SYS_INFO_METHODID then
      (AE_OK, some (acpi_object.integer on_AC))
    else if g = Guid.WMID_GUID4 ∧ m = ACER_WMID_SET_GAMING_MISC_SETTING_METHODID then
      (AE_OK, some (acpi_object.integer 0))
    else (AE_ERROR, none)
  wmi_query_block := fun _ _ => (AE_ERROR, none)
  ec_read := fun log addr =>
    if addr = ACER_PREDATOR_V4_THERMAL_PROFILE_EC_OFFSET then
      (0, log.foldl thermal_register_step tp0)
    else (-1, 0)
  ec_write := fun _ _ _ => -1

/-- A WMID machine on which no capability has been detected. -/
def wmid_no_caps : State :=
  { interface_type := interface_flags.ACER_WMID, capability := 0, quirks := {},
    guids := [Guid.WMID_GUID1, Guid.WMID_GUID2] }

/-- A WMID machine with brightness control, before runtime discovery. -/
def wmid_brightness : State :=
  { interface_type := interface_flags.ACER_WMID, capability := ACER_CAP_BRIGHTNESS, quirks := {},
    guids := [Guid.WMID_GUID1, Guid.WMID_GUID2] }

/-- A WMID v2 machine with the three radios. -/
def wmid_v2_radios : State :=
  { interface_type := interface_flags.ACER_WMID_v2,
    capability := ACER_CAP_WIRELESS ||| ACER_CAP_BLUETOOTH ||| ACER_CAP_THREEG,
    quirks := {}, guids := [Guid.WMID_GUID1, Guid.WMID_GUID3],
    commun_func_bitmap := 0x0841 }

/-- A Predator machine with the platform-profile capability, thermal key in cycle mode. -/
def predator_v4_machine : State :=
  { interface_type := interface_flags.ACER_WMID_v2,
    capability := ACER_CAP_PLATFORM_PROFILE ||| ACER_CAP_FAN_SPEED_READ,
    quirks := { turbo := 1, cpu_fans := 1, gpu_fans := 1, predator_v4 := 1 },
    guids := [Guid.WMID_GUID1, Guid.WMID_GUID3, Guid.WMID_GUID4],
    last_non_turbo_profile := ACER_PREDATOR_V4_THERMAL_PROFILE_BALANCED_WMI }

/-- The same Predator machine with the thermal key in turbo toggle mode and
Quiet stored as the last non-turbo profile. -/
def predator_v4_toggle : State :=
  { predator_v4_machine with
    cycle_gaming_thermal_profile := false,
    last_non_turbo_profile := ACER_PREDATOR_V4_THERMAL_PROFILE_QUIET_WMI }

/-- The state after `n` presses of the thermal profile key. -/
def thermal_key_presses (fw : Firmware) : Nat → State → State
  | 0, s => s
  | n + 1, s => thermal_key_presses fw n (acer_thermal_profile_change fw s).2

/-- A Predator machine with the turbo capabilities and the platform profile. -/
def predator_turbo_machine : State :=
  { predator_v4_machine with
    capability := ACER_CAP_TURBO_OC ||| ACER_CAP_TURBO_LED ||| ACER_CAP_TURBO_FAN |||
      ACER_CAP_PLATFORM_PROFILE ||| ACER_CAP_FAN_SPEED_READ }

/-- The same machine built against kernel 6.1. -/
def predator_turbo_machine_6_1 : State :=
  { predator_turbo_machine with LINUX_VERSION_CODE := KERNEL_VERSION 6 1 0 }

/-- An 8-byte event buffer with the given fields. -/
def event_buffer (function key_num device_state kbd_dock_state : Nat) : acpi_object :=
  acpi_object.buffer [function, key_num, device_state % 256, device_state / 256 % 256, 0, 0,
    kbd_dock_state, 0]

/-- The radio-state updates that a radio hotkey with bitmask `device_state`
makes on a machine with capabilities `cap`, in the order they are made. -/
def radio_updates (cap device_state : Nat) : List out_event :=
  (if cap &&& ACER_CAP_WIRELESS ≠ 0 then
    [out_event.rfkill_set_sw_state rfkill_dev.wireless_rfkill
      (device_state &&& ACER_WMID3_GDS_WIRELESS == 0)] else []) ++
  (if cap &&& ACER_CAP_THREEG ≠ 0 then
    [out_event.rfkill_set_sw_state rfkill_dev.threeg_rfkill
      (device_state &&& ACER_WMID3_GDS_THREEG == 0)] else []) ++
  (if cap &&& ACER_CAP_BLUETOOTH ≠ 0 then
    [out_event.rfkill_set_sw_state rfkill_dev.bluetooth_rfkill
      (device_state &&& ACER_WMID3_GDS_BLUETOOTH == 0)] else [])

/-- The shape test of the GUID3 device-status calls: the reply to the read
(method 2) must be a buffer of exactly 8 bytes, the reply to the write
(method 1) a buffer of exactly 4 bytes. -/
def gds_reply_ok (method_id : Nat) (obj : Option acpi_object) : Bool :=
  match obj with
  | some (acpi_object.buffer b) => b.length == (if method_id = 0x2 then 8 else 4)
  | _ => false

/-- A WMID machine with the wireless capability. -/
def wmid_wireless : State :=
  { interface_type := interface_flags.ACER_WMID, capability := ACER_CAP_WIRELESS, quirks := {},
    guids := [Guid.WMID_GUID1, Guid.WMID_GUID2] }

/-! ## The radio writes of the AMW0 V2 interface -/

/-- The Unified (WMID) write of radio `cap` (wireless, else bluetooth) with value `v`. -/
def WMID_radio_write (cap v : Nat) : fw_call :=
  fw_call.wmi_evaluate_method Guid.WMID_GUID1 0
    (if cap = ACER_CAP_WIRELESS then ACER_WMID_SET_WIRELESS_METHODID
      else ACER_WMID_SET_BLUETOOTH_METHODID) (wmi_input.u32 v)

/-- The register block of the legacy (AMW0) write of radio `cap` (wireless,
else bluetooth) with value `v`. -/
def AMW0_radio_args (cap v : Nat) : wmi_input :=
  wmi_input.wmab_args ACER_AMW0_WRITE
    ((if v ≠ 0 then 1 <<< 8 else 0) |||
      (if cap = ACER_CAP_WIRELESS then ACER_AMW0_WIRELESS_MASK else ACER_AMW0_BLUETOOTH_MASK))
    0 0

/-- The legacy (AMW0) write of radio `cap` with value `v`. -/
def AMW0_radio_write (cap v : Nat) : fw_call :=
  fw_call.wmi_evaluate_method Guid.AMW0_GUID1 0 1 (AMW0_radio_args cap v)

/-- A firmware on which the WMID methods succeed and the AMW0 method fails. -/
def wmid_only_fw : Firmware where
  wmi_evaluate_method := fun _ g _ _ =>
    if g = Guid.WMID_GUID1 then (AE_OK, some (acpi_object.integer 0)) else (AE_ERROR, none)
  wmi_query_block := fun _ _ => (AE_ERROR, none)
  ec_read := fun _ _ => (-1, 0)
  ec_write := fun _ _ _ => -1

/-- An AMW0 V2 machine with the two radios and the mail LED. -/
def amw0_v2_radios : State :=
  { interface_type := interface_flags.ACER_AMW0_V2,
    capability := ACER_CAP_MAILLED ||| ACER_CAP_WIRELESS ||| ACER_CAP_BLUETOOTH |||
      ACER_CAP_BRIGHTNESS,
    quirks := {}, guids := [Guid.AMW0_GUID1, Guid.WMID_GUID1, Guid.WMID_GUID2] }

/-! ## Event sequences and the macro-key scancodes -/

/-- The router run on a sequence of delivered events (status and object of
each), in order. -/
def acer_wmi_notify_all (fw : Firmware) : List (acpi_status × Option acpi_object) → State → State
  | [], s => s
  | e :: es, s => acer_wmi_notify_all fw es (acer_wmi_notify fw s e.1 e.2)

/-- The fifteen macro-key scancodes: five keys in each of the three banks. -/
def macro_key_scancodes : List Nat :=
  [0xda00, 0xda01, 0xda02, 0xda03, 0xda04,
   0xda10, 0xda11, 0xda12, 0xda13, 0xda14,
   0xda20, 0xda21, 0xda22, 0xda23, 0xda24]

/-- A report is acceptable when, if it is a key report, its scancode has an
entry in `acer_wmi_keymap` and, if it lies in the macro-key range (from 0xda00
on), is one of the fifteen macro-key scancodes. -/
def key_report_ok (e : out_event) : Bool :=
  match e with
  | out_event.sparse_keymap_report_event code _ _ =>
    (sparse_keymap_entry_from_scancode code).isSome &&
      (decide (code < 0xda00) || macro_key_scancodes.contains code)
  | _ => true

/-! ## Keyboard backlight byte arrays -/

def GAMING_KBBL_CONFIG_LEN : Nat := 16
def ACER_WMID_SET_GAMINGKBBL_METHODID : Nat := 20

/-- Source function `WMI_gaming_execute_u8_array`, as its one caller uses it
(`out` is NULL): the status.  The byte array and its size are the list
`array` and its length. -/
def WMI_gaming_execute_u8_array (fw : Firmware) (s : State) (method_id : Nat)
    (array : List Nat) : acpi_status × State :=
  let r := wmi_evaluate_method fw s Guid.WMID_GUID4 method_id (wmi_input.bytes array)
  (r.1.1, r.2)

/-- Source function `WMID_gaming_set_u8_array`. -/
def WMID_gaming_set_u8_array (fw : Firmware) (s : State) (array : List Nat) (cap : Nat) :
    acpi_status × State :=
  if cap = ACER_CAP_GAMINGKB then
    if array.length ≠ GAMING_KBBL_CONFIG_LEN then (AE_BAD_PARAMETER, s)
    else WMI_gaming_execute_u8_array fw s ACER_WMID_SET_GAMINGKBBL_METHODID array
  else (AE_ERROR, s)

/-- Source function `set_u8_array`.  The `switch (interface->type)` has only a
`default` arm; `gaming_interface->type` is always `ACER_WMID_GAMING`, and in
that arm a successful write falls through to the `default` arm.  The result
is `none` when `gaming_interface` is dereferenced while NULL. -/
def set_u8_array (fw : Firmware) (s : State) (array : List Nat) (cap : Nat) :
    Option (acpi_status × State) :=
  if s.capability &&& cap ≠ 0 then some (AE_BAD_PARAMETER, s)
  else if ¬ s.gaming_interface then none
  else if s.gaming_capability &&& cap ≠ 0 then
    let r := WMID_gaming_set_u8_array fw s array cap
    if ACPI_FAILURE r.1 then some r else some (AE_BAD_PARAMETER, r.2)
  else some (AE_BAD_PARAMETER, s)

/-- A Predator machine with the gaming keyboard backlight, as `acer_wmi_init`
leaves it when `WMID_GUID3` and `WMID_GUID4` are present. -/
def predator_gaming_kbd : State :=
  { predator_turbo_machine with
    capability := ACER_CAP_TURBO_OC ||| ACER_CAP_TURBO_LED ||| ACER_CAP_TURBO_FAN |||
      ACER_CAP_PLATFORM_PROFILE ||| ACER_CAP_FAN_SPEED_READ ||| ACER_CAP_SET_FUNCTION_MODE,
    gaming_interface := true,
    gaming_capability := ACER_CAP_GAMINGKB ||| ACER_CAP_GAMINGKB_STATIC }

/-- A 16-byte dynamic backlight configuration. -/
def kbbl_config : List Nat := [1, 5, 100, 0, 1, 255, 0, 0, 0, 0, 0, 0, 0, 0, 0, 0]

/-! ## Platform profile registration -/

def ACER_WMID_GET_GAMING_MISC_SETTING_METHODID : Nat := 23

/-- Errno value of a missing message. -/
def ENOMSG : Int := 42

/-- The explicit profile choice that stands for a thermal profile (the
`switch` of `acer_predator_v4_platform_profile_get` and `_set`). -/
def ThermalProfile.platform_profile : ThermalProfile → platform_profile_option
  | ThermalProfile.Eco => platform_profile_option.PLATFORM_PROFILE_LOW_POWER
  | ThermalProfile.Quiet => platform_profile_option.PLATFORM_PROFILE_QUIET
  | ThermalProfile.Balanced => platform_profile_option.PLATFORM_PROFILE_BALANCED
  | ThermalProfile.Performance => platform_profile_option.PLATFORM_PROFILE_BALANCED_PERFORMANCE
  | ThermalProfile.Turbo => platform_profile_option.PLATFORM_PROFILE_PERFORMANCE

/-- Source function `WMI_gaming_execute_u32_u64` with a non-NULL `out`: the
`int` returned and what is stored through `out` (`none` when nothing is). -/
def WMI_gaming_execute_u32_u64 (fw : Firmware) (s : State) (method_id in_ : Nat) :
    (Int × Option Nat) × State :=
  let r := wmi_evaluate_method fw s Guid.WMID_GUID4 method_id (wmi_input.u32 in_)
  if ACPI_FAILURE r.1.1 then ((- EIO, none), r.2)
  else
    match r.1.2 with
    | none => ((0, none), r.2)
    | some (acpi_object.integer v) => ((0, some (v % 18446744073709551616)), r.2)
    | some (acpi_object.buffer b) =>
      if b.length < 8 then ((- ENOMSG, none), r.2) else ((0, some (le_u64 b 0)), r.2)
    | some (acpi_object.other _) => ((- ENOMSG, none), r.2)

/-- Source function `WMID_gaming_get_misc_setting`: the `int` returned and the
byte stored through `value`.  The outer result is `none` when the function
reads its local `result` although the call stored nothing in it. -/
def WMID_gaming_get_misc_setting (fw : Firmware) (s : State) (setting : Nat) :
    Option ((Int × Option Nat) × State) :=
  let r := WMI_gaming_execute_u32_u64 fw s ACER_WMID_GET_GAMING_MISC_SETTING_METHODID
    (setting &&& 0xFF)
  if r.1.1 < 0 then some ((r.1.1, none), r.2)
  else
    match r.1.2 with
    | none => none
    | some result =>
      if result &&& 0xFF ≠ 0 then some ((- EIO, none), r.2)
      else some ((0, some ((result >>> 8) &&& 0xFF)), r.2)

/-- The assignments of `acer_predator_v4_platform_profile_probe` for the
supported-profiles byte `b`, in the order of the source (increasing
performance). -/
def profile_probe_assign (s : State) (b : Nat) : State :=
  let s1 := if b.testBit ACER_PREDATOR_V4_THERMAL_PROFILE_ECO then
      { s with acer_predator_v4_max_perf := ACER_PREDATOR_V4_THERMAL_PROFILE_ECO,
               last_non_turbo_profile := ACER_PREDATOR_V4_THERMAL_PROFILE_ECO }
    else s
  let s2 := if b.testBit ACER_PREDATOR_V4_THERMAL_PROFILE_QUIET then
      { s1 with acer_predator_v4_max_perf := ACER_PREDATOR_V4_THERMAL_PROFILE_QUIET,
                last_non_turbo_profile := ACER_PREDATOR_V4_THERMAL_PROFILE_QUIET }
    else s1
  let s3 := if b.testBit ACER_PREDATOR_V4_THERMAL_PROFILE_BALANCED then
      { s2 with acer_predator_v4_max_perf := ACER_PREDATOR_V4_THERMAL_PROFILE_BALANCED,
                last_non_turbo_profile := ACER_PREDATOR_V4_THERMAL_PROFILE_BALANCED }
    else s2
  let s4 := if b.testBit ACER_PREDATOR_V4_THERMAL_PROFILE_PERFORMANCE then
      { s3 with acer_predator_v4_max_perf := ACER_PREDATOR_V4_THERMAL_PROFILE_PERFORMANCE,
                last_non_turbo_profile :=
                  if s3.last_non_turbo_profile < 0 then
                    ACER_PREDATOR_V4_THERMAL_PROFILE_PERFORMANCE
                  else s3.last_non_turbo_profile }
    else s3
  if b.testBit ACER_PREDATOR_V4_THERMAL_PROFILE_TURBO then
    { s4 with acer_predator_v4_max_perf := ACER_PREDATOR_V4_THERMAL_PROFILE_TURBO,
              last_non_turbo_profile :=
                if s4.last_non_turbo_profile < 0 then ACER_PREDATOR_V4_THERMAL_PROFILE_TURBO
                else s4.last_non_turbo_profile }
  else s4

/-- Source function `acer_predator_v4_platform_profile_probe` (kernel 6.14 on). -/
def acer_predator_v4_platform_profile_probe (fw : Firmware) (s : State) :
    Option (Int × State) :=
  match WMID_gaming_get_misc_setting fw s ACER_WMID_MISC_SETTING_SUPPORTED_PROFILES with
  | none => none
  | some r =>
    if r.1.1 ≠ 0 then some (r.1.1, r.2)
    else some (0, profile_probe_assign r.2 (r.1.2.getD 0))

/-- Source function `acer_platform_profile_setup`.  The kernel's registration
is given by `register_err`, the error it ends with (0 for none); from kernel
6.14 on it runs the `probe` callback of the operations table first and fails
with the callback's error. -/
def acer_platform_profile_setup (fw : Firmware) (s : State) (register_err : Int) :
    Option (Int × State) :=
  if s.quirks.predator_v4 ≠ 0 then
    if RTLNX_VER_MIN s 6 14 0 then
      match acer_predator_v4_platform_profile_probe fw s with
      | none => none
      | some p =>
        if p.1 ≠ 0 then some (p.1, p.2)
        else if register_err ≠ 0 then some (register_err, p.2)
        else some (0, { p.2 with platform_profile_support := true,
                                 last_non_turbo_profile :=
                                   ACER_PREDATOR_V4_THERMAL_PROFILE_BALANCED_WMI })
    else if register_err ≠ 0 then some (register_err, s)
    else some (0, { s with platform_profile_support := true,
                           last_non_turbo_profile :=
                             ACER_PREDATOR_V4_THERMAL_PROFILE_BALANCED_WMI })
  else some (0, s)

/-- The four non-Turbo profile words of `enum acer_predator_v4_thermal_profile_wmi`. -/
def non_turbo_profile_codes : List Int :=
  [ACER_PREDATOR_V4_THERMAL_PROFILE_ECO_WMI, ACER_PREDATOR_V4_THERMAL_PROFILE_QUIET_WMI,
   ACER_PREDATOR_V4_THERMAL_PROFILE_BALANCED_WMI,
   ACER_PREDATOR_V4_THERMAL_PROFILE_PERFORMANCE_WMI]

/-- A firmware of a Predator machine: the supported-profiles query (method 23)
answers that all five profiles are supported, the power-source query answers
`on_AC`, every other gaming method answers 0, and EC register 0x54 holds the
profile byte `tp`. -/
def predator_fw (tp on_AC : Nat) : Firmware where
  wmi_evaluate_method := fun _ g m _ =>
    if g = Guid.WMID_GUID4 ∧ m = ACER_WMID_GET_GAMING_MISC_SETTING_METHODID then
      (AE_OK, some (acpi_object.integer 0x1F00))
    else if g = Guid.WMID_GUID4 ∧ m = ACER_WMID_GET_GAMING_SYS_INFO_METHODID then
      (AE_OK, some (acpi_object.integer on_AC))
    else if g = Guid.WMID_GUID4 then (AE_OK, some (acpi_object.integer 0))
    else (AE_ERROR, none)
  wmi_query_block := fun _ _ => (AE_ERROR, none)
  ec_read := fun _ addr =>
    if addr = ACER_PREDATOR_V4_THERMAL_PROFILE_EC_OFFSET then (0, tp) else (-1, 0)
  ec_write := fun _ _ _ => -1

/-- A Predator machine before `acer_platform_profile_setup`, thermal key in
turbo toggle mode. -/
def predator_unregistered : State :=
  { predator_v4_machine with
    cycle_gaming_thermal_profile := false, last_non_turbo_profile := -2147483648 }

/-- The same machine built against kernel 6.1. -/
def predator_unregistered_6_1 : State :=
  { predator_unregistered with LINUX_VERSION_CODE := KERNEL_VERSION 6 1 0 }

/-- The state after a successful `acer_platform_profile_setup` followed by an
explicit set of profile `profile`; the state itself if the setup fails. -/
def setup_then_set (fw : Firmware) (s : State) (profile : platform_profile_option) : State :=
  match acer_platform_profile_setup fw s 0 with
  | some (0, t) => (acer_predator_v4_platform_profile_set fw t profile).2
  | _ => s

/-! ## Module initialisation: what the machine and the command line provide -/

/-- Errno value of a missing device. -/
def ENODEV : Int := 19

/-- Errno value of an allocation failure. -/
def ENOMEM : Int := 12

/-- Conversion of a C `int` to `u32`. -/
def int_to_u32 (i : Int) : Nat := (i % 4294967296).toNat

/-- Conversion of an unsigned word to a C `int`. -/
def to_s32 (v : Nat) : Int :=
  if v % 4294967296 ≥ 2147483648 then ((v % 4294967296 : Nat) : Int) - 4294967296
  else ((v % 4294967296 : Nat) : Int)

/-- The quirk record `quirk_unknown`. -/
def quirk_unknown : quirk_entry := {}

/-- The quirk record `quirk_acer_travelmate_2490`. -/
def quirk_acer_travelmate_2490 : quirk_entry := { mailled := 1 }

/-- The quirk record `quirk_acer_predator_v4`. -/
def quirk_acer_predator_v4 : quirk_entry := { predator_v4 := 1 }

/-- The callback of an entry of the table `acer_quirks`, with its `driver_data`:
a quirk record for `dmi_matched`, a capability bitmask for `set_force_caps`. -/
inductive dmi_callback where
  | dmi_matched (driver_data : quirk_entry)
  | set_force_caps (driver_data : Nat)
  deriving DecidableEq, Repr

/-- A structure of the DMI table, with the two fields `type_aa_dmi_decode`
reads from a structure of type AAh. -/
structure dmi_header where
  type : Nat
  commun_func_bitmap : Nat := 0
  commun_fn_key_number : Nat := 0
  deriving DecidableEq, Repr

/-- Kernel `enum acpi_backlight_type`. -/
inductive acpi_backlight_type where
  | acpi_backlight_undef
  | acpi_backlight_none
  | acpi_backlight_video
  | acpi_backlight_vendor
  | acpi_backlight_native
  deriving DecidableEq, Repr

/-- What `acer_wmi_init` is given: the GUIDs the firmware exposes, the module
parameters, what the kernel's DMI and ACPI lookups find on the machine (for
each table the entry that matches first, if any), and the outcome of each
kernel registration (an errno, 0 for success, or whether an allocation
succeeded). -/
structure init_env where
  guids : List Guid
  mailled : Int := -1
  brightness : Int := -1
  threeg : Int := -1
  force_series : Int := 0
  force_caps : Int := -1
  ec_raw_mode : Bool := false
  cycle_gaming_thermal_profile : Bool := true
  predator_v4 : Bool := false
  acer_blacklist_match : Bool := false
  amw0_whitelist_match : Bool := false
  acer_quirks_match : Option dmi_callback := none
  non_acer_quirks_match : Option quirk_entry := none
  dmi_table : List dmi_header := []
  norfkill_device_found : Bool := false
  backlight_type : acpi_backlight_type := acpi_backlight_type.acpi_backlight_vendor
  input_allocate_device : Bool := true
  sparse_keymap_setup : Int := 0
  wmi_install_notify_handler : acpi_status := 0
  input_register_device : Int := 0
  accel_device_found : Bool := false
  accel_allocate_device : Bool := true
  accel_register_device : Int := 0
  platform_driver_register : Int := 0
  platform_device_alloc : Bool := true
  platform_device_add : Int := 0
  LINUX_VERSION_CODE : Nat := KERNEL_VERSION 6 14 0
  deriving DecidableEq, Repr

/-- Source function `find_quirks`, with the two `dmi_check_system` walks it
makes (a walk stops at the first matching entry, whose callback returns 1):
the pointer `quirks`, where `none` stands for `&quirk_unknown`, and the value
of `force_caps` afterwards. -/
def find_quirks (env : init_env) : Option quirk_entry × Int :=
  if env.predator_v4 then (some quirk_acer_predator_v4, env.force_caps)
  else if env.force_series = 0 then
    let a : Option quirk_entry × Int :=
      match env.acer_quirks_match with
      | some (dmi_callback.dmi_matched q) => (some q, env.force_caps)
      | some (dmi_callback.set_force_caps d) =>
        (none, if env.force_caps = -1 then to_s32 d else env.force_caps)
      | none => (none, env.force_caps)
    match env.non_acer_quirks_match with
    | some q => (some q, a.2)
    | none => a
  else if env.force_series = 2490 then (some quirk_acer_travelmate_2490, env.force_caps)
  else (none, env.force_caps)

/-- The interface `acer_wmi_init` detects first: the three tests on
`AMW0_GUID1`, `WMID_GUID1` and `WMID_GUID3`; `none` is the NULL pointer. -/
def detect_interface (guids : List Guid) : Option interface_flags :=
  let i1 := if guids.contains Guid.AMW0_GUID1 ∧ guids.contains Guid.WMID_GUID1 then
      some interface_flags.ACER_AMW0_V2 else none
  let i2 := if ¬ guids.contains Guid.AMW0_GUID1 ∧ guids.contains Guid.WMID_GUID1 then
      some interface_flags.ACER_WMID else i1
  if guids.contains Guid.WMID_GUID3 then some interface_flags.ACER_WMID_v2 else i2

/-- The module state when `interface` is first pointed at the interface of
type `t`, whose capability word is still 0. -/
def initial_state (env : init_env) (quirks : Option quirk_entry) (t : interface_flags) : State :=
  { interface_type := t, capability := 0, quirks := quirks.getD quirk_unknown,
    guids := env.guids, cycle_gaming_thermal_profile := env.cycle_gaming_thermal_profile,
    LINUX_VERSION_CODE := env.LINUX_VERSION_CODE,
    gaming_interface := env.guids.contains Guid.WMID_GUID3 && env.guids.contains Guid.WMID_GUID4 }

/-- Source function `type_aa_dmi_decode`. -/
def type_aa_dmi_decode (s : State) (header : dmi_header) : State :=
  if header.type ≠ 0xAA then s
  else
    let bm := header.commun_func_bitmap % 65536
    let c1 := if bm &&& ACER_WMID3_GDS_WIRELESS ≠ 0 then s.capability ||| ACER_CAP_WIRELESS
      else s.capability
    let c2 := if bm &&& ACER_WMID3_GDS_THREEG ≠ 0 then c1 ||| ACER_CAP_THREEG else c1
    let c3 := if bm &&& ACER_WMID3_GDS_BLUETOOTH ≠ 0 then c2 ||| ACER_CAP_BLUETOOTH else c2
    { s with has_type_aa := true,
             commun_func_bitmap :=
               if bm &&& ACER_WMID3_GDS_RFBTN ≠ 0 then bm &&& (0xFFFF ^^^ ACER_WMID3_GDS_RFBTN)
               else bm,
             capability := c3,
             commun_fn_key_number := header.commun_fn_key_number % 256 }

/-- Kernel `dmi_walk` with the decoder `type_aa_dmi_decode`. -/
def dmi_walk_type_aa (table : List dmi_header) (s : State) : State :=
  table.foldl type_aa_dmi_decode s

/-- Source function `set_quirks`. -/
def set_quirks (s : State) : State :=
  let c1 := if s.quirks.mailled ≠ 0 then s.capability ||| ACER_CAP_MAILLED else s.capability
  let c2 := if s.quirks.brightness ≠ 0 then c1 ||| ACER_CAP_BRIGHTNESS else c1
  let c3 := if s.quirks.turbo ≠ 0 then
      c2 ||| (ACER_CAP_TURBO_OC ||| ACER_CAP_TURBO_LED ||| ACER_CAP_TURBO_FAN) else c2
  let c4 := if s.quirks.predator_v4 ≠ 0 then
      c3 ||| (ACER_CAP_PLATFORM_PROFILE ||| ACER_CAP_FAN_SPEED_READ) else c3
  { s with capability := c4 }

/-! ## Module initialisation: capability detection -/

/-- Source function `AMW0_find_mailled`. -/
def AMW0_find_mailled (fw : Firmware) (s : State) : acpi_status × State :=
  let r := wmab_execute fw s 0x86 0 0 0
  if ACPI_FAILURE r.1.1 then (r.1.1, r.2)
  else
    match r.1.2 with
    | some (acpi_object.buffer b) =>
      if b.length = 20 then
        (AE_OK, if le_u32 b 16 &&& 0x1 ≠ 0 then
            { r.2 with capability := r.2.capability ||| ACER_CAP_MAILLED } else r.2)
      else (AE_ERROR, r.2)
    | _ => (AE_ERROR, r.2)

/-- Source function `AMW0_set_capabilities`; `quirks_unknown` says whether
`quirks` is `&quirk_unknown`, and `norfkill_device` is the result of
`AMW0_set_cap_acpi_check_device`. -/
def AMW0_set_capabilities (fw : Firmware) (s : State) (quirks_unknown norfkill_device : Bool) :
    acpi_status × State :=
  if wmi_has_guid s Guid.AMW0_GUID2 then
    (AE_OK, if ¬ quirks_unknown ∨ ¬ norfkill_device then
        { s with capability := s.capability ||| ACER_CAP_WIRELESS } else s)
  else
    let r := wmab_execute fw s ACER_AMW0_WRITE ((0xa2 <<< 8) ||| ACER_AMW0_WIRELESS_MASK) 0 0
    if ACPI_FAILURE r.1.1 then (r.1.1, r.2)
    else
      match r.1.2 with
      | some (acpi_object.buffer b) =>
        if b.length = 20 then
          let s1 := if le_u32 b 0 &&& 0x1 ≠ 0 then
              { r.2 with capability := r.2.capability ||| ACER_CAP_WIRELESS } else r.2
          let r2 := wmab_execute fw s1 ACER_AMW0_WRITE
            ((2 <<< 8) ||| ACER_AMW0_BLUETOOTH_MASK) 0 0
          if ACPI_FAILURE r2.1.1 then (r2.1.1, r2.2)
          else
            match r2.1.2 with
            | some (acpi_object.buffer b2) =>
              if b2.length = 20 then
                let s2 := if le_u32 b2 0 &&& 0x1 ≠ 0 then
                    { r2.2 with capability := r2.2.capability ||| ACER_CAP_BLUETOOTH } else r2.2
                (AE_OK, if s2.quirks.brightness ≥ 0 then
                    { s2 with capability := s2.capability ||| ACER_CAP_BRIGHTNESS } else s2)
              else (AE_ERROR, r2.2)
            | _ => (AE_ERROR, r2.2)
        else (AE_ERROR, r.2)
      | _ => (AE_ERROR, r.2)

/-- The `WMID_GUID2` step of `acer_wmi_init`: runtime discovery unless a type
AAh structure was found, then the brightness bit; without `WMID_GUID2`, without
a type AAh structure and without `force_caps` the load fails.  Both tests need
a non-NULL `interface`.  The `int` is 0 when the initialisation goes on. -/
def init_wmid_devices (fw : Firmware) (force_caps : Int) (o : Option State) :
    Int × Option State :=
  match o with
  | none => (0, none)
  | some s =>
    if wmi_has_guid s Guid.WMID_GUID2 then
      if ¬ s.has_type_aa then
        let r := WMID_set_capabilities fw s
        if ACPI_FAILURE r.1 then (- ENODEV, some r.2)
        else (0, some { r.2 with capability := r.2.capability ||| ACER_CAP_BRIGHTNESS })
      else (0, some { s with capability := s.capability ||| ACER_CAP_BRIGHTNESS })
    else if ¬ s.has_type_aa ∧ force_caps = -1 then (- ENODEV, some s)
    else (0, some s)

/-- The `AMW0_GUID1` without `WMID_GUID1` step of `acer_wmi_init`: `interface`
is pointed at `AMW0_interface`, whose capability word nothing has written yet,
and `AMW0_set_capabilities` runs. -/
def init_amw0 (fw : Firmware) (env : init_env) (quirks : Option quirk_entry)
    (o : Option State) : Int × Option State :=
  if env.guids.contains Guid.AMW0_GUID1 ∧ ¬ env.guids.contains Guid.WMID_GUID1 then
    let s0 := match o with
      | some s => { s with interface_type := interface_flags.ACER_AMW0, capability := 0 }
      | none => initial_state env quirks interface_flags.ACER_AMW0
    let r := AMW0_set_capabilities fw s0 quirks.isNone env.norfkill_device_found
    if ACPI_FAILURE r.1 then (- ENODEV, some r.2) else (0, some r.2)
  else (0, o)

/-- Source function `gaming_kbbl_poll_and_enable_zones`. -/
def gaming_kbbl_poll_and_enable_zones (fw : Firmware) (s : State) : State :=
  let a := WMI_gaming_execute_u64 fw s ACER_WMID_GET_GAMING_SYS_INFO_METHODID 0
  (WMI_gaming_execute_u64 fw a.2 ACER_WMID_SET_GAMING_LED_METHODID (8 ||| (15 <<< 40))).2

/-- The capability words as `acer_wmi_init` builds them once `interface` is
known to be non-NULL: `set_quirks`, the backlight-type check, the function-mode
and keyboard-backlight bits, and last the `force_caps` override. -/
def init_capabilities (fw : Firmware) (env : init_env) (force_caps : Int) (s : State) : State :=
  let s1 := set_quirks s
  let s2 := if env.backlight_type ≠ acpi_backlight_type.acpi_backlight_vendor then
      { s1 with capability := s1.capability &&& (0xFFFFFFFF ^^^ ACER_CAP_BRIGHTNESS) } else s1
  let s3 := if wmi_has_guid s2 Guid.WMID_GUID3 then
      let a := { s2 with capability := s2.capability ||| ACER_CAP_SET_FUNCTION_MODE }
      if wmi_has_guid a Guid.WMID_GUID4 then
        gaming_kbbl_poll_and_enable_zones fw
          { a with gaming_capability :=
              a.gaming_capability ||| (ACER_CAP_GAMINGKB ||| ACER_CAP_GAMINGKB_STATIC) }
      else a
    else s2
  if force_caps ≠ -1 then { s3 with capability := int_to_u32 force_caps } else s3

/-! ## Module initialisation: function mode, input devices and registration -/

/-- The packed `struct func_input_params`, byte by byte. -/
def func_input_params (function_num commun_devices devices app_status app_mask : Nat) :
    List Nat :=
  [function_num % 256, commun_devices % 256, commun_devices / 256 % 256, devices % 256,
   devices / 256 % 256, app_status % 256, app_mask % 256, 0]

/-- Source function `wmid3_set_function_mode`: the status. -/
def wmid3_set_function_mode (fw : Firmware) (s : State) (params : List Nat) :
    acpi_status × State :=
  let r := wmi_evaluate_method fw s Guid.WMID_GUID3 0x1 (wmi_input.bytes params)
  if ACPI_FAILURE r.1.1 then (r.1.1, r.2)
  else
    match r.1.2 with
    | some (acpi_object.buffer b) => if b.length ≠ 4 then (AE_ERROR, r.2) else (r.1.1, r.2)
    | _ => (AE_ERROR, r.2)

/-- Source function `acer_wmi_enable_ec_raw`. -/
def acer_wmi_enable_ec_raw (fw : Firmware) (s : State) : acpi_status × State :=
  wmid3_set_function_mode fw s (func_input_params 0x1 0xFFFF 0xFFFF 0x00 0x01)

/-- Source function `acer_wmi_enable_lm`. -/
def acer_wmi_enable_lm (fw : Firmware) (s : State) : acpi_status × State :=
  wmid3_set_function_mode fw s (func_input_params 0x1 0xFFFF 0xFFFF 0x01 0x01)

/-- Source function `acer_wmi_enable_rf_button`. -/
def acer_wmi_enable_rf_button (fw : Firmware) (s : State) : acpi_status × State :=
  wmid3_set_function_mode fw s (func_input_params 0x1 0xFFFF 0xFFFF 0x10 0x10)

/-- The function-mode step of `acer_wmi_init`: with `WMID_GUID3` and the
function-mode capability, the RF button is enabled (a failure only warns) and
then EC raw mode or the launch manager, whose failure ends the load. -/
def init_function_mode (fw : Firmware) (env : init_env) (s : State) : Int × State :=
  if wmi_has_guid s Guid.WMID_GUID3 ∧ s.capability &&& ACER_CAP_SET_FUNCTION_MODE ≠ 0 then
    let a := acer_wmi_enable_rf_button fw s
    if env.ec_raw_mode then
      let b := acer_wmi_enable_ec_raw fw a.2
      if ACPI_FAILURE b.1 then (- ENODEV, b.2) else (0, b.2)
    else
      let b := acer_wmi_enable_lm fw a.2
      if ACPI_FAILURE b.1 then (- ENODEV, b.2) else (0, b.2)
  else (0, s)

/-- Source function `acer_kbd_dock_get_initial_state`. -/
def acer_kbd_dock_get_initial_state (fw : Firmware) (s : State) : State :=
  let r := wmi_evaluate_method fw s Guid.WMID_GUID3 0x2
    (wmi_input.bytes [0x05, 0x00, 0, 0, 0, 0, 0, 0])
  if ACPI_FAILURE r.1.1 then r.2
  else
    match r.1.2 with
    | some (acpi_object.buffer b) =>
      if b.length ≠ 8 then r.2
      else if byte_at b 0 ≠ 0x00 ∨ (byte_at b 3 ≠ 0x05 ∧ byte_at b 3 ≠ 0x45) then r.2
      else emit r.2 (out_event.input_report_switch_tablet_mode
        (acer_kbd_dock_state_to_sw_tablet_mode (byte_at b 4)))
    | _ => r.2

/-- Source function `acer_wmi_input_setup`. -/
def acer_wmi_input_setup (fw : Firmware) (env : init_env) (s : State) : Int × State :=
  if ¬ env.input_allocate_device then (- ENOMEM, s)
  else if env.sparse_keymap_setup ≠ 0 then (env.sparse_keymap_setup, s)
  else if ACPI_FAILURE env.wmi_install_notify_handler then (- EIO, s)
  else
    let s1 := if has_cap s ACER_CAP_KBD_DOCK then acer_kbd_dock_get_initial_state fw s else s
    if env.input_register_device ≠ 0 then (env.input_register_device, s1) else (0, s1)

/-- Source function `acer_wmi_accel_setup`; when the registration fails the
device is freed and the pointer `acer_wmi_accel_dev` keeps its value. -/
def acer_wmi_accel_setup (env : init_env) (s : State) : Int × State :=
  if ¬ env.accel_device_found then (- ENODEV, s)
  else if ¬ env.accel_allocate_device then (- ENOMEM, s)
  else if env.accel_register_device ≠ 0 then
    (env.accel_register_device, { s with acer_wmi_accel_dev := true })
  else (0, { s with acer_wmi_accel_dev := true })

/-- Source function `get_wmid_devices`. -/
def get_wmid_devices (fw : Firmware) (s : State) : Nat × State :=
  let r := wmi_query_block fw s Guid.WMID_GUID2
  if ACPI_FAILURE r.1.1 then (0, r.2) else ((discovery_word r.1.2).getD 0, r.2)

/-- Source function `acer_commandline_init`. -/
def acer_commandline_init (fw : Firmware) (env : init_env) (s : State) : State :=
  let s1 := if env.mailled ≥ 0 then (set_u32 fw s (int_to_u32 env.mailled) ACER_CAP_MAILLED).2
    else s
  let s2 := if ¬ s1.has_type_aa ∧ env.threeg ≥ 0 then
      (set_u32 fw s1 (int_to_u32 env.threeg) ACER_CAP_THREEG).2 else s1
  if env.brightness ≥ 0 then (set_u32 fw s2 (int_to_u32 env.brightness) ACER_CAP_BRIGHTNESS).2
  else s2

/-- The input-device step of `acer_wmi_init`, taken when the event GUID is
present; an error of the accelerometer setup only warns. -/
def init_input_devices (fw : Firmware) (env : init_env) (s : State) : Int × State :=
  if wmi_has_guid s Guid.ACERWMID_EVENT_GUID then
    let a := acer_wmi_input_setup fw env s
    if a.1 ≠ 0 then a else (0, (acer_wmi_accel_setup env a.2).2)
  else (0, s)

/-- The end of `acer_wmi_init`: the platform driver and device (the driver
core runs the driver's probe callback, a separate entry point of the module),
the debugfs word and the command-line values. -/
def init_platform_device (fw : Firmware) (env : init_env) (s : State) : Int × State :=
  if env.platform_driver_register ≠ 0 then (env.platform_driver_register, s)
  else if ¬ env.platform_device_alloc then (- ENOMEM, s)
  else if env.platform_device_add ≠ 0 then (env.platform_device_add, s)
  else
    let d := if wmi_has_guid s Guid.WMID_GUID2 then
        { (get_wmid_devices fw s).2 with wmid_devices := (get_wmid_devices fw s).1 }
      else s
    (0, acer_commandline_init fw env d)

/-- The rest of `acer_wmi_init` after the capability words are final: the
function mode, the input devices, the platform device. -/
def init_register (fw : Firmware) (env : init_env) (s : State) : Int × State :=
  let f := init_function_mode fw env s
  if f.1 ≠ 0 then f
  else
    let i := init_input_devices fw env f.2
    if i.1 ≠ 0 then i else init_platform_device fw env i.2

/-- Source function `acer_wmi_init`: the `int` returned and the module state
left behind, `none` while `interface` is NULL. -/
def acer_wmi_init (fw : Firmware) (env : init_env) : Int × Option State :=
  if env.acer_blacklist_match then (- ENODEV, none)
  else
    let fq := find_quirks env
    if env.guids.contains Guid.AMW0_GUID1 ∧ ¬ env.amw0_whitelist_match ∧ fq.1.isNone then
      (- ENODEV, none)
    else
      let o1 := (detect_interface env.guids).map
        (fun t => dmi_walk_type_aa env.dmi_table (initial_state env fq.1 t))
      let w := init_wmid_devices fw fq.2 o1
      if w.1 ≠ 0 then w
      else
        let a := init_amw0 fw env fq.1 w.2
        if a.1 ≠ 0 then a
        else
          let o4 := if env.guids.contains Guid.AMW0_GUID1 then
              a.2.map (fun s => (AMW0_find_mailled fw s).2) else a.2
          match o4 with
          | none => (- ENODEV, none)
          | some s =>
            let r := init_register fw env (init_capabilities fw env fq.2 s)
            (r.1, some r.2)

/-- A machine on which no calling convention is detected: only the event GUID. -/
def no_interface_env : init_env := { guids := [Guid.ACERWMID_EVENT_GUID] }

/-- An Aspire Switch 10: `WMID_GUID3` and the event GUID, and the entry of
`acer_quirks` that forces the capabilities to the keyboard dock. -/
def switch_10_env : init_env :=
  { guids := [Guid.WMID_GUID3, Guid.ACERWMID_EVENT_GUID],
    acer_quirks_match := some (dmi_callback.set_force_caps ACER_CAP_KBD_DOCK),
    amw0_whitelist_match := true,
    backlight_type := acpi_backlight_type.acpi_backlight_native }

/-! ## Answers of the firmware that an accessor has to surface -/

/-- Whether a call is an EC register read. -/
def is_ec_read (c : fw_call) : Bool :=
  match c with
  | fw_call.ec_read _ => true
  | _ => false

/-- The answer of the firmware to call `c`, made after the calls `l`, is a bad
one: a WMI method call with a non-success status, a GUID3 device-status call
whose reply is not a buffer of exactly the expected length, an EC read with a
non-zero error, or an EC write with a non-zero error (a C `int`).  The result
of an `i8042_command` is not part of the model. -/
def bad_answer (fw : Firmware) (l : List fw_call) (c : fw_call) : Bool :=
  match c with
  | fw_call.wmi_evaluate_method g _ m inp =>
    ACPI_FAILURE (fw.wmi_evaluate_method l g m inp).1 ||
      (decide (g = Guid.WMID_GUID3) && !gds_reply_ok m (fw.wmi_evaluate_method l g m inp).2)
  | fw_call.ec_read addr => decide ((fw.ec_read l addr).1 ≠ 0)
  | fw_call.ec_write addr val =>
    decide (fw.ec_write l addr val ≠ 0 ∧ -2147483648 ≤ fw.ec_write l addr val ∧
      fw.ec_write l addr val < 2147483648)
  | _ => false

/-- A getter result `r` computed from state `s` surfaces the bad answers: if
any call it made was answered badly, `r` has a failure status and stores no
value. -/
def get_surfaces (fw : Firmware) (s : State) (r : (acpi_status × Option Nat) × State) : Prop :=
  ∀ (l : List fw_call) (c : fw_call) (rest : List fw_call),
    r.2.log = s.log ++ l ++ c :: rest → bad_answer fw (s.log ++ l) c = true →
    ACPI_FAILURE r.1.1 = true ∧ r.1.2 = none

/-- A setter result `r` computed from state `s` surfaces the bad answers: if
any call it made was answered badly, `r` is a failure status. -/
def set_surfaces (fw : Firmware) (s : State) (r : acpi_status × State) : Prop :=
  ∀ (l : List fw_call) (c : fw_call) (rest : List fw_call),
    r.2.log = s.log ++ l ++ c :: rest → bad_answer fw (s.log ++ l) c = true →
    ACPI_FAILURE r.1 = true

/-- An AMW0 machine with the brightness capability. -/
def amw0_brightness : State :=
  { interface_type := interface_flags.ACER_AMW0, capability := ACER_CAP_BRIGHTNESS,
    quirks := {}, guids := [Guid.AMW0_GUID1] }

/-- A getter result `r` computed from state `s` reports the reply of a
successful `WMID_GUID1` call whatever its shape: if that call is the one call
made, `r` carries the call's status and the low byte of the word taken from
the reply. -/
def get_reports_reply (fw : Firmware) (s : State) (r : (acpi_status × Option Nat) × State) :
    Prop :=
  ∀ m : Nat,
    r.2.log = s.log ++ [fw_call.wmi_evaluate_method Guid.WMID_GUID1 0 m (wmi_input.u32 0)] →
    ACPI_FAILURE (fw.wmi_evaluate_method s.log Guid.WMID_GUID1 m (wmi_input.u32 0)).1 = false →
    r.1 = ((fw.wmi_evaluate_method s.log Guid.WMID_GUID1 m (wmi_input.u32 0)).1,
           some (result_u32 (fw.wmi_evaluate_method s.log Guid.WMID_GUID1 m
             (wmi_input.u32 0)).2 % 256))

/-- A setter result `r` computed from state `s` returns the status of a WMI
method call outside GUID3 whatever the reply: if that call is the one call
made, `r` is its status. -/
def set_returns_status (fw : Firmware) (s : State) (r : acpi_status × State) : Prop :=
  ∀ (g : Guid) (m : Nat) (inp : wmi_input), g ≠ Guid.WMID_GUID3 →
    r.2.log = s.log ++ [fw_call.wmi_evaluate_method g 0 m inp] →
    r.1 = (fw.wmi_evaluate_method s.log g m inp).1

/-! ## Theorems -/

/-! ### The capability gate of the generic accessor -/

/-- C1, as stated, fails: on a WMID machine without the wireless capability
`set_u32(1, ACER_CAP_WIRELESS)` is answered with `AE_BAD_PARAMETER`, which is
the bad-parameter status and not an unsupported status. -/
theorem set_u32_unsupported_not_Unsupported :
    wmid_no_caps.capability &&& ACER_CAP_WIRELESS = 0 ∧
    errorKind (set_u32 (const_fw AE_OK none 0 0) wmid_no_caps 1 ACER_CAP_WIRELESS).1
      = some ErrorKind.BadParameter ∧
    ¬ (errorKind (set_u32 (const_fw AE_OK none 0 0) wmid_no_caps 1 ACER_CAP_WIRELESS).1
        = some ErrorKind.Unsupported ∧
       (set_u32 (const_fw AE_OK none 0 0) wmid_no_caps 1 ACER_CAP_WIRELESS).2.log
        = wmid_no_caps.log) := by
  decide

/-- C1, amended: for every interface type, value and capability `cap` of which
no bit is set in `interface->capability`, `set_u32` returns `AE_BAD_PARAMETER`
(a failure status, reported as bad parameter) and leaves the whole state, the
log of firmware calls included, unchanged. -/
theorem set_u32_unsupported_bad_parameter (fw : Firmware) (s : State) (value cap : Nat)
    (h : s.capability &&& cap = 0) :
    set_u32 fw s value cap = (AE_BAD_PARAMETER, s) ∧
    ACPI_FAILURE (set_u32 fw s value cap).1 = true ∧
    errorKind (set_u32 fw s value cap).1 = some ErrorKind.BadParameter ∧
    (set_u32 fw s value cap).2.log = s.log := by
  have e : set_u32 fw s value cap = (AE_BAD_PARAMETER, s) := by simp [set_u32, h]
  rw [e]
  exact ⟨rfl, rfl, rfl, rfl⟩

/-- Witness of C1: brightness 3 on a machine without capabilities. -/
theorem set_u32_unsupported_bad_parameter_witness :
    wmid_no_caps.capability &&& ACER_CAP_BRIGHTNESS = 0 ∧
    set_u32 (const_fw AE_OK none 0 0) wmid_no_caps 3 ACER_CAP_BRIGHTNESS
      = (AE_BAD_PARAMETER, wmid_no_caps) :=
  ⟨by decide,
   (set_u32_unsupported_bad_parameter (const_fw AE_OK none 0 0) wmid_no_caps 3
     ACER_CAP_BRIGHTNESS (by decide)).1⟩

theorem WMID_set_u32_brightness_reject (fw : Firmware) (s : State) (v : Nat)
    (h : v > s.max_brightness) :
    WMID_set_u32 fw s v ACER_CAP_BRIGHTNESS = (AE_BAD_PARAMETER, s) := by
  simp [WMID_set_u32, h]

theorem WMID_set_u32_brightness_accept (fw : Firmware) (s : State) (v : Nat)
    (h : v ≤ s.max_brightness) :
    WMID_set_u32 fw s v ACER_CAP_BRIGHTNESS
      = ((fw.wmi_evaluate_method s.log Guid.WMID_GUID1 ACER_WMID_SET_BRIGHTNESS_METHODID
            (wmi_input.u32 v)).1,
         { s with log := s.log ++ [brightness_write v] }) := by
  have h2 : ¬ v > s.max_brightness := by omega
  simp only [WMID_set_u32, h2, if_true, if_false, WMI_execute_u32, wmi_evaluate_method,
    brightness_write]
  split <;> rfl

theorem WMID_set_capabilities_max_brightness (fw : Firmware) (s0 : State) (devices : Nat)
    (hinit : s0.max_brightness = 0xF)
    (hst : ACPI_FAILURE (fw.wmi_query_block s0.log Guid.WMID_GUID2).1 = false)
    (hword : discovery_word (fw.wmi_query_block s0.log Guid.WMID_GUID2).2 = some devices) :
    (WMID_set_capabilities fw s0).2.max_brightness = if devices &&& 0x20 = 0 then 9 else 15 := by
  simp only [WMID_set_capabilities, wmi_query_block, hst, hword]
  simp [hinit]

/-- C3: let `s` be the state after a successful `WMID_set_capabilities` that
started from the initial `max_brightness = 0xF` and read the discovery word
`devices`.  Then `max_brightness` is 9 if bit 0x20 of `devices` is clear and 15
otherwise, and for every value `v`: `WMID_set_u32(v, ACER_CAP_BRIGHTNESS)`
returns `AE_BAD_PARAMETER` without a firmware call exactly when
`v > max_brightness`; otherwise it invokes method 6 once with input `v` and
returns that call's status.  So `max_brightness + 1` is rejected and
`max_brightness` succeeds when the firmware call succeeds. -/
theorem WMID_set_u32_brightness_range (fw : Firmware) (s0 : State) (devices : Nat)
    (hinit : s0.max_brightness = 0xF)
    (hst : ACPI_FAILURE (fw.wmi_query_block s0.log Guid.WMID_GUID2).1 = false)
    (hword : discovery_word (fw.wmi_query_block s0.log Guid.WMID_GUID2).2 = some devices) :
    let s := (WMID_set_capabilities fw s0).2
    let set := fun (v : Nat) => WMID_set_u32 fw s v ACER_CAP_BRIGHTNESS
    let reply := fun (v : Nat) => (fw.wmi_evaluate_method s.log Guid.WMID_GUID1
      ACER_WMID_SET_BRIGHTNESS_METHODID (wmi_input.u32 v)).1
    s.max_brightness = (if devices &&& 0x20 = 0 then 9 else 15) ∧
    (∀ v, ((set v).1 = AE_BAD_PARAMETER ∧ (set v).2.log = s.log) ↔ v > s.max_brightness) ∧
    (∀ v, v > s.max_brightness → set v = (AE_BAD_PARAMETER, s)) ∧
    (∀ v, v ≤ s.max_brightness →
      set v = (reply v, { s with log := s.log ++ [brightness_write v] })) ∧
    (set (s.max_brightness + 1)).1 = AE_BAD_PARAMETER ∧
    (reply s.max_brightness = AE_OK → (set s.max_brightness).1 = AE_OK) := by
  intro s set reply
  refine ⟨WMID_set_capabilities_max_brightness fw s0 devices hinit hst hword, ?_, ?_, ?_, ?_, ?_⟩
  · intro v
    constructor
    · intro h
      by_contra hv
      have hv2 : v ≤ s.max_brightness := by omega
      have hacc := WMID_set_u32_brightness_accept fw s v hv2
      have hlog := h.2
      simp only [set, hacc] at hlog
      simp at hlog
    · intro hv
      simp only [set, WMID_set_u32_brightness_reject fw s v hv, and_self]
  · intro v hv
    exact WMID_set_u32_brightness_reject fw s v hv
  · intro v hv
    exact WMID_set_u32_brightness_accept fw s v hv
  · simp only [set, WMID_set_u32_brightness_reject fw s (s.max_brightness + 1) (by omega)]
  · intro h
    simp only [set, WMID_set_u32_brightness_accept fw s s.max_brightness (le_refl _)]
    exact h

/-- Witness of C3: discovery word 0x07 (bit 0x20 clear) gives maximum 9, so
brightness 10 is rejected. -/
theorem WMID_set_u32_brightness_range_witness :
    (WMID_set_capabilities (const_fw AE_OK (some (acpi_object.integer 0x07)) 0 0)
      wmid_brightness).2.max_brightness = 9 ∧
    (WMID_set_u32 (const_fw AE_OK (some (acpi_object.integer 0x07)) 0 0)
      (WMID_set_capabilities (const_fw AE_OK (some (acpi_object.integer 0x07)) 0 0)
        wmid_brightness).2 (9 + 1) ACER_CAP_BRIGHTNESS).1 = AE_BAD_PARAMETER :=
  have h := WMID_set_u32_brightness_range
    (const_fw AE_OK (some (acpi_object.integer 0x07)) 0 0) wmid_brightness 0x07
    (by decide) (by decide) (by decide)
  ⟨h.1, h.2.2.2.2.1⟩

/-! ### The GUID3 device-status transaction -/

theorem byte_at_lt (b : List Nat) (i : Nat) : byte_at b i < 256 := by
  unfold byte_at; omega

theorem le_u16_lt (b : List Nat) (i : Nat) : le_u16 b i < 65536 := by
  have h1 := byte_at_lt b i
  have h2 := byte_at_lt b (i + 1)
  unfold le_u16; omega

theorem gds_new_devices_testBit (value d device i : Nat) (hi : i < 16) :
    (gds_new_devices value d device).testBit i
      = if device.testBit i then decide (value ≠ 0) else d.testBit i := by
  have e1 : (65536 : Nat) = 2 ^ 16 := by norm_num
  have e2 : (0xFFFF : Nat) = 2 ^ 16 - 1 := by norm_num
  unfold gds_new_devices
  by_cases hv : value = 0
  · simp only [hv, ne_eq, not_true_eq_false, if_false, e2, Nat.testBit_and, Nat.testBit_xor,
      Nat.testBit_two_pow_sub_one, hi, decide_True, decide_False]
    cases device.testBit i <;> simp
  · simp only [hv, ne_eq, not_false_eq_true, if_true, e1, Nat.testBit_mod_two_pow,
      Nat.testBit_or, hi, decide_True]
    cases device.testBit i <;> simp

theorem gds_new_devices_lt (value d device : Nat) (hd : d < 65536) :
    gds_new_devices value d device < 65536 := by
  unfold gds_new_devices
  split
  · exact Nat.mod_lt _ (by norm_num)
  · exact lt_of_le_of_lt Nat.and_le_left hd

theorem gds_new_devices_and (value d device : Nat) (hdev : device < 65536) :
    gds_new_devices value d device &&& device = if value ≠ 0 then device else 0 := by
  apply Nat.eq_of_testBit_eq
  intro i
  by_cases hi : i < 16
  · rw [Nat.testBit_and, gds_new_devices_testBit value d device i hi]
    by_cases hv : value = 0 <;> cases hb : device.testBit i <;> simp [hv, hb]
  · have hdi : device.testBit i = false := by
      apply Nat.testBit_lt_two_pow
      calc device < 2 ^ 16 := by norm_num; exact hdev
        _ ≤ 2 ^ i := Nat.pow_le_pow_right (by norm_num) (by omega)
    rw [Nat.testBit_and, hdi]
    split <;> simp [hdi]

theorem gds_new_devices_u16 (value d device : Nat) (hd : d < 65536) (hdev : device < 65536) :
    gds_new_devices value d device
      = if value ≠ 0 then d ||| device else d &&& (0xFFFF ^^^ device) := by
  have hor : d ||| device < 2 ^ 16 := Nat.or_lt_two_pow (by norm_num; exact hd)
    (by norm_num; exact hdev)
  unfold gds_new_devices
  split
  · exact Nat.mod_eq_of_lt (by norm_num at hor; exact hor)
  · rfl

theorem wmid3_set_device_status_log (fw : Firmware) (s : State) (value device : Nat)
    (b : List Nat)
    (hst : ACPI_FAILURE (fw.wmi_evaluate_method s.log Guid.WMID_GUID3 0x2
      (wmi_input.wmid3_gds_get_input_param 0x1 s.commun_fn_key_number
        s.commun_func_bitmap)).1 = false)
    (hobj : (fw.wmi_evaluate_method s.log Guid.WMID_GUID3 0x2
      (wmi_input.wmid3_gds_get_input_param 0x1 s.commun_fn_key_number
        s.commun_func_bitmap)).2 = some (acpi_object.buffer b))
    (hlen : b.length = 8) (herr : byte_at b 0 = 0) (hec : byte_at b 1 = 0) :
    (wmid3_set_device_status fw s value device).2.log
      = s.log ++ [gds_read s, gds_write s (gds_new_devices value (le_u16 b 2) device)] := by
  simp only [wmid3_set_device_status, wmi_evaluate_method, hst, hobj, hlen, herr, hec,
    gds_read, gds_write, Bool.false_eq_true, if_false, ne_eq, not_true_eq_false, or_self]
  split
  · simp
  · split
    · split <;> simp
    · simp

/-- C4: when the device-status read of `wmid3_set_device_status(value, device)`
succeeds with an 8-byte reply `b` whose two error codes are zero and whose
`devices` field is `d`, exactly one write follows, of the bitmask
`d | device` if `value` is non-zero and `d & ~device` (complement within 16
bits) if it is zero: every bit of `device` equals `value != 0` and every other
bit is that of `d`.  With the register at `0b0001`, wireless off writes
`0b0000`; with the register at 0, bluetooth on writes exactly `1 << 11`. -/
theorem wmid3_set_device_status_bitmask (fw : Firmware) (s : State) (value device d : Nat)
    (b : List Nat)
    (hst : ACPI_FAILURE (fw.wmi_evaluate_method s.log Guid.WMID_GUID3 0x2
      (wmi_input.wmid3_gds_get_input_param 0x1 s.commun_fn_key_number
        s.commun_func_bitmap)).1 = false)
    (hobj : (fw.wmi_evaluate_method s.log Guid.WMID_GUID3 0x2
      (wmi_input.wmid3_gds_get_input_param 0x1 s.commun_fn_key_number
        s.commun_func_bitmap)).2 = some (acpi_object.buffer b))
    (hlen : b.length = 8) (herr : byte_at b 0 = 0) (hec : byte_at b 1 = 0)
    (hd : le_u16 b 2 = d) (hdev : device < 65536) :
    (wmid3_set_device_status fw s value device).2.log
      = s.log ++ [gds_read s, gds_write s (gds_new_devices value d device)] ∧
    gds_new_devices value d device
      = (if value ≠ 0 then d ||| device else d &&& (0xFFFF ^^^ device)) ∧
    (∀ i, i < 16 → (gds_new_devices value d device).testBit i
      = if device.testBit i then decide (value ≠ 0) else d.testBit i) ∧
    (wmid_v2_set_u32 (echo_gds_fw 0b0001) wmid_v2_radios 0 ACER_CAP_WIRELESS).2.log
      = [gds_read wmid_v2_radios, gds_write wmid_v2_radios 0b0000] ∧
    (wmid_v2_set_u32 (echo_gds_fw 0) wmid_v2_radios 1 ACER_CAP_BLUETOOTH).2.log
      = [gds_read wmid_v2_radios, gds_write wmid_v2_radios (1 <<< 11)] := by
  refine ⟨?_, ?_, ?_, by decide, by decide⟩
  · rw [← hd]
    exact wmid3_set_device_status_log fw s value device b hst hobj hlen herr hec
  · exact gds_new_devices_u16 value d device (hd ▸ le_u16_lt b 2) hdev
  · intro i hi
    exact gds_new_devices_testBit value d device i hi

/-- Witness of C4: the register holds `0x0841`, the wireless bit is cleared. -/
theorem wmid3_set_device_status_bitmask_witness :
    (wmid3_set_device_status (echo_gds_fw 0x0841) wmid_v2_radios 0
      ACER_WMID3_GDS_WIRELESS).2.log
      = [gds_read wmid_v2_radios, gds_write wmid_v2_radios 0x0840] :=
  (wmid3_set_device_status_bitmask (echo_gds_fw 0x0841) wmid_v2_radios 0
    ACER_WMID3_GDS_WIRELESS 0x0841 [0, 0, 0x41, 0x08, 0, 0, 0, 0]
    (by decide) (by decide) (by decide) (by decide) (by decide) (by decide) (by decide)).1

theorem echo_reply_le_u16 (r : Nat) :
    le_u16 [0, 0, r % 256, r / 256 % 256, 0, 0, 0, 0] 2 = r % 65536 := by
  simp only [le_u16, byte_at, List.getD_cons_succ, List.getD_cons_zero]
  omega

theorem gds_register_after_set (R : Nat) (s : State) (l : List fw_call) (w : Nat) :
    gds_register R (l ++ [gds_read s, gds_write s w]) = w := by
  simp [gds_register, gds_read, gds_write, List.foldl_append, gds_register_step]

theorem echo_set_device_status (R : Nat) (s : State) (value device : Nat) :
    wmid3_set_device_status (echo_gds_fw R) s value device
      = (AE_OK, { s with log := s.log ++ [gds_read s,
          gds_write s (gds_new_devices value (gds_register R s.log % 65536) device)] }) := by
  simp [wmid3_set_device_status, wmi_evaluate_method, echo_gds_fw, ACPI_FAILURE, AE_OK,
    gds_read, gds_write, byte_at, echo_reply_le_u16]

theorem echo_get_device_status (R : Nat) (s : State) (device : Nat) :
    (wmid3_get_device_status (echo_gds_fw R) s device).1
      = (AE_OK, some (if gds_register R s.log % 65536 &&& device ≠ 0 then 1 else 0)) := by
  simp [wmid3_get_device_status, wmi_evaluate_method, echo_gds_fw, ACPI_FAILURE, AE_OK,
    byte_at, echo_reply_le_u16]

theorem echo_device_round_trip (R : Nat) (s : State) (v device : Nat)
    (hv : v = 0 ∨ v = 1) (hdev : device < 65536) (hne : device ≠ 0) :
    (wmid3_set_device_status (echo_gds_fw R) s v device).1 = AE_OK ∧
    (wmid3_get_device_status (echo_gds_fw R)
      (wmid3_set_device_status (echo_gds_fw R) s v device).2 device).1 = (AE_OK, some v) := by
  rw [echo_set_device_status, echo_get_device_status]
  refine ⟨rfl, ?_⟩
  simp only [gds_register_after_set]
  have hlt : gds_new_devices v (gds_register R s.log % 65536) device < 65536 :=
    gds_new_devices_lt _ _ _ (Nat.mod_lt _ (by norm_num))
  rw [Nat.mod_eq_of_lt hlt, gds_new_devices_and _ _ _ hdev]
  rcases hv with h | h <;> simp [h, hne]

/-- C5: on the firmware that echoes device-status writes, started with any
register content `R` and after any earlier calls, for each radio capability
(wireless, bluetooth, wwan) and each `v` in {0, 1}, `wmid_v2_set_u32(v, c)`
succeeds and the following `wmid_v2_get_u32(&x, c)` succeeds with `x = v`. -/
theorem wmid_v2_radio_round_trip (R : Nat) (s : State) (c v : Nat)
    (hc : c = ACER_CAP_WIRELESS ∨ c = ACER_CAP_BLUETOOTH ∨ c = ACER_CAP_THREEG)
    (hv : v = 0 ∨ v = 1) :
    (wmid_v2_set_u32 (echo_gds_fw R) s v c).1 = AE_OK ∧
    (wmid_v2_get_u32 (echo_gds_fw R) (wmid_v2_set_u32 (echo_gds_fw R) s v c).2 c).1
      = (AE_OK, some v) := by
  rcases hc with h | h | h <;> subst h
  · exact echo_device_round_trip R s v ACER_WMID3_GDS_WIRELESS hv (by decide) (by decide)
  · exact echo_device_round_trip R s v ACER_WMID3_GDS_BLUETOOTH hv (by decide) (by decide)
  · exact echo_device_round_trip R s v ACER_WMID3_GDS_THREEG hv (by decide) (by decide)

/-- Witness of C5: bluetooth switched on from an empty register. -/
theorem wmid_v2_radio_round_trip_witness :
    (wmid_v2_set_u32 (echo_gds_fw 0) wmid_v2_radios 1 ACER_CAP_BLUETOOTH).1 = AE_OK ∧
    (wmid_v2_get_u32 (echo_gds_fw 0)
      (wmid_v2_set_u32 (echo_gds_fw 0) wmid_v2_radios 1 ACER_CAP_BLUETOOTH).2
      ACER_CAP_BLUETOOTH).1 = (AE_OK, some 1) :=
  wmid_v2_radio_round_trip 0 wmid_v2_radios ACER_CAP_BLUETOOTH 1 (Or.inr (Or.inl rfl))
    (Or.inr rfl)

/-! ### The thermal profile key -/

theorem acer_thermal_profile_change_log (fw : Firmware) (s : State) (current_tp on_AC : Nat)
    (tp : Int)
    (hv4 : s.quirks.predator_v4 ≠ 0)
    (hread : (ec_read fw s ACER_PREDATOR_V4_THERMAL_PROFILE_EC_OFFSET).1 = (0, current_tp))
    (hac : (WMI_gaming_execute_u64 fw (ec_read fw s ACER_PREDATOR_V4_THERMAL_PROFILE_EC_OFFSET).2
      ACER_WMID_GET_GAMING_SYS_INFO_METHODID ACER_WMID_CMD_GET_PREDATOR_V4_BAT_STATUS).1
        = (AE_OK, some on_AC))
    (hsw : thermal_profile_switch current_tp on_AC s.cycle_gaming_thermal_profile
      s.last_non_turbo_profile = some tp) :
    (acer_thermal_profile_change fw s).2.log = s.log ++ profile_queries ++ [profile_write tp] := by
  have hlog1 : (ec_read fw s ACER_PREDATOR_V4_THERMAL_PROFILE_EC_OFFSET).2.log
      = s.log ++ [fw_call.ec_read ACER_PREDATOR_V4_THERMAL_PROFILE_EC_OFFSET] := rfl
  have hlog2 : ∀ (t : State) (m i : Nat), (WMI_gaming_execute_u64 fw t m i).2.log
      = t.log ++ [fw_call.wmi_evaluate_method Guid.WMID_GUID4 0 m (wmi_input.u64 i)] := by
    intro t m i
    simp only [WMI_gaming_execute_u64, wmi_evaluate_method]
    split <;> rfl
  unfold acer_thermal_profile_change
  simp only [hv4, ne_eq, not_false_eq_true, if_true, hread, hac, hsw, lt_irrefl, if_false,
    ACPI_FAILURE, AE_OK, bne_self_eq_false, Bool.false_eq_true, Option.getD_some]
  split
  · simp [hlog2, hlog1, profile_queries, profile_write]
  · by_cases htp : tp = ACER_PREDATOR_V4_THERMAL_PROFILE_TURBO_WMI <;>
      simp [htp, hlog2, hlog1, profile_queries, profile_write]

/-- C6: on a predator_v4 machine, when the profile read succeeds with the EC
code of profile `p`, the power-source query succeeds with `on_AC != 0` and
`cycle_gaming_thermal_profile` is true, `acer_thermal_profile_change` makes the
two queries and then writes the WMI code of the successor of `p` in the order
Eco, Quiet, Balanced, Performance, Turbo, Eco.  On the firmware that echoes
profile writes, three key presses from Balanced write Performance, then
Turbo, then Eco. -/
theorem thermal_cycle_on_AC_successor (fw : Firmware) (s : State) (p : ThermalProfile)
    (on_AC : Nat)
    (hv4 : s.quirks.predator_v4 ≠ 0)
    (hread : (ec_read fw s ACER_PREDATOR_V4_THERMAL_PROFILE_EC_OFFSET).1 = (0, p.ec))
    (hac : (WMI_gaming_execute_u64 fw (ec_read fw s ACER_PREDATOR_V4_THERMAL_PROFILE_EC_OFFSET).2
      ACER_WMID_GET_GAMING_SYS_INFO_METHODID ACER_WMID_CMD_GET_PREDATOR_V4_BAT_STATUS).1
        = (AE_OK, some on_AC))
    (hon : on_AC ≠ 0) (hcyc : s.cycle_gaming_thermal_profile = true) :
    (acer_thermal_profile_change fw s).2.log
      = s.log ++ profile_queries ++ [profile_write p.successor.wmi] ∧
    (thermal_key_presses (echo_thermal_fw ACER_PREDATOR_V4_THERMAL_PROFILE_BALANCED 1) 3
        predator_v4_machine).log
      = profile_queries ++ [profile_write ACER_PREDATOR_V4_THERMAL_PROFILE_PERFORMANCE_WMI]
        ++ profile_queries ++ [profile_write ACER_PREDATOR_V4_THERMAL_PROFILE_TURBO_WMI]
        ++ profile_queries ++ [profile_write ACER_PREDATOR_V4_THERMAL_PROFILE_ECO_WMI] := by
  refine ⟨?_, by decide⟩
  apply acer_thermal_profile_change_log fw s p.ec on_AC _ hv4 hread hac
  cases p <;> simp [thermal_profile_switch, hon, hcyc, ThermalProfile.ec, ThermalProfile.wmi,
    ThermalProfile.successor, ACER_PREDATOR_V4_THERMAL_PROFILE_ECO,
    ACER_PREDATOR_V4_THERMAL_PROFILE_TURBO, ACER_PREDATOR_V4_THERMAL_PROFILE_PERFORMANCE,
    ACER_PREDATOR_V4_THERMAL_PROFILE_QUIET, ACER_PREDATOR_V4_THERMAL_PROFILE_BALANCED]

/-- Witness of C6: from Turbo on AC the key writes Eco. -/
theorem thermal_cycle_on_AC_successor_witness :
    (acer_thermal_profile_change (const_fw AE_OK (some (acpi_object.integer 1)) 0 0x03)
      predator_v4_machine).2.log
      = profile_queries ++ [profile_write ACER_PREDATOR_V4_THERMAL_PROFILE_ECO_WMI] :=
  (thermal_cycle_on_AC_successor (const_fw AE_OK (some (acpi_object.integer 1)) 0 0x03)
    predator_v4_machine ThermalProfile.Turbo 1 (by decide) (by decide) (by decide) (by decide)
    (by decide)).1

/-- C7, as stated, fails: on AC in cycle mode the target chosen from
Performance is Turbo, not Eco. -/
theorem thermal_cycle_performance_not_eco :
    (acer_thermal_profile_change (const_fw AE_OK (some (acpi_object.integer 1)) 0 0x02)
      predator_v4_machine).2.log
      = profile_queries ++ [profile_write ACER_PREDATOR_V4_THERMAL_PROFILE_TURBO_WMI] ∧
    (acer_thermal_profile_change (const_fw AE_OK (some (acpi_object.integer 1)) 0 0x02)
      predator_v4_machine).2.log
      ≠ profile_queries ++ [profile_write ACER_PREDATOR_V4_THERMAL_PROFILE_ECO_WMI] := by
  decide

/-- C7, amended: with AC present and cycle mode enabled the rotation is Eco,
Quiet, Balanced, Performance, Turbo, Eco: the target written from Eco is
Quiet, from Quiet Balanced, from Balanced Performance, from Performance Turbo
and from Turbo Eco. -/
theorem thermal_cycle_on_AC_rotation (fw : Firmware) (s : State) (current_tp on_AC : Nat)
    (hv4 : s.quirks.predator_v4 ≠ 0)
    (hread : (ec_read fw s ACER_PREDATOR_V4_THERMAL_PROFILE_EC_OFFSET).1 = (0, current_tp))
    (hac : (WMI_gaming_execute_u64 fw (ec_read fw s ACER_PREDATOR_V4_THERMAL_PROFILE_EC_OFFSET).2
      ACER_WMID_GET_GAMING_SYS_INFO_METHODID ACER_WMID_CMD_GET_PREDATOR_V4_BAT_STATUS).1
        = (AE_OK, some on_AC))
    (hon : on_AC ≠ 0) (hcyc : s.cycle_gaming_thermal_profile = true) :
    (current_tp = ACER_PREDATOR_V4_THERMAL_PROFILE_ECO →
      (acer_thermal_profile_change fw s).2.log = s.log ++ profile_queries
        ++ [profile_write ACER_PREDATOR_V4_THERMAL_PROFILE_QUIET_WMI]) ∧
    (current_tp = ACER_PREDATOR_V4_THERMAL_PROFILE_QUIET →
      (acer_thermal_profile_change fw s).2.log = s.log ++ profile_queries
        ++ [profile_write ACER_PREDATOR_V4_THERMAL_PROFILE_BALANCED_WMI]) ∧
    (current_tp = ACER_PREDATOR_V4_THERMAL_PROFILE_BALANCED →
      (acer_thermal_profile_change fw s).2.log = s.log ++ profile_queries
        ++ [profile_write ACER_PREDATOR_V4_THERMAL_PROFILE_PERFORMANCE_WMI]) ∧
    (current_tp = ACER_PREDATOR_V4_THERMAL_PROFILE_PERFORMANCE →
      (acer_thermal_profile_change fw s).2.log = s.log ++ profile_queries
        ++ [profile_write ACER_PREDATOR_V4_THERMAL_PROFILE_TURBO_WMI]) ∧
    (current_tp = ACER_PREDATOR_V4_THERMAL_PROFILE_TURBO →
      (acer_thermal_profile_change fw s).2.log = s.log ++ profile_queries
        ++ [profile_write ACER_PREDATOR_V4_THERMAL_PROFILE_ECO_WMI]) := by
  refine ⟨?_, ?_, ?_, ?_, ?_⟩ <;> intro hcur <;>
    apply acer_thermal_profile_change_log fw s current_tp on_AC _ hv4 hread hac <;>
    simp [hcur, thermal_profile_switch, hon, hcyc, ACER_PREDATOR_V4_THERMAL_PROFILE_ECO,
      ACER_PREDATOR_V4_THERMAL_PROFILE_TURBO, ACER_PREDATOR_V4_THERMAL_PROFILE_PERFORMANCE,
      ACER_PREDATOR_V4_THERMAL_PROFILE_QUIET, ACER_PREDATOR_V4_THERMAL_PROFILE_BALANCED]

/-- Witness of C7 amended: from Performance on AC the key writes Turbo. -/
theorem thermal_cycle_on_AC_rotation_witness :
    (acer_thermal_profile_change (const_fw AE_OK (some (acpi_object.integer 1)) 0 0x02)
      predator_v4_machine).2.log
      = profile_queries ++ [profile_write ACER_PREDATOR_V4_THERMAL_PROFILE_TURBO_WMI] :=
  (thermal_cycle_on_AC_rotation (const_fw AE_OK (some (acpi_object.integer 1)) 0 0x02)
    predator_v4_machine 0x02 1 (by decide) (by decide) (by decide) (by decide)
    (by decide)).2.2.2.1 (by decide)

/-- C8: on battery (the power-source query answers 0), for each of the five
current profiles and whatever `cycle_gaming_thermal_profile` is,
`acer_thermal_profile_change` writes a target that is Balanced or Eco and
never Performance or Turbo; from Turbo and from Performance it is Balanced. -/
theorem thermal_on_battery_targets (fw : Firmware) (s : State) (p : ThermalProfile)
    (hv4 : s.quirks.predator_v4 ≠ 0)
    (hread : (ec_read fw s ACER_PREDATOR_V4_THERMAL_PROFILE_EC_OFFSET).1 = (0, p.ec))
    (hac : (WMI_gaming_execute_u64 fw (ec_read fw s ACER_PREDATOR_V4_THERMAL_PROFILE_EC_OFFSET).2
      ACER_WMID_GET_GAMING_SYS_INFO_METHODID ACER_WMID_CMD_GET_PREDATOR_V4_BAT_STATUS).1
        = (AE_OK, some 0)) :
    ∃ tp : Int,
      (acer_thermal_profile_change fw s).2.log = s.log ++ profile_queries ++ [profile_write tp] ∧
      (tp = ACER_PREDATOR_V4_THERMAL_PROFILE_BALANCED_WMI ∨
        tp = ACER_PREDATOR_V4_THERMAL_PROFILE_ECO_WMI) ∧
      tp ≠ ACER_PREDATOR_V4_THERMAL_PROFILE_PERFORMANCE_WMI ∧
      tp ≠ ACER_PREDATOR_V4_THERMAL_PROFILE_TURBO_WMI ∧
      (p = ThermalProfile.Turbo ∨ p = ThermalProfile.Performance →
        tp = ACER_PREDATOR_V4_THERMAL_PROFILE_BALANCED_WMI) := by
  have key : ∀ tp : Int, thermal_profile_switch p.ec 0 s.cycle_gaming_thermal_profile
      s.last_non_turbo_profile = some tp →
      (acer_thermal_profile_change fw s).2.log = s.log ++ profile_queries ++ [profile_write tp] :=
    fun tp h => acer_thermal_profile_change_log fw s p.ec 0 tp hv4 hread hac h
  cases p
  · exact ⟨ACER_PREDATOR_V4_THERMAL_PROFILE_BALANCED_WMI, key _ (by
      simp [thermal_profile_switch, ThermalProfile.ec, ACER_PREDATOR_V4_THERMAL_PROFILE_ECO,
    ACER_PREDATOR_V4_THERMAL_PROFILE_TURBO, ACER_PREDATOR_V4_THERMAL_PROFILE_PERFORMANCE,
    ACER_PREDATOR_V4_THERMAL_PROFILE_QUIET, ACER_PREDATOR_V4_THERMAL_PROFILE_BALANCED]),
      Or.inl rfl, by decide, by decide, fun _ => rfl⟩
  · exact ⟨ACER_PREDATOR_V4_THERMAL_PROFILE_BALANCED_WMI, key _ (by
      simp [thermal_profile_switch, ThermalProfile.ec, ACER_PREDATOR_V4_THERMAL_PROFILE_ECO,
    ACER_PREDATOR_V4_THERMAL_PROFILE_TURBO, ACER_PREDATOR_V4_THERMAL_PROFILE_PERFORMANCE,
    ACER_PREDATOR_V4_THERMAL_PROFILE_QUIET, ACER_PREDATOR_V4_THERMAL_PROFILE_BALANCED]),
      Or.inl rfl, by decide, by decide, fun _ => rfl⟩
  · exact ⟨ACER_PREDATOR_V4_THERMAL_PROFILE_ECO_WMI, key _ (by
      simp [thermal_profile_switch, ThermalProfile.ec, ACER_PREDATOR_V4_THERMAL_PROFILE_ECO,
    ACER_PREDATOR_V4_THERMAL_PROFILE_TURBO, ACER_PREDATOR_V4_THERMAL_PROFILE_PERFORMANCE,
    ACER_PREDATOR_V4_THERMAL_PROFILE_QUIET, ACER_PREDATOR_V4_THERMAL_PROFILE_BALANCED]),
      Or.inr rfl, by decide, by decide, fun h => by rcases h with h | h <;> cases h⟩
  · exact ⟨ACER_PREDATOR_V4_THERMAL_PROFILE_BALANCED_WMI, key _ (by
      simp [thermal_profile_switch, ThermalProfile.ec, ACER_PREDATOR_V4_THERMAL_PROFILE_ECO,
    ACER_PREDATOR_V4_THERMAL_PROFILE_TURBO, ACER_PREDATOR_V4_THERMAL_PROFILE_PERFORMANCE,
    ACER_PREDATOR_V4_THERMAL_PROFILE_QUIET, ACER_PREDATOR_V4_THERMAL_PROFILE_BALANCED]),
      Or.inl rfl, by decide, by decide, fun _ => rfl⟩
  · exact ⟨ACER_PREDATOR_V4_THERMAL_PROFILE_BALANCED_WMI, key _ (by
      simp [thermal_profile_switch, ThermalProfile.ec, ACER_PREDATOR_V4_THERMAL_PROFILE_ECO,
    ACER_PREDATOR_V4_THERMAL_PROFILE_TURBO, ACER_PREDATOR_V4_THERMAL_PROFILE_PERFORMANCE,
    ACER_PREDATOR_V4_THERMAL_PROFILE_QUIET, ACER_PREDATOR_V4_THERMAL_PROFILE_BALANCED]),
      Or.inl rfl, by decide, by decide, fun _ => rfl⟩

/-- Witness of C8: Turbo on battery, in toggle mode. -/
theorem thermal_on_battery_targets_witness :
    ∃ tp : Int,
      (acer_thermal_profile_change (const_fw AE_OK (some (acpi_object.integer 0)) 0 0x03)
        predator_v4_toggle).2.log
        = predator_v4_toggle.log ++ profile_queries ++ [profile_write tp] ∧
      (tp = ACER_PREDATOR_V4_THERMAL_PROFILE_BALANCED_WMI ∨
        tp = ACER_PREDATOR_V4_THERMAL_PROFILE_ECO_WMI) ∧
      tp ≠ ACER_PREDATOR_V4_THERMAL_PROFILE_PERFORMANCE_WMI ∧
      tp ≠ ACER_PREDATOR_V4_THERMAL_PROFILE_TURBO_WMI ∧
      (ThermalProfile.Turbo = ThermalProfile.Turbo ∨
        ThermalProfile.Turbo = ThermalProfile.Performance →
        tp = ACER_PREDATOR_V4_THERMAL_PROFILE_BALANCED_WMI) :=
  thermal_on_battery_targets (const_fw AE_OK (some (acpi_object.integer 0)) 0 0x03)
    predator_v4_toggle ThermalProfile.Turbo (by decide) (by decide) (by decide)

/-- C10: with AC present and `cycle_gaming_thermal_profile` false, from each
of Eco, Quiet, Balanced and Performance the target written is Turbo, and from
Turbo the target written is the stored `last_non_turbo_profile`. -/
theorem thermal_toggle_mode (fw : Firmware) (s : State) (p : ThermalProfile) (on_AC : Nat)
    (hv4 : s.quirks.predator_v4 ≠ 0)
    (hread : (ec_read fw s ACER_PREDATOR_V4_THERMAL_PROFILE_EC_OFFSET).1 = (0, p.ec))
    (hac : (WMI_gaming_execute_u64 fw (ec_read fw s ACER_PREDATOR_V4_THERMAL_PROFILE_EC_OFFSET).2
      ACER_WMID_GET_GAMING_SYS_INFO_METHODID ACER_WMID_CMD_GET_PREDATOR_V4_BAT_STATUS).1
        = (AE_OK, some on_AC))
    (hon : on_AC ≠ 0) (hcyc : s.cycle_gaming_thermal_profile = false) :
    (acer_thermal_profile_change fw s).2.log
      = s.log ++ profile_queries ++
        [profile_write (if p = ThermalProfile.Turbo then s.last_non_turbo_profile
          else ACER_PREDATOR_V4_THERMAL_PROFILE_TURBO_WMI)] := by
  apply acer_thermal_profile_change_log fw s p.ec on_AC _ hv4 hread hac
  cases p <;> simp [thermal_profile_switch, hon, hcyc, ThermalProfile.ec, ACER_PREDATOR_V4_THERMAL_PROFILE_ECO,
    ACER_PREDATOR_V4_THERMAL_PROFILE_TURBO, ACER_PREDATOR_V4_THERMAL_PROFILE_PERFORMANCE,
    ACER_PREDATOR_V4_THERMAL_PROFILE_QUIET, ACER_PREDATOR_V4_THERMAL_PROFILE_BALANCED]

/-- Witness of C10: leaving Turbo in toggle mode writes the stored Quiet code. -/
theorem thermal_toggle_mode_witness :
    (acer_thermal_profile_change (const_fw AE_OK (some (acpi_object.integer 1)) 0 0x03)
      predator_v4_toggle).2.log
      = profile_queries ++ [profile_write ACER_PREDATOR_V4_THERMAL_PROFILE_QUIET_WMI] :=
  thermal_toggle_mode (const_fw AE_OK (some (acpi_object.integer 1)) 0 0x03)
    predator_v4_toggle ThermalProfile.Turbo 1 (by decide) (by decide) (by decide) (by decide)
    (by decide)

/-! ### Unknown profile byte and the stored non-turbo profile -/

theorem thermal_profile_switch_unknown (b on_AC : Nat) (cyc : Bool) (last : Int)
    (hb : ∀ p : ThermalProfile, b ≠ p.ec) : thermal_profile_switch b on_AC cyc last = none := by
  have h0 := hb ThermalProfile.Balanced
  have h1 := hb ThermalProfile.Quiet
  have h2 := hb ThermalProfile.Performance
  have h3 := hb ThermalProfile.Turbo
  have h4 := hb ThermalProfile.Eco
  simp only [ThermalProfile.ec] at h0 h1 h2 h3 h4
  simp [thermal_profile_switch, h0, h1, h2, h3, h4]

theorem WMI_gaming_execute_u64_frame (fw : Firmware) (t : State) (m i : Nat) :
    (WMI_gaming_execute_u64 fw t m i).2
      = { t with log := t.log ++ [fw_call.wmi_evaluate_method Guid.WMID_GUID4 0 m
            (wmi_input.u64 i)] } := by
  simp only [WMI_gaming_execute_u64, wmi_evaluate_method]
  split <;> rfl

/-- C11: on a predator_v4 machine, when the profile read succeeds with a byte
that is the EC code of none of the five profiles and the power-source query
succeeds (with any `on_AC`), `acer_thermal_profile_change` returns
`-EOPNOTSUPP`; only the two queries reach the firmware (no profile write), no
notification is emitted and `last_non_turbo_profile` is unchanged, whatever
`cycle_gaming_thermal_profile` is. -/
theorem thermal_unknown_profile_unsupported (fw : Firmware) (s : State) (b on_AC : Nat)
    (hv4 : s.quirks.predator_v4 ≠ 0)
    (hread : (ec_read fw s ACER_PREDATOR_V4_THERMAL_PROFILE_EC_OFFSET).1 = (0, b))
    (hac : (WMI_gaming_execute_u64 fw (ec_read fw s ACER_PREDATOR_V4_THERMAL_PROFILE_EC_OFFSET).2
      ACER_WMID_GET_GAMING_SYS_INFO_METHODID ACER_WMID_CMD_GET_PREDATOR_V4_BAT_STATUS).1
        = (AE_OK, some on_AC))
    (hb : ∀ p : ThermalProfile, b ≠ p.ec) :
    (acer_thermal_profile_change fw s).1 = - EOPNOTSUPP ∧
    (acer_thermal_profile_change fw s).2 = { s with log := s.log ++ profile_queries } ∧
    (acer_thermal_profile_change fw s).2.log = s.log ++ profile_queries ∧
    (acer_thermal_profile_change fw s).2.events = s.events ∧
    (acer_thermal_profile_change fw s).2.last_non_turbo_profile = s.last_non_turbo_profile := by
  have e : acer_thermal_profile_change fw s
      = (- EOPNOTSUPP, { s with log := s.log ++ profile_queries }) := by
    unfold acer_thermal_profile_change
    simp only [hv4, ne_eq, not_false_eq_true, if_true, hread, lt_irrefl, if_false, hac,
      ACPI_FAILURE, AE_OK, bne_self_eq_false, Bool.false_eq_true,
      thermal_profile_switch_unknown _ _ _ _ hb, WMI_gaming_execute_u64_frame]
    simp [ec_read, profile_queries]
  rw [e]
  exact ⟨rfl, rfl, rfl, rfl, rfl⟩

/-- Witness of C11: profile byte 0x07 on AC. -/
theorem thermal_unknown_profile_unsupported_witness :
    (acer_thermal_profile_change (const_fw AE_OK (some (acpi_object.integer 1)) 0 0x07)
      predator_v4_machine).1 = - EOPNOTSUPP ∧
    (acer_thermal_profile_change (const_fw AE_OK (some (acpi_object.integer 1)) 0 0x07)
      predator_v4_machine).2.log = profile_queries :=
  have h := thermal_unknown_profile_unsupported
    (const_fw AE_OK (some (acpi_object.integer 1)) 0 0x07) predator_v4_machine 0x07 1
    (by decide) (by decide) (by decide) (by intro p; cases p <;> decide)
  ⟨h.1, h.2.2.1⟩

/-- C12: on a predator_v4 machine, after `acer_thermal_profile_change` the
stored `last_non_turbo_profile` is the written target `tp` if the profile
write succeeded and `tp` is not the Turbo code, and is unchanged if the target
is Turbo or if the profile read, the power-source query or the write failed;
a failed write (and a failed power-source query) returns `-EIO`, a failed
read returns its error. -/
theorem thermal_last_non_turbo_update (fw : Firmware) (s : State) (hv4 : s.quirks.predator_v4 ≠ 0) :
    let rd := ec_read fw s ACER_PREDATOR_V4_THERMAL_PROFILE_EC_OFFSET
    let ac := WMI_gaming_execute_u64 fw rd.2 ACER_WMID_GET_GAMING_SYS_INFO_METHODID
      ACER_WMID_CMD_GET_PREDATOR_V4_BAT_STATUS
    let res := acer_thermal_profile_change fw s
    (rd.1.1 < 0 →
      res.1 = rd.1.1 ∧ res.2.last_non_turbo_profile = s.last_non_turbo_profile) ∧
    (¬ rd.1.1 < 0 → ACPI_FAILURE ac.1.1 = true →
      res.1 = - EIO ∧ res.2.last_non_turbo_profile = s.last_non_turbo_profile) ∧
    (¬ rd.1.1 < 0 → ACPI_FAILURE ac.1.1 = false →
      ∀ tp : Int, thermal_profile_switch rd.1.2 (ac.1.2.getD 0) s.cycle_gaming_thermal_profile
          s.last_non_turbo_profile = some tp →
        (ACPI_FAILURE (WMI_gaming_execute_u64 fw ac.2 ACER_WMID_SET_GAMING_MISC_SETTING_METHODID
            (int_to_u64 tp)).1.1 = true →
          res.1 = - EIO ∧ res.2.last_non_turbo_profile = s.last_non_turbo_profile) ∧
        (ACPI_FAILURE (WMI_gaming_execute_u64 fw ac.2 ACER_WMID_SET_GAMING_MISC_SETTING_METHODID
            (int_to_u64 tp)).1.1 = false →
          res.1 = 0 ∧ res.2.last_non_turbo_profile
            = if tp ≠ ACER_PREDATOR_V4_THERMAL_PROFILE_TURBO_WMI then tp
              else s.last_non_turbo_profile)) := by
  intro rd ac res
  refine ⟨?_, ?_, ?_⟩
  · intro h
    simp only [rd] at h
    simp only [res, acer_thermal_profile_change, hv4, ne_eq, not_false_eq_true, if_true, h]
    exact ⟨trivial, rfl⟩
  · intro h1 h2
    simp only [rd] at h1
    simp only [ac, rd] at h2
    simp only [res, acer_thermal_profile_change, hv4, ne_eq, not_false_eq_true, if_true, h1,
      if_false, h2]
    simp [WMI_gaming_execute_u64_frame, ec_read]
  · intro h1 h2 tp hsw
    simp only [rd] at h1
    simp only [ac, rd] at h2 hsw
    constructor
    · intro h3
      simp only [ac, rd] at h3
      simp only [res, acer_thermal_profile_change, hv4, ne_eq, not_false_eq_true, if_true, h1,
        if_false, h2, hsw, h3]
      simp [WMI_gaming_execute_u64_frame, ec_read]
    · intro h3
      simp only [ac, rd] at h3
      simp only [res, acer_thermal_profile_change, hv4, ne_eq, not_false_eq_true, if_true, h1,
        if_false, h2, hsw, h3]
      by_cases htp : tp = ACER_PREDATOR_V4_THERMAL_PROFILE_TURBO_WMI
      · simp [htp, WMI_gaming_execute_u64_frame, ec_read]
      · simp [htp, WMI_gaming_execute_u64_frame, ec_read]

/-- Witness of C12: from Balanced on AC in cycle mode the write of Performance
succeeds and Performance is stored. -/
theorem thermal_last_non_turbo_update_witness :
    (acer_thermal_profile_change (const_fw AE_OK (some (acpi_object.integer 1)) 0 0x00)
      predator_v4_machine).1 = 0 ∧
    (acer_thermal_profile_change (const_fw AE_OK (some (acpi_object.integer 1)) 0 0x00)
      predator_v4_machine).2.last_non_turbo_profile
      = ACER_PREDATOR_V4_THERMAL_PROFILE_PERFORMANCE_WMI :=
  ((thermal_last_non_turbo_update (const_fw AE_OK (some (acpi_object.integer 1)) 0 0x00)
    predator_v4_machine (by decide)).2.2 (by decide) (by decide)
    ACER_PREDATOR_V4_THERMAL_PROFILE_PERFORMANCE_WMI (by decide)).2 (by decide)

/-! ### Explicit profile set -/

theorem platform_profile_write_spec (fw : Firmware) (s : State) (tp : Int) :
    (platform_profile_write fw s tp).2
      = { s with log := s.log ++ [fw_call.wmi_evaluate_method Guid.WMID_GUID4 0
            ACER_WMID_SET_GAMING_MISC_SETTING_METHODID
            (wmi_input.u64 (platform_profile_word s tp))] } ∧
    ((platform_profile_write fw s tp).1 = 0 ∨ (platform_profile_write fw s tp).1 = - EIO) := by
  unfold platform_profile_write platform_profile_word
  cases hk : RTLNX_VER_MIN s 6 14 0
  · simp only [Bool.false_eq_true, if_false]
    split <;> simp [WMI_gaming_execute_u64_frame]
  · simp only [if_true, WMID_gaming_set_misc_setting]
    split
    · simp [WMI_gaming_execute_u64_frame]
    · split <;> simp [WMI_gaming_execute_u64_frame]

/-- What `acer_predator_v4_platform_profile_set` does for any value of the
variable `acer_predator_v4_max_perf`: five options are mapped to a code, every
other option is answered with `-EOPNOTSUPP` without a write; a mapped option
makes one write of its code; when the write succeeds `last_non_turbo_profile`
becomes the code if the code differs from the variable and is unchanged if it
equals it; when the write fails the result is `-EIO` and
`last_non_turbo_profile` is unchanged. -/
theorem platform_profile_set_compares_max_perf (fw : Firmware) (s : State) :
    (∀ profile, platform_profile_switch profile = none →
      acer_predator_v4_platform_profile_set fw s profile = (- EOPNOTSUPP, s)) ∧
    (∀ profile, platform_profile_switch profile = none ↔
      (profile ≠ platform_profile_option.PLATFORM_PROFILE_PERFORMANCE ∧
       profile ≠ platform_profile_option.PLATFORM_PROFILE_BALANCED_PERFORMANCE ∧
       profile ≠ platform_profile_option.PLATFORM_PROFILE_BALANCED ∧
       profile ≠ platform_profile_option.PLATFORM_PROFILE_QUIET ∧
       profile ≠ platform_profile_option.PLATFORM_PROFILE_LOW_POWER)) ∧
    (∀ profile tp, platform_profile_switch profile = some tp →
      (acer_predator_v4_platform_profile_set fw s profile).2.log
        = s.log ++ [fw_call.wmi_evaluate_method Guid.WMID_GUID4 0
            ACER_WMID_SET_GAMING_MISC_SETTING_METHODID
            (wmi_input.u64 (platform_profile_word s tp))] ∧
      (acer_predator_v4_platform_profile_set fw s profile).1 = (platform_profile_write fw s tp).1 ∧
      ((platform_profile_write fw s tp).1 = 0 →
        (acer_predator_v4_platform_profile_set fw s profile).2.last_non_turbo_profile
          = if tp ≠ s.acer_predator_v4_max_perf then tp else s.last_non_turbo_profile) ∧
      ((platform_profile_write fw s tp).1 ≠ 0 →
        (acer_predator_v4_platform_profile_set fw s profile).1 = - EIO ∧
        (acer_predator_v4_platform_profile_set fw s profile).2.last_non_turbo_profile
          = s.last_non_turbo_profile)) := by
  refine ⟨?_, ?_, ?_⟩
  · intro profile h
    simp [acer_predator_v4_platform_profile_set, h]
  · intro profile
    cases profile <;> simp [platform_profile_switch]
  · intro profile tp h
    have hw := platform_profile_write_spec fw s tp
    by_cases h0 : (platform_profile_write fw s tp).1 = 0
    · by_cases hm : s.acer_predator_v4_max_perf = tp
      · simp [acer_predator_v4_platform_profile_set, h, h0, hm, hw.1]
      · have hm2 : ¬ tp = s.acer_predator_v4_max_perf := fun e => hm e.symm
        simp [acer_predator_v4_platform_profile_set, h, h0, hm2, hw.1]
    · have h1 : (platform_profile_write fw s tp).1 = - EIO := by
        rcases hw.2 with h2 | h2
        · exact absurd h2 h0
        · exact h2
      have hE : ¬ EIO = 0 := by decide
      simp [acer_predator_v4_platform_profile_set, h, hw.1, h1, hE]

/-! ### Turbo toggle -/

theorem WMID_gaming_set_u64_led (fw : Firmware) (s : State) (v : Nat) :
    (WMID_gaming_set_u64 fw s v ACER_CAP_TURBO_LED).2
      = { s with log := s.log ++ (if s.capability &&& ACER_CAP_TURBO_LED = 0 then []
            else [gaming_write ACER_WMID_SET_GAMING_LED_METHODID v]) } := by
  simp only [WMID_gaming_set_u64, WMI_gaming_execute_u64_frame, gaming_write]
  split <;> simp

theorem WMID_gaming_set_u64_fan (fw : Firmware) (s : State) (v : Nat) :
    (WMID_gaming_set_u64 fw s v ACER_CAP_TURBO_FAN).2
      = { s with log := s.log ++ (if s.capability &&& ACER_CAP_TURBO_FAN = 0 then []
            else [gaming_write ACER_WMID_SET_GAMING_FAN_BEHAVIOR v]) } := by
  simp only [WMID_gaming_set_u64, WMI_gaming_execute_u64_frame, gaming_write]
  split
  · simp
  · simp [ACER_CAP_TURBO_FAN, ACER_CAP_TURBO_LED]

theorem WMID_gaming_set_u64_oc (fw : Firmware) (s : State) (v : Nat) :
    (WMID_gaming_set_u64 fw s v ACER_CAP_TURBO_OC).2
      = { s with log := s.log ++ (if s.capability &&& ACER_CAP_TURBO_OC = 0 then []
            else [gaming_write ACER_WMID_SET_GAMING_MISC_SETTING_METHODID v]) } := by
  simp only [WMID_gaming_set_u64, WMI_gaming_execute_u64_frame, gaming_write]
  split
  · simp
  · simp [ACER_CAP_TURBO_FAN, ACER_CAP_TURBO_LED, ACER_CAP_TURBO_OC]

theorem acer_toggle_turbo_eq (fw : Firmware) (s : State) :
    acer_toggle_turbo fw s
      = { s with turbo_state := if s.turbo_state ≠ 0 then 0 else 1,
                 log := s.log ++ turbo_calls s (decide (s.turbo_state = 0)) } := by
  unfold acer_toggle_turbo
  by_cases h : s.turbo_state = 0
  · simp only [h, ne_eq, not_true_eq_false, if_false, WMID_gaming_set_fan_mode,
      WMID_gaming_set_u64_led, WMID_gaming_set_u64_fan, WMID_gaming_set_u64_oc, turbo_calls,
      decide_True, turbo_led_code, turbo_fan_code, turbo_oc1_code, turbo_oc2_code, if_true,
      fan_mode_word]
    by_cases h1 : s.capability &&& ACER_CAP_TURBO_LED = 0 <;>
    by_cases h2 : s.capability &&& ACER_CAP_TURBO_FAN = 0 <;>
    by_cases h3 : s.capability &&& ACER_CAP_TURBO_OC = 0 <;>
    simp [h1, h2, h3]
  · simp only [h, ne_eq, not_false_eq_true, if_true, WMID_gaming_set_fan_mode,
      WMID_gaming_set_u64_led, WMID_gaming_set_u64_fan, WMID_gaming_set_u64_oc, turbo_calls,
      decide_False, turbo_led_code, turbo_fan_code, turbo_oc1_code, turbo_oc2_code, if_false,
      fan_mode_word, Bool.false_eq_true]
    by_cases h1 : s.capability &&& ACER_CAP_TURBO_LED = 0 <;>
    by_cases h2 : s.capability &&& ACER_CAP_TURBO_FAN = 0 <;>
    by_cases h3 : s.capability &&& ACER_CAP_TURBO_OC = 0 <;>
    simp [h1, h2, h3]


theorem last_gaming_write_append (p : Nat → Nat → Bool) (l l2 : List fw_call) :
    last_gaming_write p (l ++ l2) = l2.foldl (last_gaming_write_step p) (last_gaming_write p l) := by
  simp [last_gaming_write, List.foldl_append]

theorem acer_toggle_turbo_twice_eq (fw : Firmware) (s : State)
    (hts : s.turbo_state = 0 ∨ s.turbo_state = 1) :
    acer_toggle_turbo fw (acer_toggle_turbo fw s)
      = { s with log := s.log ++ turbo_calls s (decide (s.turbo_state = 0))
                    ++ turbo_calls s (decide (s.turbo_state ≠ 0)) } := by
  rw [acer_toggle_turbo_eq fw (acer_toggle_turbo fw s), acer_toggle_turbo_eq fw s]
  rcases hts with h | h <;> simp [h, turbo_calls]

/-- C14: for a turbo state 0 or 1 whose LED, fan-behaviour and overclock words
were last written by entering that state (for each capability the machine
has), two consecutive calls of `acer_toggle_turbo` leave `turbo_state` as it
was and leave the last-written LED, fan and overclock words equal to the
ones before the two calls. -/
theorem acer_toggle_turbo_twice (fw : Firmware) (s : State)
    (hts : s.turbo_state = 0 ∨ s.turbo_state = 1)
    (hled : s.capability &&& ACER_CAP_TURBO_LED ≠ 0 →
      last_led_code s.log = some (turbo_led_code (decide (s.turbo_state ≠ 0))))
    (hfan : s.capability &&& ACER_CAP_TURBO_FAN ≠ 0 →
      last_fan_code s.log = some (turbo_fan_code s.quirks (decide (s.turbo_state ≠ 0))))
    (hoc1 : s.capability &&& ACER_CAP_TURBO_OC ≠ 0 →
      last_misc_setting_code ACER_WMID_MISC_SETTING_OC_1 s.log
        = some (turbo_oc1_code (decide (s.turbo_state ≠ 0))))
    (hoc2 : s.capability &&& ACER_CAP_TURBO_OC ≠ 0 →
      last_misc_setting_code ACER_WMID_MISC_SETTING_OC_2 s.log
        = some (turbo_oc2_code (decide (s.turbo_state ≠ 0)))) :
    (acer_toggle_turbo fw (acer_toggle_turbo fw s)).turbo_state = s.turbo_state ∧
    last_led_code (acer_toggle_turbo fw (acer_toggle_turbo fw s)).log = last_led_code s.log ∧
    last_fan_code (acer_toggle_turbo fw (acer_toggle_turbo fw s)).log = last_fan_code s.log ∧
    last_misc_setting_code ACER_WMID_MISC_SETTING_OC_1
      (acer_toggle_turbo fw (acer_toggle_turbo fw s)).log
      = last_misc_setting_code ACER_WMID_MISC_SETTING_OC_1 s.log ∧
    last_misc_setting_code ACER_WMID_MISC_SETTING_OC_2
      (acer_toggle_turbo fw (acer_toggle_turbo fw s)).log
      = last_misc_setting_code ACER_WMID_MISC_SETTING_OC_2 s.log := by
  rw [acer_toggle_turbo_twice_eq fw s hts]
  refine ⟨rfl, ?_, ?_, ?_, ?_⟩
  · by_cases h1 : s.capability &&& ACER_CAP_TURBO_LED = 0
    · by_cases h2 : s.capability &&& ACER_CAP_TURBO_FAN = 0 <;>
      by_cases h3 : s.capability &&& ACER_CAP_TURBO_OC = 0 <;>
      simp [last_led_code, last_gaming_write_append, turbo_calls, h1, h2, h3,
        last_gaming_write_step, gaming_write, ACER_WMID_SET_GAMING_LED_METHODID,
        ACER_WMID_SET_GAMING_FAN_BEHAVIOR, ACER_WMID_SET_GAMING_MISC_SETTING_METHODID]
    · rw [hled h1]
      by_cases h2 : s.capability &&& ACER_CAP_TURBO_FAN = 0 <;>
      by_cases h3 : s.capability &&& ACER_CAP_TURBO_OC = 0 <;>
      simp [last_led_code, last_gaming_write_append, turbo_calls, h1, h2, h3,
        last_gaming_write_step, gaming_write, ACER_WMID_SET_GAMING_LED_METHODID,
        ACER_WMID_SET_GAMING_FAN_BEHAVIOR, ACER_WMID_SET_GAMING_MISC_SETTING_METHODID]
  · by_cases h2 : s.capability &&& ACER_CAP_TURBO_FAN = 0
    · by_cases h1 : s.capability &&& ACER_CAP_TURBO_LED = 0 <;>
      by_cases h3 : s.capability &&& ACER_CAP_TURBO_OC = 0 <;>
      simp [last_fan_code, last_gaming_write_append, turbo_calls, h1, h2, h3,
        last_gaming_write_step, gaming_write, ACER_WMID_SET_GAMING_LED_METHODID,
        ACER_WMID_SET_GAMING_FAN_BEHAVIOR, ACER_WMID_SET_GAMING_MISC_SETTING_METHODID]
    · rw [hfan h2]
      by_cases h1 : s.capability &&& ACER_CAP_TURBO_LED = 0 <;>
      by_cases h3 : s.capability &&& ACER_CAP_TURBO_OC = 0 <;>
      simp [last_fan_code, last_gaming_write_append, turbo_calls, h1, h2, h3,
        last_gaming_write_step, gaming_write, ACER_WMID_SET_GAMING_LED_METHODID,
        ACER_WMID_SET_GAMING_FAN_BEHAVIOR, ACER_WMID_SET_GAMING_MISC_SETTING_METHODID]
  · by_cases h3 : s.capability &&& ACER_CAP_TURBO_OC = 0
    · by_cases h1 : s.capability &&& ACER_CAP_TURBO_LED = 0 <;>
      by_cases h2 : s.capability &&& ACER_CAP_TURBO_FAN = 0 <;>
      simp [last_misc_setting_code, last_gaming_write_append, turbo_calls, h1, h2, h3,
        last_gaming_write_step, gaming_write, ACER_WMID_SET_GAMING_LED_METHODID,
        ACER_WMID_SET_GAMING_FAN_BEHAVIOR, ACER_WMID_SET_GAMING_MISC_SETTING_METHODID]
    · rw [hoc1 h3]
      rcases hts with h | h <;>
      by_cases h1 : s.capability &&& ACER_CAP_TURBO_LED = 0 <;>
      by_cases h2 : s.capability &&& ACER_CAP_TURBO_FAN = 0 <;>
      simp [h, last_misc_setting_code, last_gaming_write_append, turbo_calls, h1, h2, h3,
        last_gaming_write_step, gaming_write, ACER_WMID_SET_GAMING_LED_METHODID,
        ACER_WMID_SET_GAMING_FAN_BEHAVIOR, ACER_WMID_SET_GAMING_MISC_SETTING_METHODID,
        turbo_oc1_code, turbo_oc2_code, ACER_WMID_MISC_SETTING_OC_1]
  · by_cases h3 : s.capability &&& ACER_CAP_TURBO_OC = 0
    · by_cases h1 : s.capability &&& ACER_CAP_TURBO_LED = 0 <;>
      by_cases h2 : s.capability &&& ACER_CAP_TURBO_FAN = 0 <;>
      simp [last_misc_setting_code, last_gaming_write_append, turbo_calls, h1, h2, h3,
        last_gaming_write_step, gaming_write, ACER_WMID_SET_GAMING_LED_METHODID,
        ACER_WMID_SET_GAMING_FAN_BEHAVIOR, ACER_WMID_SET_GAMING_MISC_SETTING_METHODID]
    · rw [hoc2 h3]
      rcases hts with h | h <;>
      by_cases h1 : s.capability &&& ACER_CAP_TURBO_LED = 0 <;>
      by_cases h2 : s.capability &&& ACER_CAP_TURBO_FAN = 0 <;>
      simp [h, last_misc_setting_code, last_gaming_write_append, turbo_calls, h1, h2, h3,
        last_gaming_write_step, gaming_write, ACER_WMID_SET_GAMING_LED_METHODID,
        ACER_WMID_SET_GAMING_FAN_BEHAVIOR, ACER_WMID_SET_GAMING_MISC_SETTING_METHODID,
        turbo_oc1_code, turbo_oc2_code, ACER_WMID_MISC_SETTING_OC_2]

/-- Witness of C14: a machine that has just entered turbo. -/
theorem acer_toggle_turbo_twice_witness :
    (acer_toggle_turbo (const_fw AE_OK none 0 0)
      (acer_toggle_turbo (const_fw AE_OK none 0 0)
        (acer_toggle_turbo (const_fw AE_OK none 0 0) predator_turbo_machine))).turbo_state = 1 ∧
    last_led_code (acer_toggle_turbo (const_fw AE_OK none 0 0)
      (acer_toggle_turbo (const_fw AE_OK none 0 0)
        (acer_toggle_turbo (const_fw AE_OK none 0 0) predator_turbo_machine))).log
      = some 0x10001 :=
  have h := acer_toggle_turbo_twice (const_fw AE_OK none 0 0)
    (acer_toggle_turbo (const_fw AE_OK none 0 0) predator_turbo_machine)
    (by decide) (by decide) (by decide) (by decide) (by decide)
  ⟨h.1, h.2.1⟩

/-! ### The event router -/

theorem acer_wmi_notify_buffer (fw : Firmware) (s : State) (status : acpi_status) (b : List Nat)
    (hdel : RTLNX_VER_MAX s 6 12 0 = true → status = AE_OK) (hlen : b.length = 8) :
    acer_wmi_notify fw s status (some (acpi_object.buffer b))
      = if (event_of_buffer b).function = WMID_HOTKEY_EVENT then
          notify_hotkey s (event_of_buffer b)
        else if (event_of_buffer b).function = WMID_ACCEL_OR_KBD_DOCK_EVENT then
          acer_kbd_dock_event (acer_gsensor_event fw s).2 (event_of_buffer b)
        else if (event_of_buffer b).function = WMID_GAMING_TURBO_KEY_EVENT then
          notify_turbo_key fw s (event_of_buffer b)
        else s := by
  have h : ¬ (RTLNX_VER_MAX s 6 12 0 = true ∧ status ≠ AE_OK) := fun hh => hh.2 (hdel hh.1)
  simp only [acer_wmi_notify, h, if_false, hlen, ne_eq, not_true_eq_false]

/-- C16: for a delivered 8-byte event with function 0x7 and `key_num` 1,
`macro_key_state` becomes `device_state - 1` if `device_state` is in 1..3 and
is unchanged otherwise; nothing else changes: no key event (no report at all),
no firmware call, `turbo_state` and `last_non_turbo_profile` as before.  With
`device_state` 2 the state becomes 1. -/
theorem notify_macro_key_select (fw : Firmware) (s : State) (status : acpi_status) (b : List Nat)
    (hdel : RTLNX_VER_MAX s 6 12 0 = true → status = AE_OK) (hlen : b.length = 8)
    (hfn : byte_at b 0 = WMID_GAMING_TURBO_KEY_EVENT) (hkey : byte_at b 1 = 0x1) :
    acer_wmi_notify fw s status (some (acpi_object.buffer b))
      = { s with macro_key_state :=
            if 1 ≤ le_u16 b 2 ∧ le_u16 b 2 ≤ 3 then le_u16 b 2 - 1 else s.macro_key_state } ∧
    (acer_wmi_notify fw s status (some (acpi_object.buffer b))).events = s.events ∧
    (acer_wmi_notify fw s status (some (acpi_object.buffer b))).log = s.log ∧
    (acer_wmi_notify fw s status (some (acpi_object.buffer b))).turbo_state = s.turbo_state ∧
    (acer_wmi_notify fw s status (some (acpi_object.buffer b))).last_non_turbo_profile
      = s.last_non_turbo_profile ∧
    (acer_wmi_notify (const_fw AE_OK none 0 0) predator_turbo_machine AE_OK
      (some (event_buffer 0x7 0x1 2 0))).macro_key_state = 1 := by
  have e : acer_wmi_notify fw s status (some (acpi_object.buffer b))
      = { s with macro_key_state :=
            if 1 ≤ le_u16 b 2 ∧ le_u16 b 2 ≤ 3 then le_u16 b 2 - 1 else s.macro_key_state } := by
    rw [acer_wmi_notify_buffer fw s status b hdel hlen]
    simp only [event_of_buffer, hfn, hkey, notify_turbo_key, WMID_GAMING_TURBO_KEY_EVENT,
      WMID_HOTKEY_EVENT, WMID_ACCEL_OR_KBD_DOCK_EVENT]
    simp only [show ¬ (7 : Nat) = 1 by decide, show ¬ (7 : Nat) = 5 by decide, if_false, if_true]
    by_cases h : 1 ≤ le_u16 b 2 ∧ le_u16 b 2 ≤ 3
    · have hm : (le_u16 b 2 - 1) % 256 = le_u16 b 2 - 1 := by omega
      simp [h, hm]
    · have h2 : ¬ (le_u16 b 2 ≥ 1 ∧ le_u16 b 2 ≤ 3) := h
      simp [h, h2]
  rw [e]
  exact ⟨rfl, rfl, rfl, rfl, rfl, by decide⟩

/-- Witness of C16: `device_state` 3 selects bank 2. -/
theorem notify_macro_key_select_witness :
    acer_wmi_notify (const_fw AE_OK none 0 0) predator_turbo_machine AE_OK
      (some (acpi_object.buffer [7, 1, 3, 0, 0, 0, 0, 0]))
      = { predator_turbo_machine with macro_key_state := 2 } :=
  (notify_macro_key_select (const_fw AE_OK none 0 0) predator_turbo_machine AE_OK
    [7, 1, 3, 0, 0, 0, 0, 0] (by decide) (by decide) (by decide) (by decide)).1

/-- C17: for a delivered 8-byte event with function 0x7 and `key_num` 2, if
`device_state` is in 1..5 exactly one key event is reported, with scancode
`0xda00 + (macro_key_state << 4) + (device_state - 1)`, and otherwise nothing
is reported; `macro_key_state` is unchanged.  With `macro_key_state` 1 and
`device_state` 3 the scancode is `0xda12`, also when the 1 was set by the
event of C16. -/
theorem notify_macro_key_press (fw : Firmware) (s : State) (status : acpi_status) (b : List Nat)
    (hdel : RTLNX_VER_MAX s 6 12 0 = true → status = AE_OK) (hlen : b.length = 8)
    (hfn : byte_at b 0 = WMID_GAMING_TURBO_KEY_EVENT) (hkey : byte_at b 1 = 0x2) :
    acer_wmi_notify fw s status (some (acpi_object.buffer b))
      = (if 1 ≤ le_u16 b 2 ∧ le_u16 b 2 ≤ 5 then
          { s with events := s.events ++ [out_event.sparse_keymap_report_event
              (0xda00 + (s.macro_key_state <<< 4) + (le_u16 b 2 - 1)) 1 true] }
        else s) ∧
    (acer_wmi_notify fw s status (some (acpi_object.buffer b))).macro_key_state
      = s.macro_key_state ∧
    (acer_wmi_notify (const_fw AE_OK none 0 0)
      { predator_turbo_machine with macro_key_state := 1 } AE_OK
      (some (event_buffer 0x7 0x2 3 0))).events
      = [out_event.sparse_keymap_report_event 0xda12 1 true] ∧
    (acer_wmi_notify (const_fw AE_OK none 0 0)
      (acer_wmi_notify (const_fw AE_OK none 0 0) predator_turbo_machine AE_OK
        (some (event_buffer 0x7 0x1 2 0))) AE_OK
      (some (event_buffer 0x7 0x2 3 0))).events
      = [out_event.sparse_keymap_report_event (0xda00 + (1 <<< 4) + 2) 1 true] := by
  have e : acer_wmi_notify fw s status (some (acpi_object.buffer b))
      = (if 1 ≤ le_u16 b 2 ∧ le_u16 b 2 ≤ 5 then
          { s with events := s.events ++ [out_event.sparse_keymap_report_event
              (0xda00 + (s.macro_key_state <<< 4) + (le_u16 b 2 - 1)) 1 true] }
        else s) := by
    rw [acer_wmi_notify_buffer fw s status b hdel hlen]
    simp only [event_of_buffer, hfn, hkey, notify_turbo_key, WMID_GAMING_TURBO_KEY_EVENT,
      WMID_HOTKEY_EVENT, WMID_ACCEL_OR_KBD_DOCK_EVENT, emit]
    simp only [show ¬ (7 : Nat) = 1 by decide, show ¬ (7 : Nat) = 5 by decide,
      show ¬ (2 : Nat) = 1 by decide, if_false, if_true]
    by_cases h : 1 ≤ le_u16 b 2 ∧ le_u16 b 2 ≤ 5
    · have hm : 0xda00 + (s.macro_key_state <<< 4) + le_u16 b 2 - 1
          = 0xda00 + (s.macro_key_state <<< 4) + (le_u16 b 2 - 1) := by omega
      simp [h, hm]
    · have h2 : ¬ (le_u16 b 2 ≥ 1 ∧ le_u16 b 2 ≤ 5) := h
      simp [h, h2]
  refine ⟨e, ?_, by decide, by decide⟩
  rw [e]
  split <;> rfl

/-- Witness of C17: bank 0, fifth macro key. -/
theorem notify_macro_key_press_witness :
    acer_wmi_notify (const_fw AE_OK none 0 0) predator_turbo_machine AE_OK
      (some (acpi_object.buffer [7, 2, 5, 0, 0, 0, 0, 0]))
      = { predator_turbo_machine with
          events := [out_event.sparse_keymap_report_event 0xda04 1 true] } :=
  (notify_macro_key_press (const_fw AE_OK none 0 0) predator_turbo_machine AE_OK
    [7, 2, 5, 0, 0, 0, 0, 0] (by decide) (by decide) (by decide) (by decide)).1

/-- C18: `acer_wmi_notify` is total, and it returns the state it was given
(no variable changed, no firmware call, no report) for an absent event
object, for an object that is not a buffer, for a buffer whose length is not
8, for an 8-byte event whose function is none of 0x1, 0x5, 0x7, and, on
kernels before 6.12, when fetching the event object failed. -/
theorem notify_drops_unusable (fw : Firmware) (s : State) (status : acpi_status) :
    acer_wmi_notify fw s status none = s ∧
    (∀ v, acer_wmi_notify fw s status (some (acpi_object.integer v)) = s) ∧
    (∀ t, acer_wmi_notify fw s status (some (acpi_object.other t)) = s) ∧
    (∀ b : List Nat, b.length ≠ 8 →
      acer_wmi_notify fw s status (some (acpi_object.buffer b)) = s) ∧
    (∀ b : List Nat, b.length = 8 → byte_at b 0 ≠ WMID_HOTKEY_EVENT →
      byte_at b 0 ≠ WMID_ACCEL_OR_KBD_DOCK_EVENT → byte_at b 0 ≠ WMID_GAMING_TURBO_KEY_EVENT →
      acer_wmi_notify fw s status (some (acpi_object.buffer b)) = s) ∧
    (∀ obj, RTLNX_VER_MAX s 6 12 0 = true → status ≠ AE_OK →
      acer_wmi_notify fw s status obj = s) := by
  refine ⟨?_, ?_, ?_, ?_, ?_, ?_⟩
  · simp [acer_wmi_notify]
  · intro v; simp [acer_wmi_notify]
  · intro t; simp [acer_wmi_notify]
  · intro b hb; simp [acer_wmi_notify, hb]
  · intro b hb h1 h5 h7
    simp [acer_wmi_notify, hb, event_of_buffer, h1, h5, h7]
  · intro obj h1 h2
    simp [acer_wmi_notify, h1, h2]

theorem notify_rfkill_sync_eq (s : State) (device_state : Nat) :
    notify_rfkill_sync s device_state
      = { s with events := s.events ++ radio_updates s.capability device_state } := by
  simp only [notify_rfkill_sync, has_cap, emit, radio_updates]
  by_cases h1 : s.capability &&& ACER_CAP_WIRELESS = 0 <;>
  by_cases h2 : s.capability &&& ACER_CAP_THREEG = 0 <;>
  by_cases h3 : s.capability &&& ACER_CAP_BLUETOOTH = 0 <;>
  simp [h1, h2, h3]

theorem gds_flag_clear (d k : Nat) : (d &&& 2 ^ k == 0) = !d.testBit k := by
  cases hb : d.testBit k
  · have h0 : d &&& 2 ^ k = 0 := by
      apply Nat.eq_of_testBit_eq
      intro i
      rw [Nat.testBit_and, Nat.testBit_two_pow, Nat.zero_testBit]
      by_cases hki : k = i
      · subst hki; simp [hb]
      · simp [hki]
    simp [h0]
  · have h1 : d &&& 2 ^ k ≠ 0 := by
      intro h0
      have ht : (d &&& 2 ^ k).testBit k = true := by
        rw [Nat.testBit_and, Nat.testBit_two_pow_self, hb]; rfl
      rw [h0, Nat.zero_testBit] at ht
      exact absurd ht (by decide)
    simp [h1]

/-- C19: for a delivered 8-byte event with function 0x1 whose `key_num`
resolves in `acer_wmi_keymap` to `KEY_WLAN` or `KEY_BLUETOOTH`, the handler
makes no firmware call and reports, in this order, for each radio whose
capability is set: wireless blocked iff bit 0 of `device_state` is clear,
wwan blocked iff bit 6 is clear, bluetooth blocked iff bit 11 is clear (a
radio whose capability is not set gets no update), and then the key itself. -/
theorem notify_radio_hotkey (fw : Firmware) (s : State) (status : acpi_status) (b : List Nat)
    (key : key_entry)
    (hdel : RTLNX_VER_MAX s 6 12 0 = true → status = AE_OK) (hlen : b.length = 8)
    (hfn : byte_at b 0 = WMID_HOTKEY_EVENT)
    (hkey : sparse_keymap_entry_from_scancode (byte_at b 1) = some key)
    (hcode : key.keycode = keycode.KEY_WLAN ∨ key.keycode = keycode.KEY_BLUETOOTH) :
    acer_wmi_notify fw s status (some (acpi_object.buffer b))
      = { s with events := s.events ++ radio_updates s.capability (le_u16 b 2)
            ++ [out_event.sparse_keymap_report_event (byte_at b 1) 1 true] } ∧
    (acer_wmi_notify fw s status (some (acpi_object.buffer b))).log = s.log ∧
    radio_updates s.capability (le_u16 b 2)
      = (if s.capability &&& ACER_CAP_WIRELESS ≠ 0 then
          [out_event.rfkill_set_sw_state rfkill_dev.wireless_rfkill (!(le_u16 b 2).testBit 0)]
          else []) ++
        (if s.capability &&& ACER_CAP_THREEG ≠ 0 then
          [out_event.rfkill_set_sw_state rfkill_dev.threeg_rfkill (!(le_u16 b 2).testBit 6)]
          else []) ++
        (if s.capability &&& ACER_CAP_BLUETOOTH ≠ 0 then
          [out_event.rfkill_set_sw_state rfkill_dev.bluetooth_rfkill (!(le_u16 b 2).testBit 11)]
          else []) := by
  have e : acer_wmi_notify fw s status (some (acpi_object.buffer b))
      = { s with events := s.events ++ radio_updates s.capability (le_u16 b 2)
            ++ [out_event.sparse_keymap_report_event (byte_at b 1) 1 true] } := by
    rw [acer_wmi_notify_buffer fw s status b hdel hlen]
    simp only [event_of_buffer, hfn, if_true, notify_hotkey, hkey, hcode, notify_rfkill_sync_eq,
      emit]
  refine ⟨e, by rw [e], ?_⟩
  have w0 : ACER_WMID3_GDS_WIRELESS = 2 ^ 0 := by decide
  have w6 : ACER_WMID3_GDS_THREEG = 2 ^ 6 := by decide
  have w11 : ACER_WMID3_GDS_BLUETOOTH = 2 ^ 11 := by decide
  simp only [radio_updates, w0, w6, w11, gds_flag_clear]

/-- Witness of C19: the bluetooth key with wireless and bluetooth on, wwan off. -/
theorem notify_radio_hotkey_witness :
    (acer_wmi_notify (const_fw AE_OK none 0 0) wmid_v2_radios AE_OK
      (some (acpi_object.buffer [1, 0x12, 0x01, 0x08, 0, 0, 0, 0]))).events
      = [out_event.rfkill_set_sw_state rfkill_dev.wireless_rfkill false,
         out_event.rfkill_set_sw_state rfkill_dev.threeg_rfkill true,
         out_event.rfkill_set_sw_state rfkill_dev.bluetooth_rfkill false,
         out_event.sparse_keymap_report_event 0x12 1 true] :=
  have h := notify_radio_hotkey (const_fw AE_OK none 0 0) wmid_v2_radios AE_OK
    [1, 0x12, 0x01, 0x08, 0, 0, 0, 0] ⟨key_entry_type.KE_KEY, 0x12, keycode.KEY_BLUETOOTH⟩
    (by decide) (by decide) (by decide) (by decide) (by decide)
  by rw [h.1]; decide

/-! ### A reply of the wrong shape on the WMID_GUID1 path -/

theorem WMI_execute_u32_frame (fw : Firmware) (s : State) (m i : Nat) :
    (WMI_execute_u32 fw s m i).2
      = { s with log := s.log ++ [fw_call.wmi_evaluate_method Guid.WMID_GUID1 0 m
            (wmi_input.u32 i)] } := by
  simp only [WMI_execute_u32, wmi_evaluate_method]
  split <;> rfl

/-- C20, as stated, fails: on a WMID machine with the wireless capability,
when the firmware answers method 1 with success and a 3-byte buffer (neither
4 nor 8 bytes), `get_u32(&value, ACER_CAP_WIRELESS)` returns `AE_OK` and
reports the value 0. -/
theorem get_u32_bad_shape_reports_value :
    wmid_wireless.capability &&& ACER_CAP_WIRELESS ≠ 0 ∧
    (get_u32 (const_fw AE_OK (some (acpi_object.buffer [1, 2, 3])) 0 0) wmid_wireless
      ACER_CAP_WIRELESS).2.log
      = [fw_call.wmi_evaluate_method Guid.WMID_GUID1 0 ACER_WMID_GET_WIRELESS_METHODID
          (wmi_input.u32 0)] ∧
    (get_u32 (const_fw AE_OK (some (acpi_object.buffer [1, 2, 3])) 0 0) wmid_wireless
      ACER_CAP_WIRELESS).1 = (AE_OK, some 0) ∧
    ¬ (ACPI_FAILURE (get_u32 (const_fw AE_OK (some (acpi_object.buffer [1, 2, 3])) 0 0)
          wmid_wireless ACER_CAP_WIRELESS).1.1 = true ∧
       (get_u32 (const_fw AE_OK (some (acpi_object.buffer [1, 2, 3])) 0 0) wmid_wireless
          ACER_CAP_WIRELESS).1.2 = none) := by
  decide

/-! ### Fan-mode packing -/

/-- C15: on a machine with the turbo-fan capability, one CPU fan and `g` GPU
fans (`g` 1 or 2, the topologies of the quirk table), for fan mode `m` 1
(auto) or 2 (turbo), `WMID_gaming_set_fan_mode(m)` makes the single write
`E | (M << 16)` on the fan-behaviour method, where `E = 2^(g+3) - 1` and `M`
holds `m` in each of the 2-bit fields 0..g+2 and nothing above; `E` stays
below bit 16, so it does not overlap the shifted mode word.  The words are
0xAA000F for (1, 1, turbo), 0x55000F for (1, 1, auto) and 0x2AA001F for
(1, 2, turbo). -/
theorem WMID_gaming_set_fan_mode_word (fw : Firmware) (s : State) (g m : Nat)
    (hcap : s.capability &&& ACER_CAP_TURBO_FAN ≠ 0)
    (hc : s.quirks.cpu_fans = 1) (hg : s.quirks.gpu_fans = g)
    (hg12 : g = 1 ∨ g = 2) (hm : m = 1 ∨ m = 2) :
    WMID_gaming_set_fan_mode fw s m
      = { s with log := s.log ++ [gaming_write ACER_WMID_SET_GAMING_FAN_BEHAVIOR
            ((2 ^ (g + 3) - 1) ||| ((m * ((4 ^ (g + 3) - 1) / 3)) <<< 16))] } ∧
    (∀ k, k ≤ g + 2 → ((m * ((4 ^ (g + 3) - 1) / 3)) >>> (2 * k)) % 4 = m) ∧
    m * ((4 ^ (g + 3) - 1) / 3) < 4 ^ (g + 3) ∧
    2 ^ (g + 3) - 1 < 2 ^ 16 ∧
    (2 ^ (g + 3) - 1) &&& ((m * ((4 ^ (g + 3) - 1) / 3)) <<< 16) = 0 ∧
    fan_mode_word { cpu_fans := 1, gpu_fans := 1 } 2 = 0xAA000F ∧
    fan_mode_word { cpu_fans := 1, gpu_fans := 1 } 1 = 0x55000F ∧
    fan_mode_word { cpu_fans := 1, gpu_fans := 2 } 2 = 0x2AA001F := by
  have e : WMID_gaming_set_fan_mode fw s m
      = { s with log := s.log ++ [gaming_write ACER_WMID_SET_GAMING_FAN_BEHAVIOR
            (fan_mode_word s.quirks m)] } := by
    simp only [WMID_gaming_set_fan_mode, WMID_gaming_set_u64_fan, hcap, if_false, fan_mode_word]
  have w : fan_mode_word s.quirks m
      = (2 ^ (g + 3) - 1) ||| ((m * ((4 ^ (g + 3) - 1) / 3)) <<< 16) := by
    simp only [fan_mode_word, hc, hg]
    rcases hg12 with h | h <;> rcases hm with h2 | h2 <;> subst h <;> subst h2 <;> decide
  rw [e, w]
  refine ⟨rfl, ?_, ?_, ?_, ?_, by decide, by decide, by decide⟩
  · rcases hg12 with h | h <;> rcases hm with h2 | h2 <;> subst h <;> subst h2 <;> decide
  · rcases hg12 with h | h <;> rcases hm with h2 | h2 <;> subst h <;> subst h2 <;> decide
  · rcases hg12 with h | h <;> subst h <;> decide
  · rcases hg12 with h | h <;> rcases hm with h2 | h2 <;> subst h <;> subst h2 <;> decide

/-- Witness of C15: turbo mode on a machine with one CPU and one GPU fan. -/
theorem WMID_gaming_set_fan_mode_word_witness :
    WMID_gaming_set_fan_mode (const_fw AE_OK none 0 0) predator_turbo_machine 2
      = { predator_turbo_machine with
          log := [gaming_write ACER_WMID_SET_GAMING_FAN_BEHAVIOR 0xAA000F] } :=
  (WMID_gaming_set_fan_mode_word (const_fw AE_OK none 0 0) predator_turbo_machine 1 2
    (by decide) (by decide) (by decide) (by decide) (by decide)).1

/-! ### The compensating double write of the AMW0 V2 interface -/

theorem WMID_set_u32_radio (fw : Firmware) (s : State) (v c : Nat)
    (hc : c = ACER_CAP_WIRELESS ∨ c = ACER_CAP_BLUETOOTH) :
    WMID_set_u32 fw s v c =
      if v > 1 then (AE_BAD_PARAMETER, s)
      else ((fw.wmi_evaluate_method s.log Guid.WMID_GUID1
        (if c = ACER_CAP_WIRELESS then ACER_WMID_SET_WIRELESS_METHODID
          else ACER_WMID_SET_BLUETOOTH_METHODID) (wmi_input.u32 v)).1,
       { s with log := s.log ++ [WMID_radio_write c v] }) := by
  have hb : ¬ ACER_CAP_WIRELESS = ACER_CAP_BRIGHTNESS := by decide
  have hb2 : ¬ ACER_CAP_BLUETOOTH = ACER_CAP_BRIGHTNESS := by decide
  have hw : ¬ ACER_CAP_BLUETOOTH = ACER_CAP_WIRELESS := by decide
  rcases hc with rfl | rfl
  · by_cases hv : v > 1
    · simp [WMID_set_u32, hb, hv]
    · by_cases hf : ACPI_FAILURE (fw.wmi_evaluate_method s.log Guid.WMID_GUID1
          ACER_WMID_SET_WIRELESS_METHODID (wmi_input.u32 v)).1 = true <;>
      simp [WMID_set_u32, hb, hv, WMI_execute_u32, wmi_evaluate_method, hf, WMID_radio_write]
  · by_cases hv : v > 1
    · simp [WMID_set_u32, hb2, hw, hv]
    · by_cases hf : ACPI_FAILURE (fw.wmi_evaluate_method s.log Guid.WMID_GUID1
          ACER_WMID_SET_BLUETOOTH_METHODID (wmi_input.u32 v)).1 = true <;>
      simp [WMID_set_u32, hb2, hw, hv, WMI_execute_u32, wmi_evaluate_method, hf,
        WMID_radio_write]

theorem set_u32_AMW0_V2_radio (fw : Firmware) (s : State) (v c : Nat)
    (hty : s.interface_type = interface_flags.ACER_AMW0_V2) (hcap : s.capability &&& c ≠ 0)
    (hc : c = ACER_CAP_WIRELESS ∨ c = ACER_CAP_BLUETOOTH) :
    set_u32 fw s v c =
      if v > 1 then (AE_BAD_PARAMETER, s)
      else if ACPI_FAILURE (fw.wmi_evaluate_method s.log Guid.WMID_GUID1
          (if c = ACER_CAP_WIRELESS then ACER_WMID_SET_WIRELESS_METHODID
            else ACER_WMID_SET_BLUETOOTH_METHODID) (wmi_input.u32 v)).1 then
        ((fw.wmi_evaluate_method s.log Guid.WMID_GUID1
          (if c = ACER_CAP_WIRELESS then ACER_WMID_SET_WIRELESS_METHODID
            else ACER_WMID_SET_BLUETOOTH_METHODID) (wmi_input.u32 v)).1,
         { s with log := s.log ++ [WMID_radio_write c v] })
      else
        ((fw.wmi_evaluate_method (s.log ++ [WMID_radio_write c v]) Guid.AMW0_GUID1 1
          (AMW0_radio_args c v)).1,
         { s with log := s.log ++ [WMID_radio_write c v, AMW0_radio_write c v] }) := by
  have hm : ¬ ACER_CAP_WIRELESS = ACER_CAP_MAILLED := by decide
  have hm2 : ¬ ACER_CAP_BLUETOOTH = ACER_CAP_MAILLED := by decide
  have hb : ¬ ACER_CAP_WIRELESS = ACER_CAP_BRIGHTNESS := by decide
  have hb2 : ¬ ACER_CAP_BLUETOOTH = ACER_CAP_BRIGHTNESS := by decide
  have hw : ¬ ACER_CAP_BLUETOOTH = ACER_CAP_WIRELESS := by decide
  rcases hc with rfl | rfl
  · by_cases hv : v > 1
    · simp [set_u32, hty, hcap, hm, hb, WMID_set_u32, hv, ACPI_FAILURE, AE_BAD_PARAMETER]
    · by_cases hf : ACPI_FAILURE (fw.wmi_evaluate_method s.log Guid.WMID_GUID1
          ACER_WMID_SET_WIRELESS_METHODID (wmi_input.u32 v)).1 = true
      · simp [set_u32, hty, hcap, hm, hb, WMID_set_u32, hv, WMI_execute_u32,
          wmi_evaluate_method, hf, WMID_radio_write]
      · simp [set_u32, hty, hcap, hm, hb, WMID_set_u32, hv, WMI_execute_u32,
          wmi_evaluate_method, hf, WMID_radio_write, AMW0_set_u32, wmab_execute,
          AMW0_radio_write, AMW0_radio_args]
  · by_cases hv : v > 1
    · simp [set_u32, hty, hcap, hm2, hb2, hw, WMID_set_u32, hv, ACPI_FAILURE, AE_BAD_PARAMETER]
    · by_cases hf : ACPI_FAILURE (fw.wmi_evaluate_method s.log Guid.WMID_GUID1
          ACER_WMID_SET_BLUETOOTH_METHODID (wmi_input.u32 v)).1 = true
      · simp [set_u32, hty, hcap, hm2, hb2, hw, WMID_set_u32, hv, WMI_execute_u32,
          wmi_evaluate_method, hf, WMID_radio_write]
      · simp [set_u32, hty, hcap, hm2, hb2, hw, WMID_set_u32, hv, WMI_execute_u32,
          wmi_evaluate_method, hf, WMID_radio_write, AMW0_set_u32, wmab_execute,
          AMW0_radio_write, AMW0_radio_args]


/-- C21: on the AMW0 V2 interface with capability `c` supported, `set_u32(v, c)`
for `c` wireless or bluetooth is `WMID_set_u32` first and, exactly when that
returned success, `AMW0_set_u32` with the same `v` and `c` after it: a value
above 1 is rejected with `AE_BAD_PARAMETER` and no call; a failing Unified
write returns its status with the Unified call as the only call; a successful
one is followed by the legacy call.  For the mail LED only `AMW0_set_u32` runs,
and for every other capability only `WMID_set_u32`. -/
theorem set_u32_AMW0_V2_double_write (fw : Firmware) (s : State) (v c : Nat)
    (hty : s.interface_type = interface_flags.ACER_AMW0_V2) (hcap : s.capability &&& c ≠ 0) :
    (c = ACER_CAP_WIRELESS ∨ c = ACER_CAP_BLUETOOTH →
      set_u32 fw s v c
        = (if ACPI_FAILURE (WMID_set_u32 fw s v c).1 then WMID_set_u32 fw s v c
           else AMW0_set_u32 fw (WMID_set_u32 fw s v c).2 v c) ∧
      (v > 1 → WMID_set_u32 fw s v c = (AE_BAD_PARAMETER, s) ∧
        set_u32 fw s v c = (AE_BAD_PARAMETER, s)) ∧
      (ACPI_FAILURE (WMID_set_u32 fw s v c).1 = true →
        set_u32 fw s v c = WMID_set_u32 fw s v c ∧
        (set_u32 fw s v c).2.log
          = s.log ++ (if v > 1 then [] else [WMID_radio_write c v])) ∧
      (ACPI_FAILURE (WMID_set_u32 fw s v c).1 = false →
        (set_u32 fw s v c).2.log = s.log ++ [WMID_radio_write c v, AMW0_radio_write c v])) ∧
    (c = ACER_CAP_MAILLED → set_u32 fw s v c = AMW0_set_u32 fw s v c) ∧
    (c ≠ ACER_CAP_MAILLED → c ≠ ACER_CAP_WIRELESS → c ≠ ACER_CAP_BLUETOOTH →
      set_u32 fw s v c = WMID_set_u32 fw s v c) := by
  refine ⟨fun hc => ?_, fun hc => ?_, fun h1 h2 h3 => ?_⟩
  · have hm : ¬ c = ACER_CAP_MAILLED := by
      rcases hc with rfl | rfl <;> decide
    have hdef : set_u32 fw s v c
        = (if ACPI_FAILURE (WMID_set_u32 fw s v c).1 then WMID_set_u32 fw s v c
           else AMW0_set_u32 fw (WMID_set_u32 fw s v c).2 v c) := by
      simp only [set_u32, hty, hcap, hm, hc, ne_eq, not_false_eq_true, if_true, if_false]
    have hW := WMID_set_u32_radio fw s v c hc
    have hR := set_u32_AMW0_V2_radio fw s v c hty hcap hc
    refine ⟨hdef, ?_, ?_, ?_⟩
    · intro hv
      rw [hR, hW]
      simp [hv]
    · intro hf
      refine ⟨by rw [hdef]; simp [hf], ?_⟩
      rw [hdef]
      simp only [hf, if_true]
      rw [hW]
      by_cases hv : v > 1 <;> simp [hv]
    · intro hf
      rw [hW] at hf
      by_cases hv : v > 1
      · simp [hv, ACPI_FAILURE, AE_BAD_PARAMETER] at hf
      · simp only [hv, if_false] at hf
        rw [hR]
        simp [hv, hf]
  · subst hc
    simp [set_u32, hty, hcap]
  · simp [set_u32, hty, hcap, h1, h2, h3]

/-- Witness of C21: wireless on, both writes succeed and follow each other. -/
theorem set_u32_AMW0_V2_double_write_witness :
    (set_u32 (const_fw AE_OK none 0 0) amw0_v2_radios 1 ACER_CAP_WIRELESS).2.log
      = [WMID_radio_write ACER_CAP_WIRELESS 1, AMW0_radio_write ACER_CAP_WIRELESS 1] :=
  ((set_u32_AMW0_V2_double_write (const_fw AE_OK none 0 0) amw0_v2_radios 1 ACER_CAP_WIRELESS
    (by decide) (by decide)).1 (by decide)).2.2.2 (by decide)

/-- C22, as stated, fails: on an AMW0 V2 machine whose firmware accepts the
Unified wireless write and fails the legacy one, `WMID_set_u32` returns success
and `set_u32(1, ACER_CAP_WIRELESS)` returns the failure `AE_ERROR` of the
legacy write. -/
theorem set_u32_AMW0_V2_second_failure_returned :
    ACPI_FAILURE (WMID_set_u32 wmid_only_fw amw0_v2_radios 1 ACER_CAP_WIRELESS).1 = false ∧
    (set_u32 wmid_only_fw amw0_v2_radios 1 ACER_CAP_WIRELESS).1 = AE_ERROR ∧
    ACPI_FAILURE (set_u32 wmid_only_fw amw0_v2_radios 1 ACER_CAP_WIRELESS).1 = true ∧
    (set_u32 wmid_only_fw amw0_v2_radios 1 ACER_CAP_WIRELESS).2.log
      = [WMID_radio_write ACER_CAP_WIRELESS 1, AMW0_radio_write ACER_CAP_WIRELESS 1] := by
  decide

/-- C22, amended: on the AMW0 V2 interface with capability `c` (wireless or
bluetooth) supported, whenever the Unified write succeeds `set_u32(v, c)`
returns the status of the legacy write that follows it: success exactly when
the legacy write succeeds as well. -/
theorem set_u32_AMW0_V2_returns_legacy_status (fw : Firmware) (s : State) (v c : Nat)
    (hty : s.interface_type = interface_flags.ACER_AMW0_V2) (hcap : s.capability &&& c ≠ 0)
    (hc : c = ACER_CAP_WIRELESS ∨ c = ACER_CAP_BLUETOOTH)
    (hok : ACPI_FAILURE (WMID_set_u32 fw s v c).1 = false) :
    (set_u32 fw s v c).1 = (AMW0_set_u32 fw (WMID_set_u32 fw s v c).2 v c).1 ∧
    (set_u32 fw s v c).1
      = (fw.wmi_evaluate_method (s.log ++ [WMID_radio_write c v]) Guid.AMW0_GUID1 1
          (AMW0_radio_args c v)).1 ∧
    (ACPI_FAILURE (set_u32 fw s v c).1 = false ↔
      ACPI_FAILURE (fw.wmi_evaluate_method (s.log ++ [WMID_radio_write c v]) Guid.AMW0_GUID1 1
          (AMW0_radio_args c v)).1 = false) := by
  have hm : ¬ c = ACER_CAP_MAILLED := by
    rcases hc with rfl | rfl <;> decide
  have hdef : set_u32 fw s v c = AMW0_set_u32 fw (WMID_set_u32 fw s v c).2 v c := by
    simp only [set_u32, hty, hcap, hm, hc, ne_eq, not_false_eq_true, if_true, if_false, hok,
      Bool.false_eq_true]
  have hR := set_u32_AMW0_V2_radio fw s v c hty hcap hc
  have hW := WMID_set_u32_radio fw s v c hc
  have hv : ¬ v > 1 := by
    intro hv
    rw [hW] at hok
    simp [hv, ACPI_FAILURE, AE_BAD_PARAMETER] at hok
  have hu : ACPI_FAILURE (fw.wmi_evaluate_method s.log Guid.WMID_GUID1
      (if c = ACER_CAP_WIRELESS then ACER_WMID_SET_WIRELESS_METHODID
        else ACER_WMID_SET_BLUETOOTH_METHODID) (wmi_input.u32 v)).1 = false := by
    rw [hW] at hok
    simpa [hv] using hok
  have hst : (set_u32 fw s v c).1
      = (fw.wmi_evaluate_method (s.log ++ [WMID_radio_write c v]) Guid.AMW0_GUID1 1
          (AMW0_radio_args c v)).1 := by
    rw [hR]
    simp [hv, hu]
  exact ⟨by rw [hdef], hst, by rw [hst]⟩

/-- Witness of C22 amended: the legacy write fails and its status is returned. -/
theorem set_u32_AMW0_V2_returns_legacy_status_witness :
    (set_u32 wmid_only_fw amw0_v2_radios 1 ACER_CAP_WIRELESS).1
      = (wmid_only_fw.wmi_evaluate_method ([] ++ [WMID_radio_write ACER_CAP_WIRELESS 1])
          Guid.AMW0_GUID1 1 (AMW0_radio_args ACER_CAP_WIRELESS 1)).1 :=
  (set_u32_AMW0_V2_returns_legacy_status wmid_only_fw amw0_v2_radios 1 ACER_CAP_WIRELESS
    (by decide) (by decide) (by decide) (by decide)).2.1

/-! ### Non-zero error codes in the device-status reply -/

/-- C29: when the device-status read succeeds with an 8-byte reply `b` whose
`error_code` (byte 0) or `ec_return_value` (byte 1) is non-zero, then, for every
`value` and `device`, `wmid3_set_device_status` makes no write call (the read
is its only call) and returns the read's status `AE_OK`; and
`wmid3_get_device_status`, on such a reply to its own read, returns `AE_OK`
and stores nothing through `value`. -/
theorem wmid3_error_codes_return_success (fw : Firmware) (s : State) (value device : Nat)
    (st : acpi_status) (b : List Nat) (hst : ACPI_FAILURE st = false) (hlen : b.length = 8)
    (herr : byte_at b 0 ≠ 0 ∨ byte_at b 1 ≠ 0) :
    (fw.wmi_evaluate_method s.log Guid.WMID_GUID3 0x2
        (wmi_input.wmid3_gds_get_input_param 0x1 s.commun_fn_key_number s.commun_func_bitmap)
        = (st, some (acpi_object.buffer b)) →
      wmid3_set_device_status fw s value device
        = (AE_OK, { s with log := s.log ++ [gds_read s] })) ∧
    (fw.wmi_evaluate_method s.log Guid.WMID_GUID3 0x2
        (wmi_input.wmid3_gds_get_input_param 0x1 s.commun_fn_key_number device)
        = (st, some (acpi_object.buffer b)) →
      wmid3_get_device_status fw s device
        = ((AE_OK, none), { s with log := s.log ++
            [fw_call.wmi_evaluate_method Guid.WMID_GUID3 0 0x2
              (wmi_input.wmid3_gds_get_input_param 0x1 s.commun_fn_key_number device)] })) := by
  have h0 : st = AE_OK := by
    simpa [ACPI_FAILURE, AE_OK] using hst
  subst h0
  constructor
  · intro h
    simp only [wmid3_set_device_status, wmi_evaluate_method, h, hst, hlen, herr, gds_read,
      Bool.false_eq_true, if_false, if_true, ne_eq, not_true_eq_false]
  · intro h
    simp only [wmid3_get_device_status, wmi_evaluate_method, h, hst, hlen, herr,
      Bool.false_eq_true, if_false, if_true, ne_eq, not_true_eq_false]

/-- Witness of C29: the reply carries error code 1. -/
theorem wmid3_error_codes_return_success_witness :
    wmid3_set_device_status
        (const_fw AE_OK (some (acpi_object.buffer [1, 0, 0x41, 0x08, 0, 0, 0, 0])) 0 0)
        wmid_v2_radios 1 ACER_WMID3_GDS_BLUETOOTH
      = (AE_OK, { wmid_v2_radios with log := wmid_v2_radios.log ++ [gds_read wmid_v2_radios] }) ∧
    wmid3_get_device_status
        (const_fw AE_OK (some (acpi_object.buffer [1, 0, 0x41, 0x08, 0, 0, 0, 0])) 0 0)
        wmid_v2_radios ACER_WMID3_GDS_BLUETOOTH
      = ((AE_OK, none), { wmid_v2_radios with log := wmid_v2_radios.log ++
          [fw_call.wmi_evaluate_method Guid.WMID_GUID3 0 0x2
            (wmi_input.wmid3_gds_get_input_param 0x1 wmid_v2_radios.commun_fn_key_number
              ACER_WMID3_GDS_BLUETOOTH)] }) :=
  ⟨(wmid3_error_codes_return_success
      (const_fw AE_OK (some (acpi_object.buffer [1, 0, 0x41, 0x08, 0, 0, 0, 0])) 0 0)
      wmid_v2_radios 1 ACER_WMID3_GDS_BLUETOOTH AE_OK [1, 0, 0x41, 0x08, 0, 0, 0, 0]
      (by decide) (by decide) (by decide)).1 (by decide),
   (wmid3_error_codes_return_success
      (const_fw AE_OK (some (acpi_object.buffer [1, 0, 0x41, 0x08, 0, 0, 0, 0])) 0 0)
      wmid_v2_radios 1 ACER_WMID3_GDS_BLUETOOTH AE_OK [1, 0, 0x41, 0x08, 0, 0, 0, 0]
      (by decide) (by decide) (by decide)).2 (by decide)⟩

/-! ### The writes of the turbo button -/

/-- C26: `acer_toggle_turbo` sets `turbo_state` to 1 if it was 0 and to 0
otherwise, whatever the firmware answers, and requests in this order the LED
write, the fan-mode write and the two overclock writes: LED `0x10001`, fan
mode 2, overclock `0x205` then `0x207` when entering turbo, and LED `0x1`, fan
mode 1, overclock `0x5` then `0x7` when leaving it.  A request reaches the
firmware exactly when its capability bit (`TURBO_LED`, `TURBO_FAN`,
`TURBO_OC`) is set; nothing but `turbo_state` and the call log changes. -/
theorem acer_toggle_turbo_writes (fw : Firmware) (s : State) :
    (acer_toggle_turbo fw s).turbo_state = (if s.turbo_state = 0 then 1 else 0) ∧
    acer_toggle_turbo fw s
      = (WMID_gaming_set_u64 fw
          (WMID_gaming_set_u64 fw
            (WMID_gaming_set_fan_mode fw
              (WMID_gaming_set_u64 fw
                { s with turbo_state := if s.turbo_state = 0 then 1 else 0 }
                (if s.turbo_state = 0 then 0x10001 else 0x1) ACER_CAP_TURBO_LED).2
              (if s.turbo_state = 0 then 0x2 else 0x1))
            (if s.turbo_state = 0 then 0x205 else 0x5) ACER_CAP_TURBO_OC).2
          (if s.turbo_state = 0 then 0x207 else 0x7) ACER_CAP_TURBO_OC).2 ∧
    (acer_toggle_turbo fw s).log = s.log ++
      ((if s.capability &&& ACER_CAP_TURBO_LED = 0 then []
          else [gaming_write ACER_WMID_SET_GAMING_LED_METHODID
            (if s.turbo_state = 0 then 0x10001 else 0x1)]) ++
        (if s.capability &&& ACER_CAP_TURBO_FAN = 0 then []
          else [gaming_write ACER_WMID_SET_GAMING_FAN_BEHAVIOR
            (fan_mode_word s.quirks (if s.turbo_state = 0 then 0x2 else 0x1))]) ++
        (if s.capability &&& ACER_CAP_TURBO_OC = 0 then []
          else [gaming_write ACER_WMID_SET_GAMING_MISC_SETTING_METHODID
                  (if s.turbo_state = 0 then 0x205 else 0x5),
                gaming_write ACER_WMID_SET_GAMING_MISC_SETTING_METHODID
                  (if s.turbo_state = 0 then 0x207 else 0x7)])) ∧
    acer_toggle_turbo fw s
      = { s with turbo_state := (acer_toggle_turbo fw s).turbo_state,
                 log := (acer_toggle_turbo fw s).log } := by
  refine ⟨?_, ?_, ?_, ?_⟩
  · rw [acer_toggle_turbo_eq]
    by_cases h : s.turbo_state = 0 <;> simp [h]
  · by_cases h : s.turbo_state = 0
    · simp only [acer_toggle_turbo, h, ne_eq, not_true_eq_false, if_false, if_true]
    · simp only [acer_toggle_turbo, h, ne_eq, not_false_eq_true, if_false, if_true]
  · rw [acer_toggle_turbo_eq]
    by_cases h : s.turbo_state = 0 <;>
    simp [h, turbo_calls, turbo_led_code, turbo_fan_code, turbo_oc1_code, turbo_oc2_code]
  · rw [acer_toggle_turbo_eq]

/-! ### The macro-key bank stays in range -/

theorem acer_thermal_profile_change_frame (fw : Firmware) (s : State) :
    (acer_thermal_profile_change fw s).2.macro_key_state = s.macro_key_state ∧
    ((acer_thermal_profile_change fw s).2.events = s.events ∨
     (acer_thermal_profile_change fw s).2.events
       = s.events ++ [out_event.platform_profile_notify]) := by
  simp only [acer_thermal_profile_change]
  split
  · split
    · simp [ec_read]
    · split
      · simp [WMI_gaming_execute_u64_frame, ec_read]
      · split
        · simp [WMI_gaming_execute_u64_frame, ec_read]
        · split
          · simp [WMI_gaming_execute_u64_frame, ec_read]
          · split <;> simp [WMI_gaming_execute_u64_frame, ec_read]
  · simp

theorem keymap_entry_report_ok (code v : Nat) (a : Bool) (k : key_entry)
    (h : sparse_keymap_entry_from_scancode code = some k) :
    key_report_ok (out_event.sparse_keymap_report_event code v a) = true := by
  have hall : ∀ k ∈ acer_wmi_keymap,
      (decide (k.code < 0xda00) || macro_key_scancodes.contains k.code) = true := by decide
  have hmem : k ∈ acer_wmi_keymap := List.mem_of_find?_eq_some h
  have hcode : (k.code == code) = true := by
    have := List.find?_some h
    simpa using this
  have hc : k.code = code := by simpa using hcode
  simp only [key_report_ok, h, Option.isSome_some, Bool.true_and]
  rw [← hc]
  exact hall k hmem

theorem macro_key_press_report_ok (m d : Nat) (hm : m ≤ 2) (h1 : d ≥ 1) (h5 : d ≤ 5) :
    key_report_ok (out_event.sparse_keymap_report_event (0xda00 + (m <<< 4) + d - 1) 1 true)
      = true := by
  interval_cases m <;> interval_cases d <;> decide

theorem notify_hotkey_step (s : State) (rv : event_return_value) :
    (notify_hotkey s rv).macro_key_state = s.macro_key_state ∧
    ∃ ev, (notify_hotkey s rv).events = s.events ++ ev ∧ ∀ e ∈ ev, key_report_ok e = true := by
  unfold notify_hotkey
  cases hk : sparse_keymap_entry_from_scancode rv.key_num with
  | none => exact ⟨rfl, [], by simp, by simp⟩
  | some key =>
    simp only []
    have hok := keymap_entry_report_ok rv.key_num 1 true key hk
    split
    · refine ⟨by simp [emit, notify_rfkill_sync_eq], radio_updates s.capability rv.device_state ++
        [out_event.sparse_keymap_report_event rv.key_num 1 true],
        by simp [emit, notify_rfkill_sync_eq], ?_⟩
      intro e he
      rcases List.mem_append.1 he with h | h
      · simp only [radio_updates, List.mem_append] at h
        rcases h with (h | h) | h
        · split at h
          · rw [List.mem_singleton.1 h]; rfl
          · simp at h
        · split at h
          · rw [List.mem_singleton.1 h]; rfl
          · simp at h
        · split at h
          · rw [List.mem_singleton.1 h]; rfl
          · simp at h
      · rw [List.mem_singleton.1 h]; exact hok
    · split
      · refine ⟨rfl, [out_event.sparse_keymap_report_event
          (if rv.device_state &&& ACER_WMID3_GDS_TOUCHPAD ≠ 0 then KEY_TOUCHPAD_ON
            else KEY_TOUCHPAD_OFF) 1 true], rfl, ?_⟩
        intro e he
        rw [List.mem_singleton.1 he]
        split <;> decide
      · refine ⟨rfl, [out_event.sparse_keymap_report_event rv.key_num 1 true], rfl, ?_⟩
        intro e he
        rw [List.mem_singleton.1 he]; exact hok

theorem acer_gsensor_event_step (fw : Firmware) (s : State) :
    (acer_gsensor_event fw s).2.macro_key_state = s.macro_key_state ∧
    (acer_gsensor_event fw s).2.capability = s.capability ∧
    ∃ ev, (acer_gsensor_event fw s).2.events = s.events ++ ev ∧
      ∀ e ∈ ev, key_report_ok e = true := by
  unfold acer_gsensor_event
  split
  · exact ⟨rfl, rfl, [], by simp, by simp⟩
  · simp only []
    split
    · exact ⟨rfl, rfl, [], by simp, by simp⟩
    · split
      · exact ⟨rfl, rfl, [], by simp, by simp⟩
      · refine ⟨rfl, rfl, _, by simp only [emit, List.append_assoc]; rfl, ?_⟩
        intro e he
        simp only [List.singleton_append, List.mem_cons, List.mem_singleton] at he
        rcases he with h | h | h | h | h
        · rw [h]; rfl
        · rw [h]; rfl
        · rw [h]; rfl
        · rw [h]; rfl
        · simp at h

theorem acer_kbd_dock_event_step (s : State) (rv : event_return_value) :
    (acer_kbd_dock_event s rv).macro_key_state = s.macro_key_state ∧
    ∃ ev, (acer_kbd_dock_event s rv).events = s.events ++ ev ∧
      ∀ e ∈ ev, key_report_ok e = true := by
  unfold acer_kbd_dock_event
  split
  · exact ⟨rfl, [], by simp, by simp⟩
  · refine ⟨rfl, _, by simp only [emit, List.append_assoc]; rfl, ?_⟩
    intro e he
    simp only [List.singleton_append, List.mem_cons, List.mem_singleton] at he
    rcases he with h | h | h
    · rw [h]; rfl
    · rw [h]; rfl
    · simp at h


theorem notify_turbo_key_step (fw : Firmware) (s : State) (rv : event_return_value)
    (hm : s.macro_key_state ≤ 2) :
    (notify_turbo_key fw s rv).macro_key_state ≤ 2 ∧
    ∃ ev, (notify_turbo_key fw s rv).events = s.events ++ ev ∧
      ∀ e ∈ ev, key_report_ok e = true := by
  unfold notify_turbo_key
  split
  · split
    · rename_i h
      refine ⟨?_, [], by simp, by simp⟩
      have h1 := h.1
      have h3 := h.2
      show (rv.device_state - 1) % 256 ≤ 2
      omega
    · exact ⟨hm, [], by simp, by simp⟩
  · split
    · split
      · rename_i h
        refine ⟨hm, [out_event.sparse_keymap_report_event
          (0xda00 + (s.macro_key_state <<< 4) + rv.device_state - 1) 1 true], rfl, ?_⟩
        intro e he
        rw [List.mem_singleton.1 he]
        exact macro_key_press_report_ok s.macro_key_state rv.device_state hm h.1 h.2
      · exact ⟨hm, [], by simp, by simp⟩
    · split
      · rw [acer_toggle_turbo_eq]
        exact ⟨hm, [], by simp, by simp⟩
      · split
        · have hf := acer_thermal_profile_change_frame fw s
          refine ⟨by rw [hf.1]; exact hm, ?_⟩
          rcases hf.2 with h | h
          · exact ⟨[], by simp [h], by simp⟩
          · refine ⟨[out_event.platform_profile_notify], h, ?_⟩
            intro e he
            rw [List.mem_singleton.1 he]; rfl
        · exact ⟨hm, [], by simp, by simp⟩

theorem acer_wmi_notify_step (fw : Firmware) (s : State) (status : acpi_status)
    (obj : Option acpi_object) (hm : s.macro_key_state ≤ 2) :
    (acer_wmi_notify fw s status obj).macro_key_state ≤ 2 ∧
    ∃ ev, (acer_wmi_notify fw s status obj).events = s.events ++ ev ∧
      ∀ e ∈ ev, key_report_ok e = true := by
  have hid : s.macro_key_state ≤ 2 ∧
      ∃ ev, s.events = s.events ++ ev ∧ ∀ e ∈ ev, key_report_ok e = true :=
    ⟨hm, [], by simp, by simp⟩
  unfold acer_wmi_notify
  split
  · exact hid
  · split
    · exact hid
    · split
      · exact hid
      · simp only []
        split
        · have h := notify_hotkey_step s (event_of_buffer ‹List Nat›)
          exact ⟨by rw [h.1]; exact hm, h.2⟩
        · split
          · have hg := acer_gsensor_event_step fw s
            have hd := acer_kbd_dock_event_step (acer_gsensor_event fw s).2
              (event_of_buffer ‹List Nat›)
            refine ⟨by rw [hd.1, hg.1]; exact hm, ?_⟩
            obtain ⟨ev1, h1, ok1⟩ := hg.2.2
            obtain ⟨ev2, h2, ok2⟩ := hd.2
            refine ⟨ev1 ++ ev2, by rw [h2, h1, List.append_assoc], ?_⟩
            intro e he
            rcases List.mem_append.1 he with h | h
            · exact ok1 e h
            · exact ok2 e h
          · split
            · exact notify_turbo_key_step fw s _ hm
            · exact hid
    · exact hid

theorem acer_wmi_notify_all_inv (fw : Firmware) (evs : List (acpi_status × Option acpi_object)) :
    ∀ s : State, s.macro_key_state ≤ 2 → (∀ e ∈ s.events, key_report_ok e = true) →
      (acer_wmi_notify_all fw evs s).macro_key_state ≤ 2 ∧
      ∀ e ∈ (acer_wmi_notify_all fw evs s).events, key_report_ok e = true := by
  induction evs with
  | nil => intro s hm he; exact ⟨hm, he⟩
  | cons x xs ih =>
    intro s hm he
    have hs := acer_wmi_notify_step fw s x.1 x.2 hm
    obtain ⟨ev, hev, hok⟩ := hs.2
    apply ih (acer_wmi_notify fw s x.1 x.2) hs.1
    intro e hmem
    rw [hev] at hmem
    rcases List.mem_append.1 hmem with h | h
    · exact he e h
    · exact hok e h

/-- C27: starting from `macro_key_state` 0 with no report made yet, after any
finite sequence of events delivered to `acer_wmi_notify` (of any status and
shape) `macro_key_state` is 0, 1 or 2, and every key report made has a
scancode with an entry in `acer_wmi_keymap`; a reported scancode in the
macro-key range (from `0xda00` on) is one of the fifteen scancodes
`0xda00..0xda04`, `0xda10..0xda14`, `0xda20..0xda24`, each of which has an
entry in the keymap. -/
theorem macro_key_state_in_range (fw : Firmware) (evs : List (acpi_status × Option acpi_object))
    (s : State) (h0 : s.macro_key_state = 0) (hev : s.events = []) :
    ((acer_wmi_notify_all fw evs s).macro_key_state = 0 ∨
      (acer_wmi_notify_all fw evs s).macro_key_state = 1 ∨
      (acer_wmi_notify_all fw evs s).macro_key_state = 2) ∧
    (∀ code v a, out_event.sparse_keymap_report_event code v a
        ∈ (acer_wmi_notify_all fw evs s).events →
      (sparse_keymap_entry_from_scancode code).isSome = true ∧
      (code ≥ 0xda00 → code ∈ macro_key_scancodes)) ∧
    (∀ code ∈ macro_key_scancodes, (sparse_keymap_entry_from_scancode code).isSome = true) := by
  have hinv := acer_wmi_notify_all_inv fw evs s (by rw [h0]; decide) (by rw [hev]; simp)
  refine ⟨?_, ?_, by decide⟩
  · have := hinv.1
    omega
  · intro code v a hmem
    have hk := hinv.2 _ hmem
    simp only [key_report_ok, Bool.and_eq_true, Bool.or_eq_true, decide_eq_true_eq] at hk
    refine ⟨hk.1, fun hge => ?_⟩
    rcases hk.2 with h | h
    · omega
    · simpa using h

/-- Witness of C27: bank 3 is selected, an out-of-range bank is refused and
the fifth macro key is pressed. -/
theorem macro_key_state_in_range_witness :
    (acer_wmi_notify_all (const_fw AE_OK none 0 0)
      [(AE_OK, some (event_buffer 7 1 3 0)), (AE_OK, some (event_buffer 7 1 9 0)),
       (AE_OK, some (event_buffer 7 2 5 0))] predator_turbo_machine).macro_key_state = 0 ∨
    (acer_wmi_notify_all (const_fw AE_OK none 0 0)
      [(AE_OK, some (event_buffer 7 1 3 0)), (AE_OK, some (event_buffer 7 1 9 0)),
       (AE_OK, some (event_buffer 7 2 5 0))] predator_turbo_machine).macro_key_state = 1 ∨
    (acer_wmi_notify_all (const_fw AE_OK none 0 0)
      [(AE_OK, some (event_buffer 7 1 3 0)), (AE_OK, some (event_buffer 7 1 9 0)),
       (AE_OK, some (event_buffer 7 2 5 0))] predator_turbo_machine).macro_key_state = 2 :=
  (macro_key_state_in_range (const_fw AE_OK none 0 0)
    [(AE_OK, some (event_buffer 7 1 3 0)), (AE_OK, some (event_buffer 7 1 9 0)),
     (AE_OK, some (event_buffer 7 2 5 0))] predator_turbo_machine (by decide) (by decide)).1

/-! ### The status of `set_u8_array` -/

theorem set_u8_array_never_ok (fw : Firmware) (s : State) (array : List Nat) (cap : Nat)
    (r : acpi_status × State) (h : set_u8_array fw s array cap = some r) :
    ACPI_FAILURE r.1 = true := by
  unfold set_u8_array at h
  split at h
  · cases h; rfl
  · split at h
    · cases h
    · split at h
      · simp only [] at h
        split at h
        · cases h; assumption
        · cases h; rfl
      · cases h; rfl

theorem set_u8_array_wrong_length (fw : Firmware) (s : State) (array : List Nat)
    (hg : s.gaming_interface = true) (hn : array.length ≠ 16) :
    set_u8_array fw s array ACER_CAP_GAMINGKB = some (AE_BAD_PARAMETER, s) := by
  unfold set_u8_array
  split
  · rfl
  · simp only [hg, not_true_eq_false, if_false]
    split
    · simp [WMID_gaming_set_u8_array, GAMING_KBBL_CONFIG_LEN, hn, ACPI_FAILURE, AE_BAD_PARAMETER]
    · rfl

/-- C25, evaluated where the code departs from it: the gaming interface
supports the dynamic keyboard backlight, the array has exactly 16 bytes and
the firmware call succeeds (it is made, with the 16 bytes, and answered with
`AE_OK`), yet `set_u8_array` returns `AE_BAD_PARAMETER`, a failure status. -/
theorem set_u8_array_success_reported_bad_parameter :
    predator_gaming_kbd.gaming_capability &&& ACER_CAP_GAMINGKB ≠ 0 ∧
    kbbl_config.length = 16 ∧
    WMID_gaming_set_u8_array (const_fw AE_OK none 0 0) predator_gaming_kbd kbbl_config
        ACER_CAP_GAMINGKB
      = (AE_OK, { predator_gaming_kbd with log := [fw_call.wmi_evaluate_method Guid.WMID_GUID4 0
          ACER_WMID_SET_GAMINGKBBL_METHODID (wmi_input.bytes kbbl_config)] }) ∧
    set_u8_array (const_fw AE_OK none 0 0) predator_gaming_kbd kbbl_config ACER_CAP_GAMINGKB
      = some (AE_BAD_PARAMETER,
          { predator_gaming_kbd with log := [fw_call.wmi_evaluate_method Guid.WMID_GUID4 0
            ACER_WMID_SET_GAMINGKBBL_METHODID (wmi_input.bytes kbbl_config)] }) ∧
    errorKind AE_BAD_PARAMETER = some ErrorKind.BadParameter := by
  decide

/-! ### The two writers of the thermal profile -/

/-- C28, evaluated where the code departs from it: after a successful
`acer_platform_profile_setup` the stored profile is the Balanced word `0x010B`,
and one successful explicit set of the Quiet profile stores the EC code 1,
which is none of the four non-Turbo profile words; on kernel 6.14 and before
it alike.  The thermal key in toggle mode, pressed in Turbo on AC, then writes
the word 1. -/
theorem last_non_turbo_profile_leaves_profile_codes :
    (acer_platform_profile_setup (predator_fw 3 1) predator_unregistered 0).map
        (fun r => (r.1, r.2.last_non_turbo_profile))
      = some (0, ACER_PREDATOR_V4_THERMAL_PROFILE_BALANCED_WMI) ∧
    (acer_platform_profile_setup (predator_fw 3 1) predator_unregistered_6_1 0).map
        (fun r => (r.1, r.2.last_non_turbo_profile))
      = some (0, ACER_PREDATOR_V4_THERMAL_PROFILE_BALANCED_WMI) ∧
    (setup_then_set (predator_fw 3 1) predator_unregistered
      platform_profile_option.PLATFORM_PROFILE_QUIET).last_non_turbo_profile = 1 ∧
    (setup_then_set (predator_fw 3 1) predator_unregistered_6_1
      platform_profile_option.PLATFORM_PROFILE_QUIET).last_non_turbo_profile = 1 ∧
    (1 : Int) ∉ non_turbo_profile_codes ∧
    (acer_thermal_profile_change (predator_fw 3 1)
      (setup_then_set (predator_fw 3 1) predator_unregistered
        platform_profile_option.PLATFORM_PROFILE_QUIET)).2.log
      = (setup_then_set (predator_fw 3 1) predator_unregistered
          platform_profile_option.PLATFORM_PROFILE_QUIET).log
        ++ profile_queries ++ [profile_write 1] := by
  decide

/-- C30, evaluated where the code departs from it: for the Turbo profile
`acer_predator_v4_platform_profile_set` sends the word `0x030B` (kernel 6.14 on;
the bare EC code 3 before) to the set-misc-setting method, while
`acer_thermal_profile_change` with target Turbo sends `0x050B`; and for none of
the five profiles does the explicit set send the word of
`enum acer_predator_v4_thermal_profile_wmi`. -/
theorem profile_writers_send_different_words :
    (acer_predator_v4_platform_profile_set (predator_fw 2 1) predator_v4_machine
      ThermalProfile.Turbo.platform_profile).2.log
      = [gaming_write ACER_WMID_SET_GAMING_MISC_SETTING_METHODID 0x030B] ∧
    (acer_predator_v4_platform_profile_set (predator_fw 2 1) predator_turbo_machine_6_1
      ThermalProfile.Turbo.platform_profile).2.log
      = [gaming_write ACER_WMID_SET_GAMING_MISC_SETTING_METHODID 0x3] ∧
    (acer_thermal_profile_change (predator_fw 2 1) predator_v4_machine).2.log
      = profile_queries ++ [gaming_write ACER_WMID_SET_GAMING_MISC_SETTING_METHODID 0x050B] ∧
    [ThermalProfile.Eco, ThermalProfile.Quiet, ThermalProfile.Balanced,
      ThermalProfile.Performance, ThermalProfile.Turbo].map
        (fun p => (acer_predator_v4_platform_profile_set (predator_fw 2 1) predator_v4_machine
          p.platform_profile).2.log)
      = [[gaming_write ACER_WMID_SET_GAMING_MISC_SETTING_METHODID 0x040B],
         [gaming_write ACER_WMID_SET_GAMING_MISC_SETTING_METHODID 0x010B],
         [gaming_write ACER_WMID_SET_GAMING_MISC_SETTING_METHODID 0x000B],
         [gaming_write ACER_WMID_SET_GAMING_MISC_SETTING_METHODID 0x020B],
         [gaming_write ACER_WMID_SET_GAMING_MISC_SETTING_METHODID 0x030B]] ∧
    [ThermalProfile.Eco, ThermalProfile.Quiet, ThermalProfile.Balanced,
      ThermalProfile.Performance, ThermalProfile.Turbo].map (fun p => profile_write p.wmi)
      = [gaming_write ACER_WMID_SET_GAMING_MISC_SETTING_METHODID 0x060B,
         gaming_write ACER_WMID_SET_GAMING_MISC_SETTING_METHODID 0x000B,
         gaming_write ACER_WMID_SET_GAMING_MISC_SETTING_METHODID 0x010B,
         gaming_write ACER_WMID_SET_GAMING_MISC_SETTING_METHODID 0x040B,
         gaming_write ACER_WMID_SET_GAMING_MISC_SETTING_METHODID 0x050B] := by
  decide

/-! ### Capabilities at startup -/

theorem AMW0_set_u32_capability (fw : Firmware) (s : State) (v c : Nat) :
    (AMW0_set_u32 fw s v c).2.capability = s.capability ∧
    (AMW0_set_u32 fw s v c).2.interface_type = s.interface_type := by
  simp only [AMW0_set_u32, wmab_execute, wmi_evaluate_method, ec_write]
  repeat' split
  all_goals exact ⟨rfl, rfl⟩

theorem WMID_set_u32_capability (fw : Firmware) (s : State) (v c : Nat) :
    (WMID_set_u32 fw s v c).2.capability = s.capability ∧
    (WMID_set_u32 fw s v c).2.interface_type = s.interface_type := by
  simp only [WMID_set_u32, WMI_execute_u32_frame, i8042_command]
  repeat' split
  all_goals exact ⟨rfl, rfl⟩

theorem wmid3_set_device_status_capability (fw : Firmware) (s : State) (v d : Nat) :
    (wmid3_set_device_status fw s v d).2.capability = s.capability ∧
    (wmid3_set_device_status fw s v d).2.interface_type = s.interface_type := by
  simp only [wmid3_set_device_status, wmi_evaluate_method]
  repeat' split
  all_goals exact ⟨rfl, rfl⟩

theorem set_u32_capability (fw : Firmware) (s : State) (v c : Nat) :
    (set_u32 fw s v c).2.capability = s.capability := by
  simp only [set_u32, wmid_v2_set_u32]
  repeat' split
  all_goals first
    | rfl
    | exact (AMW0_set_u32_capability fw s v c).1
    | exact (WMID_set_u32_capability fw s v c).1
    | exact (wmid3_set_device_status_capability fw s v _).1
    | exact ((AMW0_set_u32_capability fw _ v c).1.trans (WMID_set_u32_capability fw s v c).1)

theorem acer_commandline_init_capability (fw : Firmware) (env : init_env) (s : State) :
    (acer_commandline_init fw env s).capability = s.capability := by
  simp only [acer_commandline_init]
  repeat' split
  all_goals simp only [set_u32_capability]

theorem wmid3_set_function_mode_capability (fw : Firmware) (s : State) (p : List Nat) :
    (wmid3_set_function_mode fw s p).2.capability = s.capability := by
  simp only [wmid3_set_function_mode, wmi_evaluate_method]
  repeat' split
  all_goals rfl

theorem init_function_mode_capability (fw : Firmware) (env : init_env) (s : State) :
    (init_function_mode fw env s).2.capability = s.capability := by
  simp only [init_function_mode, acer_wmi_enable_rf_button, acer_wmi_enable_ec_raw,
    acer_wmi_enable_lm]
  repeat' split
  all_goals simp only [wmid3_set_function_mode_capability]

theorem acer_wmi_input_setup_capability (fw : Firmware) (env : init_env) (s : State) :
    (acer_wmi_input_setup fw env s).2.capability = s.capability := by
  simp only [acer_wmi_input_setup, acer_kbd_dock_get_initial_state, wmi_evaluate_method, emit]
  repeat' split
  all_goals rfl

theorem init_input_devices_capability (fw : Firmware) (env : init_env) (s : State) :
    (init_input_devices fw env s).2.capability = s.capability := by
  have hi := acer_wmi_input_setup_capability fw env s
  simp only [init_input_devices, acer_wmi_accel_setup]
  repeat' split
  all_goals first | rfl | exact hi

theorem init_platform_device_capability (fw : Firmware) (env : init_env) (s : State) :
    (init_platform_device fw env s).2.capability = s.capability := by
  simp only [init_platform_device, get_wmid_devices, wmi_query_block]
  repeat' split
  all_goals first | rfl | simp only [acer_commandline_init_capability]

theorem init_register_capability (fw : Firmware) (env : init_env) (s : State) :
    (init_register fw env s).2.capability = s.capability := by
  have hf := init_function_mode_capability fw env s
  have hi := init_input_devices_capability fw env (init_function_mode fw env s).2
  have hp := init_platform_device_capability fw env
    (init_input_devices fw env (init_function_mode fw env s).2).2
  simp only [init_register]
  split
  · exact hf
  · split
    · exact hi.trans hf
    · exact hp.trans (hi.trans hf)

theorem acer_wmi_init_ok (fw : Firmware) (env : init_env)
    (hok : (acer_wmi_init fw env).1 = 0) :
    ∃ s0 : State, acer_wmi_init fw env
      = (0, some (init_register fw env (init_capabilities fw env (find_quirks env).2 s0)).2) := by
  have hE : ¬ (- ENODEV = 0) := by decide
  unfold acer_wmi_init at hok ⊢
  split at hok
  · exact absurd hok hE
  · rename_i h1
    simp only [h1, if_false] at hok ⊢
    split at hok
    · exact absurd hok hE
    · rename_i h2
      simp only [h2, if_false] at hok ⊢
      split at hok
      · rename_i h3
        exact absurd hok h3
      · rename_i h3
        simp only [h3, if_false] at hok ⊢
        split at hok
        · rename_i h4
          exact absurd hok h4
        · rename_i h4
          simp only [h4, if_false] at hok ⊢
          split at hok
          · exact absurd hok hE
          · rename_i s hs
            simp only [hs] at hok ⊢
            exact ⟨s, by simp [hok]⟩

theorem find_quirks_force_caps (env : init_env) (h : env.force_caps ≠ -1) :
    (find_quirks env).2 = env.force_caps := by
  simp only [find_quirks]
  repeat' split
  all_goals rfl

/-- C23: when `acer_wmi_init` succeeds and `force_caps` is not -1 at the point
of the override (it was given on the command line, or set by the matching
`set_force_caps` entry of the DMI table), the final `interface->capability` is
the override as a `u32`, so every bit set in the override is set in it: the
bits of `set_quirks`, of the runtime discovery and of the backlight-type check
are all applied before the override and nothing after it writes the
capability word.  An override given on the command line is the one in
force. -/
theorem force_caps_override_kept (fw : Firmware) (env : init_env)
    (hok : (acer_wmi_init fw env).1 = 0) (hf : (find_quirks env).2 ≠ -1) :
    ∃ s : State, (acer_wmi_init fw env).2 = some s ∧
      s.capability = int_to_u32 (find_quirks env).2 ∧
      (∀ i, (int_to_u32 (find_quirks env).2).testBit i = true → s.capability.testBit i = true) ∧
      (env.force_caps ≠ -1 → s.capability = int_to_u32 env.force_caps) := by
  obtain ⟨s0, h0⟩ := acer_wmi_init_ok fw env hok
  have hc : (init_register fw env (init_capabilities fw env (find_quirks env).2 s0)).2.capability
      = int_to_u32 (find_quirks env).2 := by
    rw [init_register_capability]
    simp only [init_capabilities, hf, ne_eq, not_false_eq_true, if_true]
  refine ⟨_, by rw [h0], hc, fun i hi => by rw [hc]; exact hi, fun he => ?_⟩
  rw [hc, find_quirks_force_caps env he]

/-- Witness of C23: the Aspire Switch 10, whose DMI entry forces the
capabilities to the keyboard dock alone. -/
theorem force_caps_override_kept_witness :
    ∃ s : State,
      (acer_wmi_init (const_fw AE_OK (some (acpi_object.buffer [0, 0, 0, 5, 4, 0, 0, 0])) 0 0)
        switch_10_env).2 = some s ∧
      s.capability = int_to_u32 (find_quirks switch_10_env).2 ∧
      (∀ i, (int_to_u32 (find_quirks switch_10_env).2).testBit i = true →
        s.capability.testBit i = true) ∧
      (switch_10_env.force_caps ≠ -1 → s.capability = int_to_u32 switch_10_env.force_caps) :=
  force_caps_override_kept
    (const_fw AE_OK (some (acpi_object.buffer [0, 0, 0, 5, 4, 0, 0, 0])) 0 0) switch_10_env
    (by decide) (by decide)

/-- C24, as stated, fails: on a machine that exposes none of `AMW0_GUID1`,
`WMID_GUID1` and `WMID_GUID3`, `acer_wmi_init` does not complete: it returns
`-ENODEV`, not 0, and leaves `interface` NULL. -/
theorem acer_wmi_init_no_interface_fails :
    (acer_wmi_init (const_fw AE_OK none 0 0) no_interface_env).1 = - ENODEV ∧
    (acer_wmi_init (const_fw AE_OK none 0 0) no_interface_env).1 ≠ 0 ∧
    (acer_wmi_init (const_fw AE_OK none 0 0) no_interface_env).2 = none := by
  decide

/-- C24, amended: if none of `AMW0_GUID1`, `WMID_GUID1` and `WMID_GUID3` is
present, `acer_wmi_init` fails with `-ENODEV` whatever the firmware, the other
GUIDs, the DMI tables and the module parameters are, and `interface` stays
NULL: no capability set is built. -/
theorem acer_wmi_init_no_interface (fw : Firmware) (env : init_env)
    (h1 : Guid.AMW0_GUID1 ∉ env.guids) (h2 : Guid.WMID_GUID1 ∉ env.guids)
    (h3 : Guid.WMID_GUID3 ∉ env.guids) :
    acer_wmi_init fw env = (- ENODEV, none) ∧ detect_interface env.guids = none := by
  have hd : detect_interface env.guids = none := by
    simp [detect_interface, h1, h2, h3]
  refine ⟨?_, hd⟩
  unfold acer_wmi_init
  split
  · rfl
  · simp [h1, hd, init_wmid_devices, init_amw0]

/-- Witness of C24 amended: a machine with the event GUID alone. -/
theorem acer_wmi_init_no_interface_witness :
    acer_wmi_init (const_fw AE_OK none 0 0) no_interface_env = (- ENODEV, none) :=
  (acer_wmi_init_no_interface (const_fw AE_OK none 0 0) no_interface_env
    (by decide) (by decide) (by decide)).1

/-! ### Bad answers in the generic accessor -/

theorem calls_none {α : Type} (x l rest : List α) (c : α) (h : x = x ++ l ++ c :: rest) :
    False := by
  rw [List.append_assoc] at h
  have := List.self_eq_append_right.1 h
  simp at this

theorem calls_one {α : Type} (x l rest : List α) (c c0 : α)
    (h : x ++ [c0] = x ++ l ++ c :: rest) : l = [] ∧ c = c0 := by
  rw [List.append_assoc] at h
  have h2 := List.append_cancel_left h
  cases l with
  | nil => simp at h2; exact ⟨rfl, h2.1.symm⟩
  | cons a t => simp at h2

theorem calls_two {α : Type} (x l rest : List α) (c c0 c1 : α)
    (h : x ++ [c0, c1] = x ++ l ++ c :: rest) :
    (l = [] ∧ c = c0) ∨ (l = [c0] ∧ c = c1) := by
  rw [List.append_assoc] at h
  have h2 := List.append_cancel_left h
  cases l with
  | nil => simp at h2; exact Or.inl ⟨rfl, h2.1.symm⟩
  | cons a t =>
    cases t with
    | nil => simp at h2; exact Or.inr ⟨by rw [h2.1], h2.2.1.symm⟩
    | cons b u => simp at h2

theorem get_surfaces_none (fw : Firmware) (s : State) (st : acpi_status × Option Nat) :
    get_surfaces fw s (st, s) := by
  intro l c rest h _
  exact absurd h (fun h => calls_none _ _ _ _ h)

theorem get_surfaces_one (fw : Firmware) (s : State) (r : (acpi_status × Option Nat) × State)
    (c0 : fw_call) (hlog : r.2.log = s.log ++ [c0])
    (hbad : bad_answer fw s.log c0 = true → ACPI_FAILURE r.1.1 = true ∧ r.1.2 = none) :
    get_surfaces fw s r := by
  intro l c rest h hb
  rw [hlog] at h
  obtain ⟨hl, hc⟩ := calls_one _ _ _ _ _ h
  subst hl hc
  simp only [List.append_nil] at hb
  exact hbad hb

theorem set_surfaces_none (fw : Firmware) (s : State) (st : acpi_status) :
    set_surfaces fw s (st, s) := by
  intro l c rest h _
  exact absurd h (fun h => calls_none _ _ _ _ h)

theorem set_surfaces_one (fw : Firmware) (s : State) (r : acpi_status × State)
    (c0 : fw_call) (hlog : r.2.log = s.log ++ [c0])
    (hbad : bad_answer fw s.log c0 = true → ACPI_FAILURE r.1 = true) :
    set_surfaces fw s r := by
  intro l c rest h hb
  rw [hlog] at h
  obtain ⟨hl, hc⟩ := calls_one _ _ _ _ _ h
  subst hl hc
  simp only [List.append_nil] at hb
  exact hbad hb

theorem set_surfaces_two (fw : Firmware) (s : State) (r : acpi_status × State)
    (c0 c1 : fw_call) (hlog : r.2.log = s.log ++ [c0] ++ [c1])
    (hgood : bad_answer fw s.log c0 = false)
    (hbad : bad_answer fw (s.log ++ [c0]) c1 = true → ACPI_FAILURE r.1 = true) :
    set_surfaces fw s r := by
  intro l c rest h hb
  rw [hlog] at h
  have h2 : s.log ++ [c0, c1] = s.log ++ l ++ c :: rest := by simpa using h
  rcases calls_two _ _ _ _ _ _ h2 with ⟨hl, hc⟩ | ⟨hl, hc⟩
  · subst hl hc
    simp only [List.append_nil] at hb
    rw [hgood] at hb
    exact absurd hb (by decide)
  · subst hl hc
    exact hbad hb

theorem get_surfaces_ec (fw : Firmware) (s : State) (addr shift mask : Nat) :
    get_surfaces fw s (AMW0_get_ec fw s addr shift mask) := by
  refine get_surfaces_one fw s _ (fw_call.ec_read addr) ?_ ?_
  · simp only [AMW0_get_ec, ec_read]
    split <;> rfl
  · intro hb
    have he : (fw.ec_read s.log addr).1 ≠ 0 := by simpa [bad_answer] using hb
    simp [AMW0_get_ec, ec_read, he, ACPI_FAILURE, AE_ERROR]

theorem get_surfaces_AMW0 (fw : Firmware) (s : State) (cap : Nat) :
    get_surfaces fw s (AMW0_get_u32 fw s cap) := by
  simp only [AMW0_get_u32]
  repeat' split
  all_goals first | exact get_surfaces_ec fw s _ _ _ | exact get_surfaces_none fw s _

theorem get_surfaces_wmid3 (fw : Firmware) (s : State) (device : Nat) :
    get_surfaces fw s (wmid3_get_device_status fw s device) := by
  refine get_surfaces_one fw s _ (fw_call.wmi_evaluate_method Guid.WMID_GUID3 0 0x2
    (wmi_input.wmid3_gds_get_input_param 0x1 s.commun_fn_key_number device)) ?_ ?_
  · simp only [wmid3_get_device_status, wmi_evaluate_method]
    repeat' split
    all_goals rfl
  · intro hb
    simp only [bad_answer, decide_True, Bool.true_and, Bool.or_eq_true, Bool.not_eq_true'] at hb
    simp only [wmid3_get_device_status, wmi_evaluate_method]
    rcases hb with hb | hb
    · simp [hb]
    · split
      · exact ⟨by assumption, rfl⟩
      · split
        · rename_i b hobj
          simp only [hobj, gds_reply_ok, if_true, beq_eq_false_iff_ne, ne_eq] at hb
          simp [hb, ACPI_FAILURE, AE_ERROR]
        · exact ⟨rfl, rfl⟩

theorem get_surfaces_wmid_v2 (fw : Firmware) (s : State) (cap : Nat) :
    get_surfaces fw s (wmid_v2_get_u32 fw s cap) := by
  simp only [wmid_v2_get_u32]
  repeat' split
  all_goals first
    | exact get_surfaces_none fw s _
    | exact get_surfaces_wmid3 fw s _


theorem get_surfaces_WMID_run (fw : Firmware) (s : State) (method_id : Nat) :
    get_surfaces fw s
      (if ACPI_SUCCESS (WMI_execute_u32 fw s method_id 0).1.1 = true then
        (((WMI_execute_u32 fw s method_id 0).1.1,
          (WMI_execute_u32 fw s method_id 0).1.2.map (fun w => w % 256)),
          (WMI_execute_u32 fw s method_id 0).2)
      else (((WMI_execute_u32 fw s method_id 0).1.1, none),
        (WMI_execute_u32 fw s method_id 0).2)) := by
  refine get_surfaces_one fw s _ (fw_call.wmi_evaluate_method Guid.WMID_GUID1 0 method_id
    (wmi_input.u32 0)) ?_ ?_
  · split <;> simp [WMI_execute_u32_frame]
  · intro hb
    have h : ACPI_FAILURE (fw.wmi_evaluate_method s.log Guid.WMID_GUID1 method_id
        (wmi_input.u32 0)).1 = true := by
      simpa [bad_answer] using hb
    have h2 : (fw.wmi_evaluate_method s.log Guid.WMID_GUID1 method_id (wmi_input.u32 0)).1 ≠ 0 := by
      simpa [ACPI_FAILURE] using h
    simp [WMI_execute_u32, wmi_evaluate_method, h, ACPI_SUCCESS, h2]

theorem get_surfaces_WMID (fw : Firmware) (s : State) (cap : Nat)
    (l : List fw_call) (c : fw_call) (rest : List fw_call)
    (hlog : (WMID_get_u32 fw s cap).2.log = s.log ++ l ++ c :: rest)
    (hbad : bad_answer fw (s.log ++ l) c = true) (hec : is_ec_read c = false) :
    ACPI_FAILURE (WMID_get_u32 fw s cap).1.1 = true ∧ (WMID_get_u32 fw s cap).1.2 = none := by
  revert hlog
  simp only [WMID_get_u32]
  split
  · exact fun hlog => get_surfaces_WMID_run fw s _ l c rest hlog hbad
  · split
    · exact fun hlog => get_surfaces_WMID_run fw s _ l c rest hlog hbad
    · split
      · exact fun hlog => get_surfaces_WMID_run fw s _ l c rest hlog hbad
      · split
        · exact fun hlog => get_surfaces_WMID_run fw s _ l c rest hlog hbad
        · split
          · split
            · intro hlog
              have h1 := calls_one s.log l rest c (fw_call.ec_read 0x9f) hlog
              rw [h1.2] at hec
              exact absurd hec (by decide)
            · exact fun hlog => absurd hlog (fun h => calls_none _ _ _ _ h)
          · exact fun hlog => absurd hlog (fun h => calls_none _ _ _ _ h)

theorem get_surfaces_get_u32 (fw : Firmware) (s : State) (cap : Nat)
    (l : List fw_call) (c : fw_call) (rest : List fw_call)
    (hlog : (get_u32 fw s cap).2.log = s.log ++ l ++ c :: rest)
    (hbad : bad_answer fw (s.log ++ l) c = true)
    (hec : is_ec_read c = true → s.interface_type = interface_flags.ACER_AMW0 ∨
      (s.interface_type = interface_flags.ACER_AMW0_V2 ∧ cap = ACER_CAP_MAILLED)) :
    ACPI_FAILURE (get_u32 fw s cap).1.1 = true ∧ (get_u32 fw s cap).1.2 = none := by
  revert hlog
  simp only [get_u32]
  split
  · exact fun hlog => get_surfaces_AMW0 fw s cap l c rest hlog hbad
  · rename_i hty
    split
    · exact fun hlog => get_surfaces_AMW0 fw s cap l c rest hlog hbad
    · rename_i hm
      intro hlog
      refine get_surfaces_WMID fw s cap l c rest hlog hbad ?_
      cases h : is_ec_read c with
      | false => rfl
      | true =>
        rcases hec h with h1 | h1
        · rw [hty] at h1; cases h1
        · exact absurd h1.2 hm
  · rename_i hty
    intro hlog
    refine get_surfaces_WMID fw s cap l c rest hlog hbad ?_
    cases h : is_ec_read c with
    | false => rfl
    | true =>
      rcases hec h with h1 | h1
      · rw [hty] at h1; cases h1
      · rw [hty] at h1; cases h1.1
  · rename_i hty
    split
    · exact fun hlog => get_surfaces_wmid_v2 fw s cap l c rest hlog hbad
    · split
      · intro hlog
        refine get_surfaces_WMID fw s cap l c rest hlog hbad ?_
        cases h : is_ec_read c with
        | false => rfl
        | true =>
          rcases hec h with h1 | h1
          · rw [hty] at h1; cases h1
          · rw [hty] at h1; cases h1.1
      · exact fun hlog => absurd hlog (fun h => calls_none _ _ _ _ h)
  · exact fun hlog => absurd hlog (fun h => calls_none _ _ _ _ h)



theorem set_surfaces_WMI_execute_u32 (fw : Firmware) (s : State) (m v : Nat) :
    set_surfaces fw s ((WMI_execute_u32 fw s m v).1.1, (WMI_execute_u32 fw s m v).2) := by
  refine set_surfaces_one fw s _ (fw_call.wmi_evaluate_method Guid.WMID_GUID1 0 m
    (wmi_input.u32 v)) ?_ ?_
  · simp [WMI_execute_u32_frame]
  · intro hb
    have h : ACPI_FAILURE (fw.wmi_evaluate_method s.log Guid.WMID_GUID1 m (wmi_input.u32 v)).1
        = true := by
      simpa [bad_answer] using hb
    simp [WMI_execute_u32, wmi_evaluate_method, h]

theorem set_surfaces_wmab (fw : Firmware) (s : State) (eax ebx ecx edx : Nat) :
    set_surfaces fw s
      ((wmab_execute fw s eax ebx ecx edx).1.1, (wmab_execute fw s eax ebx ecx edx).2) := by
  refine set_surfaces_one fw s _ (fw_call.wmi_evaluate_method Guid.AMW0_GUID1 0 1
    (wmi_input.wmab_args eax ebx ecx edx)) rfl ?_
  intro hb
  simpa [bad_answer, wmab_execute, wmi_evaluate_method] using hb

theorem set_surfaces_ec_write (fw : Firmware) (s : State) (addr value : Nat) :
    set_surfaces fw s
      (int_to_acpi_status (ec_write fw s addr value).1, (ec_write fw s addr value).2) := by
  refine set_surfaces_one fw s _ (fw_call.ec_write addr (value % 256)) rfl ?_
  intro hb
  simp only [bad_answer, decide_eq_true_eq] at hb
  have h : (fw.ec_write s.log addr (value % 256) % 4294967296).toNat ≠ 0 := by omega
  simp [ec_write, int_to_acpi_status, ACPI_FAILURE, h]

theorem set_surfaces_AMW0 (fw : Firmware) (s : State) (value cap : Nat) :
    set_surfaces fw s (AMW0_set_u32 fw s value cap) := by
  simp only [AMW0_set_u32]
  repeat' split
  all_goals first
    | exact set_surfaces_none fw s _
    | exact set_surfaces_wmab fw s _ _ _ _
    | exact set_surfaces_ec_write fw s _ _

theorem set_surfaces_WMID (fw : Firmware) (s : State) (value cap : Nat) :
    set_surfaces fw s (WMID_set_u32 fw s value cap) := by
  simp only [WMID_set_u32]
  repeat' split
  all_goals first
    | exact set_surfaces_none fw s _
    | exact set_surfaces_WMI_execute_u32 fw s _ _
    | exact set_surfaces_one fw s _ (fw_call.i8042_command _ 0x1059) rfl
        (fun h => absurd h (by simp [bad_answer]))

theorem set_surfaces_wmid3 (fw : Firmware) (s : State) (value device : Nat) :
    set_surfaces fw s (wmid3_set_device_status fw s value device) := by
  simp only [wmid3_set_device_status, wmi_evaluate_method]
  split
  · refine set_surfaces_one fw s _ _ rfl (fun _ => by assumption)
  · rename_i hst
    split
    · rename_i b hobj
      split
      · rename_i hlen
        exact set_surfaces_one fw s _ _ rfl (fun _ => rfl)
      · rename_i hlen
        have hgood : bad_answer fw s.log (fw_call.wmi_evaluate_method Guid.WMID_GUID3 0 0x2
            (wmi_input.wmid3_gds_get_input_param 0x1 s.commun_fn_key_number
              s.commun_func_bitmap)) = false := by
          have hl : b.length = 8 := by simpa using hlen
          simp [bad_answer, hst, hobj, gds_reply_ok, hl]
        split
        · refine set_surfaces_one fw s _ _ rfl (fun hb => ?_)
          rw [hgood] at hb
          exact absurd hb (by decide)
        · split
          · exact set_surfaces_two fw s _ _ _ rfl hgood (fun _ => by assumption)
          · rename_i hst2
            split
            · rename_i b2 hobj2
              split
              · exact set_surfaces_two fw s _ _ _ rfl hgood (fun _ => rfl)
              · rename_i hlen2
                refine set_surfaces_two fw s _ _ _ rfl hgood (fun hb => ?_)
                have hl2 : b2.length = 4 := by simpa using hlen2
                simp [bad_answer, hst2, hobj2, gds_reply_ok, hl2] at hb
            · exact set_surfaces_two fw s _ _ _ rfl hgood (fun _ => rfl)
    · exact set_surfaces_one fw s _ _ rfl (fun _ => rfl)

theorem set_surfaces_wmid_v2 (fw : Firmware) (s : State) (value cap : Nat) :
    set_surfaces fw s (wmid_v2_set_u32 fw s value cap) := by
  simp only [wmid_v2_set_u32]
  repeat' split
  all_goals first
    | exact set_surfaces_none fw s _
    | exact set_surfaces_wmid3 fw s _ _

theorem set_surfaces_double_write (fw : Firmware) (s : State) (v c : Nat)
    (hty : s.interface_type = interface_flags.ACER_AMW0_V2) (hcap : s.capability &&& c ≠ 0)
    (hc : c = ACER_CAP_WIRELESS ∨ c = ACER_CAP_BLUETOOTH) :
    set_surfaces fw s (set_u32 fw s v c) := by
  rw [set_u32_AMW0_V2_radio fw s v c hty hcap hc]
  by_cases hv : v > 1
  · simp only [hv, if_true]
    exact set_surfaces_none fw s _
  · simp only [hv, if_false]
    by_cases hf : ACPI_FAILURE (fw.wmi_evaluate_method s.log Guid.WMID_GUID1
        (if c = ACER_CAP_WIRELESS then ACER_WMID_SET_WIRELESS_METHODID
          else ACER_WMID_SET_BLUETOOTH_METHODID) (wmi_input.u32 v)).1 = true
    · simp only [hf, if_true]
      exact set_surfaces_one fw s _ (WMID_radio_write c v) rfl (fun _ => hf)
    · simp only [hf, if_false, Bool.false_eq_true]
      refine set_surfaces_two fw s _ (WMID_radio_write c v) (AMW0_radio_write c v)
        (by simp) ?_ ?_
      · simpa [bad_answer, WMID_radio_write] using hf
      · intro hb
        simpa [bad_answer, AMW0_radio_write] using hb

theorem set_surfaces_set_u32 (fw : Firmware) (s : State) (value cap : Nat) :
    set_surfaces fw s (set_u32 fw s value cap) := by
  by_cases hcap : s.capability &&& cap ≠ 0
  · cases hty : s.interface_type with
    | ACER_AMW0 =>
      simp only [set_u32, hcap, hty, ne_eq, not_false_eq_true, if_true]
      exact set_surfaces_AMW0 fw s _ _
    | ACER_AMW0_V2 =>
      by_cases hm : cap = ACER_CAP_MAILLED
      · subst hm
        simp only [set_u32, hcap, hty, ne_eq, not_false_eq_true, if_true]
        exact set_surfaces_AMW0 fw s _ _
      · by_cases hc : cap = ACER_CAP_WIRELESS ∨ cap = ACER_CAP_BLUETOOTH
        · exact set_surfaces_double_write fw s value cap hty hcap hc
        · simp only [set_u32, hcap, hty, hm, hc, ne_eq, not_false_eq_true, if_true, if_false]
          exact set_surfaces_WMID fw s _ _
    | ACER_WMID =>
      simp only [set_u32, hcap, hty, ne_eq, not_false_eq_true, if_true]
      exact set_surfaces_WMID fw s _ _
    | ACER_WMID_v2 =>
      simp only [set_u32, hcap, hty, ne_eq, not_false_eq_true, if_true]
      split
      · exact set_surfaces_wmid_v2 fw s _ _
      · split
        · exact set_surfaces_WMID fw s _ _
        · exact set_surfaces_none fw s _
    | ACER_WMID_GAMING =>
      simp only [set_u32, hcap, hty, ne_eq, not_false_eq_true, if_true]
      exact set_surfaces_none fw s _
  · simp only [set_u32, hcap, if_false]
    exact set_surfaces_none fw s _


theorem one_call_eq {α : Type} (x : List α) (a b : α) (h : x ++ [a] = x ++ [b]) : a = b := by
  simpa using List.append_cancel_left h

theorem get_reports_none (fw : Firmware) (s : State) (st : acpi_status × Option Nat) :
    get_reports_reply fw s (st, s) := by
  intro m h _
  have := List.self_eq_append_right.1 h
  simp at this

theorem get_reports_other (fw : Firmware) (s : State) (r : (acpi_status × Option Nat) × State)
    (c0 : fw_call) (hlog : r.2.log = s.log ++ [c0])
    (hc : ∀ m, c0 ≠ fw_call.wmi_evaluate_method Guid.WMID_GUID1 0 m (wmi_input.u32 0)) :
    get_reports_reply fw s r := by
  intro m h _
  rw [hlog] at h
  exact absurd (one_call_eq _ _ _ h) (hc m)

theorem get_reports_AMW0 (fw : Firmware) (s : State) (cap : Nat) :
    get_reports_reply fw s (AMW0_get_u32 fw s cap) := by
  have hec : ∀ addr shift mask, get_reports_reply fw s (AMW0_get_ec fw s addr shift mask) := by
    intro addr shift mask
    refine get_reports_other fw s _ (fw_call.ec_read addr) ?_ (fun _ h => by cases h)
    simp only [AMW0_get_ec, ec_read]
    split <;> rfl
  simp only [AMW0_get_u32]
  repeat' split
  all_goals first | exact hec _ _ _ | exact get_reports_none fw s _

theorem get_reports_WMID_run (fw : Firmware) (s : State) (method_id : Nat) :
    get_reports_reply fw s
      (if ACPI_SUCCESS (WMI_execute_u32 fw s method_id 0).1.1 = true then
        (((WMI_execute_u32 fw s method_id 0).1.1,
          (WMI_execute_u32 fw s method_id 0).1.2.map (fun w => w % 256)),
          (WMI_execute_u32 fw s method_id 0).2)
      else (((WMI_execute_u32 fw s method_id 0).1.1, none),
        (WMI_execute_u32 fw s method_id 0).2)) ∧
    (if ACPI_SUCCESS (WMI_execute_u32 fw s method_id 0).1.1 = true then
        (((WMI_execute_u32 fw s method_id 0).1.1,
          (WMI_execute_u32 fw s method_id 0).1.2.map (fun w => w % 256)),
          (WMI_execute_u32 fw s method_id 0).2)
      else (((WMI_execute_u32 fw s method_id 0).1.1, none),
        (WMI_execute_u32 fw s method_id 0).2)).2.log
      = s.log ++ [fw_call.wmi_evaluate_method Guid.WMID_GUID1 0 method_id (wmi_input.u32 0)] := by
  have hlog : (if ACPI_SUCCESS (WMI_execute_u32 fw s method_id 0).1.1 = true then
        (((WMI_execute_u32 fw s method_id 0).1.1,
          (WMI_execute_u32 fw s method_id 0).1.2.map (fun w => w % 256)),
          (WMI_execute_u32 fw s method_id 0).2)
      else (((WMI_execute_u32 fw s method_id 0).1.1, none),
        (WMI_execute_u32 fw s method_id 0).2)).2.log
      = s.log ++ [fw_call.wmi_evaluate_method Guid.WMID_GUID1 0 method_id (wmi_input.u32 0)] := by
    split <;> simp [WMI_execute_u32_frame]
  refine ⟨?_, hlog⟩
  intro m h hok
  rw [hlog] at h
  have hm : method_id = m := by
    have := one_call_eq _ _ _ h
    injection this
  subst hm
  have h2 : (fw.wmi_evaluate_method s.log Guid.WMID_GUID1 method_id (wmi_input.u32 0)).1 = 0 := by
    simpa [ACPI_FAILURE] using hok
  simp only [WMI_execute_u32, wmi_evaluate_method, hok, Bool.false_eq_true, if_false]
  simp [ACPI_SUCCESS, h2]

theorem get_reports_WMID (fw : Firmware) (s : State) (cap : Nat) :
    get_reports_reply fw s (WMID_get_u32 fw s cap) ∧
    (cap = ACER_CAP_WIRELESS ∨ cap = ACER_CAP_BLUETOOTH ∨ cap = ACER_CAP_BRIGHTNESS ∨
        cap = ACER_CAP_THREEG →
      ∃ m, (WMID_get_u32 fw s cap).2.log
        = s.log ++ [fw_call.wmi_evaluate_method Guid.WMID_GUID1 0 m (wmi_input.u32 0)]) := by
  simp only [WMID_get_u32]
  split
  · exact ⟨(get_reports_WMID_run fw s _).1, fun _ => ⟨_, (get_reports_WMID_run fw s _).2⟩⟩
  · split
    · exact ⟨(get_reports_WMID_run fw s _).1, fun _ => ⟨_, (get_reports_WMID_run fw s _).2⟩⟩
    · split
      · exact ⟨(get_reports_WMID_run fw s _).1, fun _ => ⟨_, (get_reports_WMID_run fw s _).2⟩⟩
      · split
        · exact ⟨(get_reports_WMID_run fw s _).1, fun _ => ⟨_, (get_reports_WMID_run fw s _).2⟩⟩
        · rename_i h1 h2 h3 h4
          have hno : ¬ (cap = ACER_CAP_WIRELESS ∨ cap = ACER_CAP_BLUETOOTH ∨
              cap = ACER_CAP_BRIGHTNESS ∨ cap = ACER_CAP_THREEG) := by
            rintro (h | h | h | h)
            · exact h1 h
            · exact h2 h
            · exact h3 h
            · exact h4 h
          split
          · split
            · exact ⟨get_reports_other fw s _ (fw_call.ec_read 0x9f) rfl
                (fun _ h => by cases h), fun h => absurd h hno⟩
            · exact ⟨get_reports_none fw s _, fun h => absurd h hno⟩
          · exact ⟨get_reports_none fw s _, fun h => absurd h hno⟩

theorem get_reports_wmid_v2 (fw : Firmware) (s : State) (cap : Nat) :
    get_reports_reply fw s (wmid_v2_get_u32 fw s cap) := by
  have h3 : ∀ device, get_reports_reply fw s (wmid3_get_device_status fw s device) := by
    intro device
    refine get_reports_other fw s _ (fw_call.wmi_evaluate_method Guid.WMID_GUID3 0 0x2
      (wmi_input.wmid3_gds_get_input_param 0x1 s.commun_fn_key_number device)) ?_
      (fun _ h => by cases h)
    simp only [wmid3_get_device_status, wmi_evaluate_method]
    repeat' split
    all_goals rfl
  simp only [wmid_v2_get_u32]
  repeat' split
  all_goals first | exact get_reports_none fw s _ | exact h3 _

theorem get_reports_get_u32 (fw : Firmware) (s : State) (cap : Nat) :
    get_reports_reply fw s (get_u32 fw s cap) := by
  simp only [get_u32]
  split
  · exact get_reports_AMW0 fw s _
  · split
    · exact get_reports_AMW0 fw s _
    · exact (get_reports_WMID fw s _).1
  · exact (get_reports_WMID fw s _).1
  · split
    · exact get_reports_wmid_v2 fw s _
    · split
      · exact (get_reports_WMID fw s _).1
      · exact get_reports_none fw s _
  · exact get_reports_none fw s _

theorem get_u32_reaches_WMID_GUID1 (fw : Firmware) (s : State) (cap : Nat)
    (hcap : cap = ACER_CAP_WIRELESS ∨ cap = ACER_CAP_BLUETOOTH ∨ cap = ACER_CAP_BRIGHTNESS ∨
      cap = ACER_CAP_THREEG)
    (hty : s.interface_type = interface_flags.ACER_WMID ∨
      s.interface_type = interface_flags.ACER_AMW0_V2 ∨
      (s.interface_type = interface_flags.ACER_WMID_v2 ∧ cap = ACER_CAP_BRIGHTNESS ∧
        wmi_has_guid s Guid.WMID_GUID2 = true)) :
    ∃ m, (get_u32 fw s cap).2.log
      = s.log ++ [fw_call.wmi_evaluate_method Guid.WMID_GUID1 0 m (wmi_input.u32 0)] := by
  have hW := (get_reports_WMID fw s cap).2 hcap
  have hm : ¬ cap = ACER_CAP_MAILLED := by
    rcases hcap with h | h | h | h <;> rw [h] <;> decide
  rcases hty with h | h | ⟨h, hb, hg⟩
  · simpa [get_u32, h] using hW
  · simpa [get_u32, h, hm] using hW
  · have hz : ¬ (cap &&& (ACER_CAP_WIRELESS ||| ACER_CAP_BLUETOOTH ||| ACER_CAP_THREEG) ≠ 0) := by
      rw [hb]; decide
    simp only [get_u32, h, hz, if_false, hg, if_true]
    exact hW


theorem set_returns_none (fw : Firmware) (s : State) (st : acpi_status) :
    set_returns_status fw s (st, s) := by
  intro g m inp _ h
  have := List.self_eq_append_right.1 h
  simp at this

theorem set_returns_one (fw : Firmware) (s : State) (r : acpi_status × State) (c0 : fw_call)
    (hlog : r.2.log = s.log ++ [c0])
    (hc : ∀ g m inp, g ≠ Guid.WMID_GUID3 → c0 = fw_call.wmi_evaluate_method g 0 m inp →
      r.1 = (fw.wmi_evaluate_method s.log g m inp).1) :
    set_returns_status fw s r := by
  intro g m inp hg h
  rw [hlog] at h
  exact hc g m inp hg (one_call_eq _ _ _ h)

theorem set_returns_two (fw : Firmware) (s : State) (r : acpi_status × State) (c0 c1 : fw_call)
    (hlog : r.2.log = s.log ++ [c0] ++ [c1]) : set_returns_status fw s r := by
  intro g m inp _ h
  rw [hlog, List.append_assoc] at h
  have := List.append_cancel_left h
  simp at this

theorem set_returns_WMI_execute_u32 (fw : Firmware) (s : State) (m v : Nat) :
    set_returns_status fw s ((WMI_execute_u32 fw s m v).1.1, (WMI_execute_u32 fw s m v).2) := by
  refine set_returns_one fw s _ (fw_call.wmi_evaluate_method Guid.WMID_GUID1 0 m
    (wmi_input.u32 v)) (by simp [WMI_execute_u32_frame]) ?_
  intro g m2 inp _ h
  injection h with hg _ hm hi
  subst hg hm hi
  simp only [WMI_execute_u32, wmi_evaluate_method]
  split <;> rfl

theorem set_returns_AMW0 (fw : Firmware) (s : State) (value cap : Nat) :
    set_returns_status fw s (AMW0_set_u32 fw s value cap) := by
  have hw : ∀ eax ebx ecx edx, set_returns_status fw s
      ((wmab_execute fw s eax ebx ecx edx).1.1, (wmab_execute fw s eax ebx ecx edx).2) := by
    intro eax ebx ecx edx
    refine set_returns_one fw s _ (fw_call.wmi_evaluate_method Guid.AMW0_GUID1 0 1
      (wmi_input.wmab_args eax ebx ecx edx)) rfl ?_
    intro g m inp _ h
    injection h with hg _ hm hi
    subst hg hm hi
    rfl
  simp only [AMW0_set_u32]
  repeat' split
  all_goals first
    | exact set_returns_none fw s _
    | exact hw _ _ _ _
    | exact set_returns_one fw s _ (fw_call.ec_write 0x83 (value % 256)) rfl
        (fun _ _ _ _ h => by cases h)

theorem set_returns_WMID (fw : Firmware) (s : State) (value cap : Nat) :
    set_returns_status fw s (WMID_set_u32 fw s value cap) := by
  simp only [WMID_set_u32]
  repeat' split
  all_goals first
    | exact set_returns_none fw s _
    | exact set_returns_WMI_execute_u32 fw s _ _
    | exact set_returns_one fw s _ (fw_call.i8042_command _ 0x1059) rfl
        (fun _ _ _ _ h => by cases h)

theorem set_returns_wmid3 (fw : Firmware) (s : State) (value device : Nat) :
    set_returns_status fw s (wmid3_set_device_status fw s value device) := by
  have h1 : ∀ (st : acpi_status) (t : State) (inp : wmi_input),
      t.log = s.log ++ [fw_call.wmi_evaluate_method Guid.WMID_GUID3 0 0x2 inp] →
      set_returns_status fw s (st, t) := by
    intro st t inp ht
    refine set_returns_one fw s _ _ ht ?_
    intro g m i hg h
    injection h with hg2
    exact absurd hg2.symm hg
  simp only [wmid3_set_device_status, wmi_evaluate_method]
  repeat' split
  all_goals first
    | exact h1 _ _ _ rfl
    | exact set_returns_two fw s _ _ _ rfl

theorem set_returns_set_u32 (fw : Firmware) (s : State) (value cap : Nat) :
    set_returns_status fw s (set_u32 fw s value cap) := by
  by_cases hcap : s.capability &&& cap ≠ 0
  · cases hty : s.interface_type with
    | ACER_AMW0 =>
      simp only [set_u32, hcap, hty, ne_eq, not_false_eq_true, if_true]
      exact set_returns_AMW0 fw s _ _
    | ACER_AMW0_V2 =>
      by_cases hm : cap = ACER_CAP_MAILLED
      · subst hm
        simp only [set_u32, hcap, hty, ne_eq, not_false_eq_true, if_true]
        exact set_returns_AMW0 fw s _ _
      · by_cases hc : cap = ACER_CAP_WIRELESS ∨ cap = ACER_CAP_BLUETOOTH
        · rw [set_u32_AMW0_V2_radio fw s value cap hty hcap hc]
          by_cases hv : value > 1
          · simp only [hv, if_true]
            exact set_returns_none fw s _
          · simp only [hv, if_false]
            by_cases hf : ACPI_FAILURE (fw.wmi_evaluate_method s.log Guid.WMID_GUID1
                (if cap = ACER_CAP_WIRELESS then ACER_WMID_SET_WIRELESS_METHODID
                  else ACER_WMID_SET_BLUETOOTH_METHODID) (wmi_input.u32 value)).1 = true
            · simp only [hf, if_true]
              refine set_returns_one fw s _ (WMID_radio_write cap value) rfl ?_
              intro g m inp _ h
              simp only [WMID_radio_write] at h
              injection h with hg _ hmm hi
              subst hg hmm hi
              rfl
            · simp only [hf, if_false, Bool.false_eq_true]
              exact set_returns_two fw s _ (WMID_radio_write cap value)
                (AMW0_radio_write cap value) (by simp)
        · simp only [set_u32, hcap, hty, hm, hc, ne_eq, not_false_eq_true, if_true, if_false]
          exact set_returns_WMID fw s _ _
    | ACER_WMID =>
      simp only [set_u32, hcap, hty, ne_eq, not_false_eq_true, if_true]
      exact set_returns_WMID fw s _ _
    | ACER_WMID_v2 =>
      simp only [set_u32, hcap, hty, ne_eq, not_false_eq_true, if_true]
      split
      · simp only [wmid_v2_set_u32]
        repeat' split
        all_goals first
          | exact set_returns_none fw s _
          | exact set_returns_wmid3 fw s _ _
      · split
        · exact set_returns_WMID fw s _ _
        · exact set_returns_none fw s _
    | ACER_WMID_GAMING =>
      simp only [set_u32, hcap, hty, ne_eq, not_false_eq_true, if_true]
      exact set_returns_none fw s _
  · simp only [set_u32, hcap, if_false]
    exact set_returns_none fw s _


/-- C20, amended: for every `get_u32` / `set_u32` call on every interface
variant, if any call it makes is answered badly (a WMI method call with a
non-success status, a GUID3 device-status call whose reply is not a buffer of
exactly 8 bytes for the read and 4 for the write, an EC write with a non-zero
error, or an EC read with a non-zero error made on the AMW0 path), the accessor
returns a failure status and `get_u32` stores no value.  On the WMID_GUID1
path, on every variant that reaches it, the shape of the reply is not an
error: after a successful call `get_u32` reports the low byte of the word taken
from the reply, which is 0 for an absent reply, a buffer of another length or
an object of another type; and `set_u32` returns the status of its one
WMID_GUID1 or AMW0_GUID1 call whatever the reply. -/
theorem accessor_surfaces_failed_call (fw : Firmware) (s : State) :
    (∀ (cap : Nat) (l : List fw_call) (c : fw_call) (rest : List fw_call),
      (get_u32 fw s cap).2.log = s.log ++ l ++ c :: rest →
      bad_answer fw (s.log ++ l) c = true →
      (is_ec_read c = true → s.interface_type = interface_flags.ACER_AMW0 ∨
        (s.interface_type = interface_flags.ACER_AMW0_V2 ∧ cap = ACER_CAP_MAILLED)) →
      ACPI_FAILURE (get_u32 fw s cap).1.1 = true ∧ (get_u32 fw s cap).1.2 = none) ∧
    (∀ (value cap : Nat) (l : List fw_call) (c : fw_call) (rest : List fw_call),
      (set_u32 fw s value cap).2.log = s.log ++ l ++ c :: rest →
      bad_answer fw (s.log ++ l) c = true →
      ACPI_FAILURE (set_u32 fw s value cap).1 = true) ∧
    (∀ cap m : Nat,
      (get_u32 fw s cap).2.log
        = s.log ++ [fw_call.wmi_evaluate_method Guid.WMID_GUID1 0 m (wmi_input.u32 0)] →
      ACPI_FAILURE (fw.wmi_evaluate_method s.log Guid.WMID_GUID1 m (wmi_input.u32 0)).1
        = false →
      (get_u32 fw s cap).1
        = ((fw.wmi_evaluate_method s.log Guid.WMID_GUID1 m (wmi_input.u32 0)).1,
           some (result_u32 (fw.wmi_evaluate_method s.log Guid.WMID_GUID1 m
             (wmi_input.u32 0)).2 % 256))) ∧
    (∀ cap : Nat,
      (cap = ACER_CAP_WIRELESS ∨ cap = ACER_CAP_BLUETOOTH ∨ cap = ACER_CAP_BRIGHTNESS ∨
        cap = ACER_CAP_THREEG) →
      (s.interface_type = interface_flags.ACER_WMID ∨
        s.interface_type = interface_flags.ACER_AMW0_V2 ∨
        (s.interface_type = interface_flags.ACER_WMID_v2 ∧ cap = ACER_CAP_BRIGHTNESS ∧
          wmi_has_guid s Guid.WMID_GUID2 = true)) →
      ∃ m, (get_u32 fw s cap).2.log
        = s.log ++ [fw_call.wmi_evaluate_method Guid.WMID_GUID1 0 m (wmi_input.u32 0)]) ∧
    (∀ (value cap : Nat) (g : Guid) (m : Nat) (inp : wmi_input), g ≠ Guid.WMID_GUID3 →
      (set_u32 fw s value cap).2.log = s.log ++ [fw_call.wmi_evaluate_method g 0 m inp] →
      (set_u32 fw s value cap).1 = (fw.wmi_evaluate_method s.log g m inp).1) ∧
    result_u32 none = 0 ∧
    (∀ b : List Nat, b.length ≠ 4 → b.length ≠ 8 →
      result_u32 (some (acpi_object.buffer b)) = 0) ∧
    (∀ t, result_u32 (some (acpi_object.other t)) = 0) := by
  refine ⟨fun cap l c rest => get_surfaces_get_u32 fw s cap l c rest,
    fun value cap => set_surfaces_set_u32 fw s value cap,
    fun cap => get_reports_get_u32 fw s cap,
    fun cap hcap hty => get_u32_reaches_WMID_GUID1 fw s cap hcap hty,
    fun value cap => set_returns_set_u32 fw s value cap, rfl, ?_, fun _ => rfl⟩
  intro b h4 h8
  simp [result_u32, h4, h8]

/-- Witness of C20 amended: on an AMW0 machine the EC read of the brightness
register fails. -/
theorem accessor_surfaces_failed_call_witness :
    ACPI_FAILURE (get_u32 (const_fw AE_OK none (-5) 0) amw0_brightness
      ACER_CAP_BRIGHTNESS).1.1 = true ∧
    (get_u32 (const_fw AE_OK none (-5) 0) amw0_brightness ACER_CAP_BRIGHTNESS).1.2 = none :=
  (accessor_surfaces_failed_call (const_fw AE_OK none (-5) 0) amw0_brightness).1
    ACER_CAP_BRIGHTNESS [] (fw_call.ec_read 0x83) [] (by decide) (by decide)
    (fun _ => Or.inl (by decide))

/-! ### The stored profile on builds before kernel 6.14 -/

/-- C13, evaluated where the code departs from it: the module built against
kernel 6.1, after a successful `acer_platform_profile_setup`, has
`acer_predator_v4_max_perf` 0 (nothing assigns it in that build).  A successful
explicit set of the Turbo profile (`PLATFORM_PROFILE_PERFORMANCE`) then stores
the written code 3 in `last_non_turbo_profile`, and a successful explicit set
of Balanced (code 0) leaves `last_non_turbo_profile` as the setup left it.
Built against kernel 6.14, where the probe finds Turbo supported, the same set
of Turbo leaves it unchanged. -/
theorem platform_profile_set_stores_turbo_before_6_14 :
    (acer_platform_profile_setup (predator_fw 0 1) predator_unregistered_6_1 0).map
        (fun r => (r.1, r.2.acer_predator_v4_max_perf, r.2.last_non_turbo_profile))
      = some (0, 0, ACER_PREDATOR_V4_THERMAL_PROFILE_BALANCED_WMI) ∧
    platform_profile_switch platform_profile_option.PLATFORM_PROFILE_PERFORMANCE
      = some (ACER_PREDATOR_V4_THERMAL_PROFILE_TURBO : Int) ∧
    (setup_then_set (predator_fw 0 1) predator_unregistered_6_1
      platform_profile_option.PLATFORM_PROFILE_PERFORMANCE).log
      = [gaming_write ACER_WMID_SET_GAMING_MISC_SETTING_METHODID 3] ∧
    (setup_then_set (predator_fw 0 1) predator_unregistered_6_1
      platform_profile_option.PLATFORM_PROFILE_PERFORMANCE).last_non_turbo_profile = 3 ∧
    (setup_then_set (predator_fw 0 1) predator_unregistered_6_1
      platform_profile_option.PLATFORM_PROFILE_BALANCED).log
      = [gaming_write ACER_WMID_SET_GAMING_MISC_SETTING_METHODID 0] ∧
    (setup_then_set (predator_fw 0 1) predator_unregistered_6_1
      platform_profile_option.PLATFORM_PROFILE_BALANCED).last_non_turbo_profile
      = ACER_PREDATOR_V4_THERMAL_PROFILE_BALANCED_WMI ∧
    (setup_then_set (predator_fw 0 1) predator_unregistered_6_1
      platform_profile_option.PLATFORM_PROFILE_QUIET).last_non_turbo_profile = 1 ∧
    (acer_platform_profile_setup (predator_fw 0 1) predator_unregistered 0).map
        (fun r => (r.1, r.2.acer_predator_v4_max_perf, r.2.last_non_turbo_profile))
      = some (0, 3, ACER_PREDATOR_V4_THERMAL_PROFILE_BALANCED_WMI) ∧
    (setup_then_set (predator_fw 0 1) predator_unregistered
      platform_profile_option.PLATFORM_PROFILE_PERFORMANCE).last_non_turbo_profile
      = ACER_PREDATOR_V4_THERMAL_PROFILE_BALANCED_WMI := by
  decide

end Facer
